import Mathlib

/-!
# Oplock coordination (Samba 3.4.1, `source3/smbd/oplock.c`)

A shallow embedding of the oplock module: the wire codec of a share-mode
entry, the per-handle oplock state with its two global counters, and the
message handlers.  Machine integers are natural numbers (unsigned fields,
reduced modulo their width where the code truncates) or integers (the
microseconds of the open time, read back through an `(int)` cast, and the
two `int32` counters, whose `++` and `--` wrap at the ends of their range).
A `char` buffer is a list of bytes.
-/

namespace Oplock

/-! ## Byte buffers -/

/-- Modelled from the spec: the byte-order macro `SCVAL` (byteorder.h) is not
under `src/`.  It stores the low 8 bits of `val` at `buf[pos]`. -/
def SCVAL (buf : List Nat) (pos val : Nat) : List Nat :=
  buf.set pos (val % 256)

/-- Modelled from the spec: the byte-order macro `SSVAL` (byteorder.h) is not
under `src/`.  It stores a 2-byte field (the spec's width), low byte first. -/
def SSVAL (buf : List Nat) (pos val : Nat) : List Nat :=
  SCVAL (SCVAL buf pos val) (pos + 1) (val / 256)

/-- Modelled from the spec: the byte-order macro `SIVAL` (byteorder.h) is not
under `src/`.  It stores a 4-byte field (the spec's width), low half first;
the `(uint32)` casts of the source are the truncation done here. -/
def SIVAL (buf : List Nat) (pos val : Nat) : List Nat :=
  SSVAL (SSVAL buf pos val) (pos + 2) (val / 65536)

/-- Modelled from the spec: the byte-order macro `CVAL` (byteorder.h) is not
under `src/`.  It reads the byte `buf[pos]`. -/
def CVAL (buf : List Nat) (pos : Nat) : Nat :=
  buf.getD pos 0

/-- Modelled from the spec: the byte-order macro `SVAL` (byteorder.h) is not
under `src/`.  It reads the 2-byte field written by `SSVAL`. -/
def SVAL (buf : List Nat) (pos : Nat) : Nat :=
  CVAL buf pos + 256 * CVAL buf (pos + 1)

/-- Modelled from the spec: the byte-order macro `IVAL` (byteorder.h) is not
under `src/`.  It reads the 4-byte field written by `SIVAL`. -/
def IVAL (buf : List Nat) (pos : Nat) : Nat :=
  SVAL buf pos + 65536 * SVAL buf (pos + 2)

/-- Modelled from the spec: `struct file_id` and its codec (lib/file_id.c) are
not under `src/`.  The spec gives a file identity a fixed encoding of 24
bytes; a file identity is modelled by those 24 bytes. -/
structure file_id where
  enc : List Nat
deriving DecidableEq, Repr

/-- A file identity is well formed when it is exactly 24 bytes. -/
def file_id.valid (id : file_id) : Prop :=
  id.enc.length = 24 ∧ ∀ b ∈ id.enc, b < 256

instance (id : file_id) : Decidable id.valid := by
  unfold file_id.valid; infer_instance

/-- Store the bytes `bs` at `buf[off], buf[off+1], ...`. -/
def put_bytes (buf : List Nat) (off : Nat) : List Nat → List Nat
  | [] => buf
  | b :: bs => put_bytes (SCVAL buf off b) (off + 1) bs

/-- Modelled from the spec: `push_file_id_24` (lib/file_id.c) is not under
`src/`.  It writes the 24-byte fixed encoding of `id` at `buf + off`. -/
def push_file_id_24 (buf : List Nat) (off : Nat) (id : file_id) : List Nat :=
  put_bytes buf off ((List.range 24).map (fun i => id.enc.getD i 0))

/-- Modelled from the spec: `pull_file_id_24` (lib/file_id.c) is not under
`src/`.  It reads the 24-byte fixed encoding found at `buf + off`. -/
def pull_file_id_24 (buf : List Nat) (off : Nat) : file_id :=
  ⟨(List.range 24).map (fun i => CVAL buf (off + i))⟩

/-! ## Share-mode entries and their wire form -/

/-- The `struct server_id` of the source: a process id, and a cluster node
number that exists only when cluster support is compiled in. -/
structure server_id where
  pid : Nat
  vnn : Nat
deriving DecidableEq, Repr

/-- The cast `(uint32)x` of a signed value: its low 32 bits. -/
def uint32_cast (x : Int) : Nat :=
  (x % 4294967296).toNat

/-- The cast `(int)v` of an unsigned 32-bit value: the same 32 bits read as
a signed number, so that values from 2^31 on come out negative. -/
def int_cast (v : Nat) : Int :=
  if v % 4294967296 < 2147483648 then ((v % 4294967296 : Nat) : Int)
  else ((v % 4294967296 : Nat) : Int) - 4294967296

/-- The `struct timeval` of the open time.  The seconds are held as their
unsigned bit pattern; the microseconds are a signed `long`, which the
encoder casts to `uint32` and the decoder reads through `(int)`. -/
structure timeval where
  tv_sec : Nat
  tv_usec : Int
deriving DecidableEq, Repr

/-- The `struct share_mode_entry` of the source, with the fields the codec
reads and writes.  The signed fields pid and seconds are held as their
unsigned bit pattern. -/
structure share_mode_entry where
  pid : server_id
  op_mid : Nat
  op_type : Nat
  access_mask : Nat
  share_access : Nat
  private_options : Nat
  time : timeval
  id : file_id
  share_file_id : Nat
  uid : Nat
  flags : Nat
deriving DecidableEq, Repr

/-- Modelled from the spec: `MSG_SMB_SHARE_MODE_ENTRY_SIZE` (smb.h) is not
under `src/`.  The spec's field widths add up to 62 bytes, plus 4 for the
cluster-node id when cluster support is compiled in. -/
def MSG_SMB_SHARE_MODE_ENTRY_SIZE (CLUSTER_SUPPORT : Bool) : Nat :=
  if CLUSTER_SUPPORT then 66 else 62

/-- Linearize a share mode entry struct to an internal oplock break message
(oplock.c, `share_mode_entry_to_message`).  `msg` is the caller's buffer. -/
def share_mode_entry_to_message (CLUSTER_SUPPORT : Bool) (msg : List Nat)
    (e : share_mode_entry) : List Nat :=
  let msg := SIVAL msg 0 e.pid.pid
  let msg := SSVAL msg 4 e.op_mid
  let msg := SSVAL msg 6 e.op_type
  let msg := SIVAL msg 8 e.access_mask
  let msg := SIVAL msg 12 e.share_access
  let msg := SIVAL msg 16 e.private_options
  let msg := SIVAL msg 20 e.time.tv_sec
  let msg := SIVAL msg 24 (uint32_cast e.time.tv_usec)
  let msg := push_file_id_24 msg 28 e.id
  let msg := SIVAL msg 52 e.share_file_id
  let msg := SIVAL msg 56 e.uid
  let msg := SSVAL msg 60 e.flags
  if CLUSTER_SUPPORT then SIVAL msg 62 e.pid.vnn else msg

/-- De-linearize an internal oplock break message to a share mode entry
struct (oplock.c, `message_to_share_mode_entry`).  `e` is the caller's
struct; the node number is written only with cluster support. -/
def message_to_share_mode_entry (CLUSTER_SUPPORT : Bool) (e : share_mode_entry)
    (msg : List Nat) : share_mode_entry :=
  { pid := { pid := IVAL msg 0
             vnn := if CLUSTER_SUPPORT then IVAL msg 62 else e.pid.vnn }
    op_mid := SVAL msg 4
    op_type := SVAL msg 6
    access_mask := IVAL msg 8
    share_access := IVAL msg 12
    private_options := IVAL msg 16
    time := { tv_sec := IVAL msg 20, tv_usec := int_cast (IVAL msg 24) }
    id := pull_file_id_24 msg 28
    share_file_id := IVAL msg 52
    uid := IVAL msg 56
    flags := SVAL msg 60 }

/-- The `n` low bytes of `v`, low byte first. -/
def leBytes : Nat → Nat → List Nat
  | 0, _ => []
  | n + 1, v => v % 256 :: leBytes n (v / 256)

/-- The number whose bytes, low byte first, are `bs`. -/
def ofLE : List Nat → Nat
  | [] => 0
  | b :: bs => b + 256 * ofLE bs

/-- The 24 bytes that `push_file_id_24` stores for `id`. -/
def file_id_bytes (id : file_id) : List Nat :=
  (List.range 24).map (fun i => id.enc.getD i 0 % 256)

/-- A share-mode entry is valid when each field fits the width the wire
layout gives it, the microseconds as a signed 32-bit number (the decoder
reads them through `(int)`). -/
def share_mode_entry.valid (CLUSTER_SUPPORT : Bool) (e : share_mode_entry) : Prop :=
  e.pid.pid < 2 ^ 32 ∧ e.op_mid < 2 ^ 16 ∧ e.op_type < 2 ^ 16 ∧
  e.access_mask < 2 ^ 32 ∧ e.share_access < 2 ^ 32 ∧ e.private_options < 2 ^ 32 ∧
  e.time.tv_sec < 2 ^ 32 ∧
  (-2147483648 ≤ e.time.tv_usec ∧ e.time.tv_usec < 2147483648) ∧ e.id.valid ∧
  e.share_file_id < 2 ^ 32 ∧ e.uid < 2 ^ 32 ∧ e.flags < 2 ^ 16 ∧
  (CLUSTER_SUPPORT = true → e.pid.vnn < 2 ^ 32)

instance (c : Bool) (e : share_mode_entry) : Decidable (e.valid c) := by
  unfold share_mode_entry.valid; infer_instance

/-- Each field of the entry is within the width the wire layout gives it,
every field taken as an unsigned number: the microseconds are between 0 and
2^32. -/
def share_mode_entry.fits_wire (CLUSTER_SUPPORT : Bool) (e : share_mode_entry) : Prop :=
  e.pid.pid < 2 ^ 32 ∧ e.op_mid < 2 ^ 16 ∧ e.op_type < 2 ^ 16 ∧
  e.access_mask < 2 ^ 32 ∧ e.share_access < 2 ^ 32 ∧ e.private_options < 2 ^ 32 ∧
  e.time.tv_sec < 2 ^ 32 ∧
  (0 ≤ e.time.tv_usec ∧ e.time.tv_usec < 4294967296) ∧ e.id.valid ∧
  e.share_file_id < 2 ^ 32 ∧ e.uid < 2 ^ 32 ∧ e.flags < 2 ^ 16 ∧
  (CLUSTER_SUPPORT = true → e.pid.vnn < 2 ^ 32)

instance (c : Bool) (e : share_mode_entry) : Decidable (e.fits_wire c) := by
  unfold share_mode_entry.fits_wire; infer_instance

/-- The 62 bytes of the fixed part of a message, field after field. -/
def wire_fields (e : share_mode_entry) : List Nat :=
  leBytes 4 e.pid.pid ++ leBytes 2 e.op_mid ++ leBytes 2 e.op_type ++
  leBytes 4 e.access_mask ++ leBytes 4 e.share_access ++ leBytes 4 e.private_options ++
  leBytes 4 e.time.tv_sec ++ leBytes 4 (uint32_cast e.time.tv_usec) ++ file_id_bytes e.id ++
  leBytes 4 e.share_file_id ++ leBytes 4 e.uid ++ leBytes 2 e.flags

/-! ## Oplock state -/

/-- Modelled from the spec: the constants and macros of `smb.h` that oplock.c
uses are not under `src/`.  They are parameters of the model: the oplock
states of the spec (NONE, LEVEL_II, FAKE_LEVEL_II, the EXCLUSIVE family and
the level-II family as tests on an oplock type), the tri-state of
`sent_oplock_break`, the flag bits tested with `&`, the break levels sent to
the client, the break timeout and whether cluster support is compiled in. -/
structure smb_h where
  NO_OPLOCK : Nat
  LEVEL_II_OPLOCK : Nat
  FAKE_LEVEL_II_OPLOCK : Nat
  EXCLUSIVE_OPLOCK_TYPE : Nat → Bool
  LEVEL_II_OPLOCK_TYPE : Nat → Bool
  FORCE_OPLOCK_BREAK_TO_NONE : Nat
  NO_BREAK_SENT : Nat
  BREAK_TO_NONE_SENT : Nat
  LEVEL_II_BREAK_SENT : Nat
  KOPLOCKS_LEVEL2_SUPPORTED : Nat
  KOPLOCKS_DEFERRED_OPEN_NOTIFICATION : Nat
  KOPLOCKS_TIMEOUT_NOTIFICATION : Nat
  KOPLOCKS_OPLOCK_BROKEN_NOTIFICATION : Nat
  CAP_LEVEL_II_OPLOCKS : Nat
  OPLOCKLEVEL_NONE : Nat
  OPLOCKLEVEL_II : Nat
  OPLOCK_BREAK_TIMEOUT : Nat
  CLUSTER_SUPPORT : Bool

/-- What the spec's four states presuppose of the constants: NONE, LEVEL_II
and FAKE_LEVEL_II are three different values, none of them of the EXCLUSIVE
family, and "no break sent" differs from the two "break sent" values. -/
structure smb_h.wf (K : smb_h) : Prop where
  none_ne_level2 : K.NO_OPLOCK ≠ K.LEVEL_II_OPLOCK
  none_ne_fake : K.NO_OPLOCK ≠ K.FAKE_LEVEL_II_OPLOCK
  level2_ne_fake : K.LEVEL_II_OPLOCK ≠ K.FAKE_LEVEL_II_OPLOCK
  excl_none : K.EXCLUSIVE_OPLOCK_TYPE K.NO_OPLOCK = false
  excl_level2 : K.EXCLUSIVE_OPLOCK_TYPE K.LEVEL_II_OPLOCK = false
  excl_fake : K.EXCLUSIVE_OPLOCK_TYPE K.FAKE_LEVEL_II_OPLOCK = false
  no_break_ne_none_sent : K.NO_BREAK_SENT ≠ K.BREAK_TO_NONE_SENT
  no_break_ne_level2_sent : K.NO_BREAK_SENT ≠ K.LEVEL_II_BREAK_SENT

/-- A concrete choice of the parameters, following Samba's `include/smb.h`
(not under `src/`), without cluster support: oplock types are bit flags,
EXCLUSIVE (1) and BATCH (2) making the EXCLUSIVE family, LEVEL_II (4) and
FAKE_LEVEL_II (0x10) the level-II family.  It serves the concrete runs. -/
def samba_3_4_1 : smb_h where
  NO_OPLOCK := 0
  LEVEL_II_OPLOCK := 4
  FAKE_LEVEL_II_OPLOCK := 0x10
  EXCLUSIVE_OPLOCK_TYPE := fun t => t &&& 3 != 0
  LEVEL_II_OPLOCK_TYPE := fun t => t &&& 0x14 != 0
  FORCE_OPLOCK_BREAK_TO_NONE := 0x80
  NO_BREAK_SENT := 0
  BREAK_TO_NONE_SENT := 1
  LEVEL_II_BREAK_SENT := 2
  KOPLOCKS_LEVEL2_SUPPORTED := 1
  KOPLOCKS_DEFERRED_OPEN_NOTIFICATION := 2
  KOPLOCKS_TIMEOUT_NOTIFICATION := 4
  KOPLOCKS_OPLOCK_BROKEN_NOTIFICATION := 8
  CAP_LEVEL_II_OPLOCKS := 0x80
  OPLOCKLEVEL_NONE := 0
  OPLOCKLEVEL_II := 1
  OPLOCK_BREAK_TIMEOUT := 30
  CLUSTER_SUPPORT := false

/-- The exclusive oplock type of Samba (`EXCLUSIVE_OPLOCK`, value 1). -/
def EXCLUSIVE_OPLOCK : Nat := 1

/-- The timed event armed for a pending break: the offset from now at which
`oplock_timeout_handler` is to run for the handle. -/
structure timed_event where
  ofs_sec : Nat
  ofs_usec : Nat
deriving DecidableEq, Repr

/-- The fields of `files_struct` the module reads or writes: the identity
of the open (`file_id`, `fh->gen_id`, `fnum`), its connection (`conn->cnum`,
whether it is encrypted, its service number), and the oplock state.  The
number of pending break messages is the length of the list. -/
structure files_struct where
  file_id : file_id
  gen_id : Nat
  fnum : Nat
  cnum : Nat
  encrypted : Bool
  snum : Nat
  oplock_type : Nat
  sent_oplock_break : Nat
  oplock_timeout : Option timed_event
  pending_break_messages : List share_mode_entry
deriving DecidableEq, Repr

/-- The oplock break packet built by `new_break_smb_message`: a LockingX
request with the fixed header values of the source (pid and mid 0xFFFF, uid 0,
the oplock-release lock type), whose varying words are the tree id, the
file number and the break level `cmd`. -/
structure break_smb_message where
  tid : Nat
  fnum : Nat
  cmd : Nat
deriving DecidableEq, Repr

/-- A call that leaves the module: to the message bus, the client socket,
the signing state, the write cache, the kernel backend, the share-mode
registry, the sleep of `wait_before_sending_break`, or the deferred-open
queue.  Handles are named by `(file_id, gen_id)`. -/
inductive event where
  | messaging_send_buf (dst : server_id) (msg_type : Nat) (buf : List Nat)
  | srv_send_smb (msg : break_smb_message) (encrypted : Bool)
  | srv_oplock_set_signing (state : Bool)
  | flush_write_cache (id : file_id) (gen_id : Nat)
  | kernel_set_oplock (id : file_id) (gen_id : Nat) (oplock_type : Nat)
  | kernel_release_oplock (id : file_id) (gen_id : Nat) (oplock_type : Nat)
  | get_share_mode_lock (id : file_id)
  | remove_share_oplock (id : file_id) (gen_id : Nat)
  | downgrade_share_oplock (id : file_id) (gen_id : Nat)
  | free_share_mode_lock (id : file_id)
  | smb_msleep (ms : Nat)
  | kernel_contend_level2_oplocks_begin (id : file_id) (gen_id : Nat) (type : Nat)
  | kernel_contend_level2_oplocks_end (id : file_id) (gen_id : Nat) (type : Nat)
  | schedule_deferred_open_smb_message (mid : Nat)
deriving DecidableEq, Repr

/-- The ways a call ends the process instead of returning. -/
inductive fatal where
  | smb_panic
  | exit_server
  | exit_server_cleanly
  | abort
deriving DecidableEq, Repr

/-- The largest value of an `int32` counter. -/
def INT32_MAX : Int := 2147483647

/-- The smallest value of an `int32` counter. -/
def INT32_MIN : Int := -2147483648

/-- The statement `x++` on an `int32` counter: from INT32_MAX the counter
wraps to INT32_MIN, as the two's-complement addition of the compiled code
does.  On every value of the `int32` range this is
`(x + 1 + 2^31) % 2^32 - 2^31` (`int32_inc_eq_mod`). -/
def int32_inc (x : Int) : Int :=
  if x = INT32_MAX then INT32_MIN else x + 1

/-- The statement `x--` on an `int32` counter: from INT32_MIN the counter
wraps to INT32_MAX.  On every value of the `int32` range this is
`(x - 1 + 2^31) % 2^32 - 2^31` (`int32_dec_eq_mod`). -/
def int32_dec (x : Int) : Int :=
  if x = INT32_MIN then INT32_MAX else x - 1

/-- The globals of the process: the two `int32` counters of
`smbd/globals.h` (held as integers and moved only by `int32_inc` and
`int32_dec`, which wrap at the ends of the `int32` range), the flag set by
the timeout handler, and the calls made so far, oldest first. -/
structure globals where
  exclusive_oplocks_open : Int
  level_II_oplocks_open : Int
  global_client_failed_oplock_break : Bool
  trace : List event
deriving DecidableEq, Repr

/-- Record a call. -/
def globals.log (g : globals) (e : event) : globals :=
  { g with trace := g.trace ++ [e] }

/-- The kernel backend `struct kernel_oplocks`: its capability flags, the
answer of its `set_oplock` operation, and whether it provides the two
optional contention operations. -/
structure kernel_oplocks where
  flags : Nat
  set_oplock : files_struct → Nat → Bool
  contend_level2_oplocks_begin : Bool
  contend_level2_oplocks_end : Bool

/-- The share-mode lock of one file as `get_share_mode_lock` returns it:
the entries of the registry for that file. -/
structure share_mode_lock where
  share_modes : List share_mode_entry
deriving DecidableEq, Repr

/-- What the collaborators of the module answer during one call: the kernel
backend if any (`koplocks`), the registry (whether the lock is obtained, and
the results of removing or downgrading an entry), the client (capabilities,
whether the send succeeds), allocation of the break packet and of the timed
event, configuration, the identity of this process, and the validity test
of registry entries (locking.c). -/
structure env where
  koplocks : Option kernel_oplocks
  get_share_mode_lock : file_id → Option share_mode_lock
  remove_share_oplock : share_mode_lock → files_struct → Bool
  downgrade_share_oplock : share_mode_lock → files_struct → Bool
  global_client_caps : Nat
  lp_level2_oplocks : Nat → Bool
  lp_oplock_break_wait_time : Nat
  procid_self : server_id
  is_valid_share_mode_entry : share_mode_entry → Bool
  talloc_ok : Bool
  srv_send_smb_ok : Bool
  sign_state : Bool
  event_add_timed_ok : Bool

/-- The test `koplocks && (koplocks->flags & flag)`. -/
def env.koplocks_has (E : env) (flag : Nat) : Bool :=
  match E.koplocks with
  | none => false
  | some k => k.flags &&& flag != 0

/-- The test `koplocks && !(koplocks->flags & flag)`. -/
def env.koplocks_lacks (E : env) (flag : Nat) : Bool :=
  match E.koplocks with
  | none => false
  | some k => k.flags &&& flag == 0

/-- Get the number of current exclusive oplocks. -/
def get_number_of_exclusive_open_oplocks (g : globals) : Int :=
  g.exclusive_oplocks_open

/-- Attempt to set an oplock on a file (oplock.c, `set_file_oplock`).
Returns the result, the globals and the handle after the call. -/
def set_file_oplock (K : smb_h) (E : env) (g : globals) (fsp : files_struct)
    (oplock_type : Nat) : Bool × globals × files_struct :=
  if fsp.oplock_type = K.LEVEL_II_OPLOCK ∧ E.koplocks_lacks K.KOPLOCKS_LEVEL2_SUPPORTED = true then
    (false, g, fsp)
  else
    let asked : Option kernel_oplocks :=
      if fsp.oplock_type ≠ K.NO_OPLOCK ∧ fsp.oplock_type ≠ K.FAKE_LEVEL_II_OPLOCK then E.koplocks
      else none
    let g1 : globals :=
      match asked with
      | some _ => g.log (event.kernel_set_oplock fsp.file_id fsp.gen_id oplock_type)
      | none => g
    let refused : Bool :=
      match asked with
      | some k => !k.set_oplock fsp oplock_type
      | none => false
    if refused then (false, g1, fsp)
    else
      let fsp1 := { fsp with oplock_type := oplock_type, sent_oplock_break := K.NO_BREAK_SENT }
      let g2 : globals :=
        if oplock_type = K.LEVEL_II_OPLOCK then
          { g1 with level_II_oplocks_open := int32_inc g1.level_II_oplocks_open }
        else if K.EXCLUSIVE_OPLOCK_TYPE fsp1.oplock_type then
          { g1 with exclusive_oplocks_open := int32_inc g1.exclusive_oplocks_open }
        else g1
      (true, g2, fsp1)

/-- Modelled from the spec: the macro `SMB_ASSERT` is not under `src/`.  The
spec makes a failed assertion a fatal breach that aborts the process. -/
def SMB_ASSERT {α : Type} (b : Prop) [Decidable b] (k : Except fatal α) : Except fatal α :=
  if b then k else Except.error fatal.smb_panic

/-- Attempt to release an oplock on a file; decrements the oplock count
(oplock.c, `release_file_oplock`). -/
def release_file_oplock (K : smb_h) (E : env) (g : globals) (fsp : files_struct) :
    Except fatal (globals × files_struct) :=
  let g1 : globals :=
    if fsp.oplock_type ≠ K.NO_OPLOCK ∧ fsp.oplock_type ≠ K.FAKE_LEVEL_II_OPLOCK ∧
        E.koplocks.isSome = true then
      g.log (event.kernel_release_oplock fsp.file_id fsp.gen_id K.NO_OPLOCK)
    else g
  let g2 : globals :=
    if fsp.oplock_type = K.LEVEL_II_OPLOCK then
      { g1 with level_II_oplocks_open := int32_dec g1.level_II_oplocks_open }
    else if K.EXCLUSIVE_OPLOCK_TYPE fsp.oplock_type then
      { g1 with exclusive_oplocks_open := int32_dec g1.exclusive_oplocks_open }
    else g1
  SMB_ASSERT (g2.exclusive_oplocks_open ≥ 0) <|
  SMB_ASSERT (g2.level_II_oplocks_open ≥ 0) <|
  let fsp1 : files_struct :=
    if K.EXCLUSIVE_OPLOCK_TYPE fsp.oplock_type then
      { fsp with oplock_type := K.FAKE_LEVEL_II_OPLOCK }
    else
      { fsp with oplock_type := K.NO_OPLOCK }
  let fsp2 := { fsp1 with sent_oplock_break := K.NO_BREAK_SENT }
  let g3 := g2.log (event.flush_write_cache fsp.file_id fsp.gen_id)
  Except.ok (g3, { fsp2 with oplock_timeout := none })

/-- Attempt to downgrade an oplock on a file (oplock.c,
`downgrade_file_oplock`). -/
def downgrade_file_oplock (K : smb_h) (E : env) (g : globals) (fsp : files_struct) :
    globals × files_struct :=
  if !K.EXCLUSIVE_OPLOCK_TYPE fsp.oplock_type then (g, fsp)
  else
    let g1 : globals :=
      if E.koplocks.isSome then
        g.log (event.kernel_release_oplock fsp.file_id fsp.gen_id K.LEVEL_II_OPLOCK)
      else g
    let fsp1 := { fsp with oplock_type := K.LEVEL_II_OPLOCK }
    let g2 := { g1 with exclusive_oplocks_open := int32_dec g1.exclusive_oplocks_open }
    let g3 := { g2 with level_II_oplocks_open := int32_inc g2.level_II_oplocks_open }
    (g3, { fsp1 with sent_oplock_break := K.NO_BREAK_SENT })

/-- Remove a file oplock; locks then unlocks the share mode lock (oplock.c,
`remove_oplock`). -/
def remove_oplock (K : smb_h) (E : env) (g : globals) (fsp : files_struct) :
    Except fatal (Bool × globals × files_struct) :=
  match E.get_share_mode_lock fsp.file_id with
  | none => Except.ok (false, g, fsp)
  | some lck =>
    let g1 := g.log (event.get_share_mode_lock fsp.file_id)
    let ret := E.remove_share_oplock lck fsp
    let g2 := g1.log (event.remove_share_oplock fsp.file_id fsp.gen_id)
    match release_file_oplock K E g2 fsp with
    | Except.error f => Except.error f
    | Except.ok (g3, fsp1) =>
      Except.ok (ret, g3.log (event.free_share_mode_lock fsp.file_id), fsp1)

/-- Deal with a reply when a break-to-level II was sent (oplock.c,
`downgrade_oplock`). -/
def downgrade_oplock (K : smb_h) (E : env) (g : globals) (fsp : files_struct) :
    Bool × globals × files_struct :=
  match E.get_share_mode_lock fsp.file_id with
  | none => (false, g, fsp)
  | some lck =>
    let g1 := g.log (event.get_share_mode_lock fsp.file_id)
    let ret := E.downgrade_share_oplock lck fsp
    let g2 := g1.log (event.downgrade_share_oplock fsp.file_id fsp.gen_id)
    let r := downgrade_file_oplock K E g2 fsp
    (ret, r.1.log (event.free_share_mode_lock fsp.file_id), r.2)

/-- Some kernel oplock implementations handle the notification themselves
(oplock.c, `should_notify_deferred_opens`). -/
def should_notify_deferred_opens (K : smb_h) (E : env) : Bool :=
  !E.koplocks_has K.KOPLOCKS_DEFERRED_OPEN_NOTIFICATION

/-- Set up an oplock break message (oplock.c, `new_break_smb_message`);
`none` when the allocation fails. -/
def new_break_smb_message (E : env) (fsp : files_struct) (cmd : Nat) :
    Option break_smb_message :=
  if E.talloc_ok then some { tid := fsp.cnum, fnum := fsp.fnum, cmd := cmd } else none

/-- Do the waiting before sending a local break (oplock.c,
`wait_before_sending_break`). -/
def wait_before_sending_break (E : env) (g : globals) : globals :=
  if E.lp_oplock_break_wait_time ≠ 0 then g.log (event.smb_msleep E.lp_oplock_break_wait_time)
  else g

/-- The open file table and the globals of one server process. -/
structure smbd where
  g : globals
  Files : List files_struct
deriving DecidableEq, Repr

/-- A message payload as the bus hands it to a handler: the buffer (absent
for a null pointer) and the length field. -/
structure DATA_BLOB where
  data : Option (List Nat)
  length : Nat
deriving DecidableEq, Repr

/-- Message types of the bus (librpc/gen_ndr/messaging.h). -/
def MSG_SMB_BREAK_REQUEST : Nat := 0x0306

/-- Message type of a break response (librpc/gen_ndr/messaging.h). -/
def MSG_SMB_BREAK_RESPONSE : Nat := 0x0307

/-- Message type of an asynchronous level-II break
(librpc/gen_ndr/messaging.h). -/
def MSG_SMB_ASYNC_LEVEL2_BREAK : Nat := 0x0308

/-- Message type of an open retry (librpc/gen_ndr/messaging.h). -/
def MSG_SMB_OPEN_RETRY : Nat := 0x0309

/-- Message type of a kernel break (librpc/gen_ndr/messaging.h). -/
def MSG_SMB_KERNEL_BREAK : Nat := 0x030A

/-- Modelled from the spec: `MSG_SMB_KERNEL_BREAK_SIZE` (smb.h) is not under
`src/`.  The kernel break layout is the file identity (24 bytes) and the
per-open numeric id (4 bytes). -/
def MSG_SMB_KERNEL_BREAK_SIZE : Nat := 28

/-- The contents of a `struct share_mode_entry` on the stack before the
decoder fills it. -/
def share_mode_entry.uninit : share_mode_entry :=
  ⟨⟨0, 0⟩, 0, 0, 0, 0, 0, ⟨0, 0⟩, ⟨[]⟩, 0, 0, 0⟩

/-- Modelled from the spec: `procid_is_me` (lib/util.c) is not under `src/`.
The spec: the entry "belongs to the requesting process itself"; the node
number takes part only with cluster support. -/
def procid_is_me (K : smb_h) (E : env) (pid : server_id) : Bool :=
  decide (pid.pid = E.procid_self.pid) &&
    (!K.CLUSTER_SUPPORT || decide (pid.vnn = E.procid_self.vnn))

/-- Helper function used by the kernel oplock backends to post the break
message (oplock.c, `break_kernel_oplock`). -/
def break_kernel_oplock (E : env) (g : globals) (fsp : files_struct) : globals :=
  let msg := List.replicate MSG_SMB_KERNEL_BREAK_SIZE 0
  let msg := push_file_id_24 msg 0 fsp.file_id
  let msg := SIVAL msg 24 fsp.gen_id
  g.log (event.messaging_send_buf E.procid_self MSG_SMB_KERNEL_BREAK
    (msg.take MSG_SMB_KERNEL_BREAK_SIZE))

/-- Modelled from the spec: `file_find_dif` (smbd/files.c) is not under
`src/`.  The spec: "Resolve the addressed Open Handle by (file identity,
per-open numeric id)"; the result is the position of the first such handle
in the open file table. -/
def file_find_dif (Files : List files_struct) (id : file_id) (gen_id : Nat) : Option Nat :=
  Files.findIdx? (fun f => decide (f.file_id = id) && decide (f.gen_id = gen_id))

/-- Ensure that we have a valid oplock (oplock.c,
`initial_break_processing`): the handle and its position, or `none`. -/
def initial_break_processing (K : smb_h) (Files : List files_struct) (id : file_id)
    (file_id : Nat) : Option (Nat × files_struct) :=
  match file_find_dif Files id file_id with
  | none => none
  | some i =>
    match Files[i]? with
    | none => none
    | some fsp => if fsp.oplock_type = K.NO_OPLOCK then none else some (i, fsp)

/-- Send the pending break responses and forget them (oplock.c,
`reply_to_oplock_break_requests`).  The stack buffer `msg` is overwritten
in full by the encoder. -/
def reply_to_oplock_break_requests (K : smb_h) (E : env) (g : globals) (fsp : files_struct) :
    globals × files_struct :=
  if E.koplocks_has K.KOPLOCKS_OPLOCK_BROKEN_NOTIFICATION then (g, fsp)
  else
    let g1 := fsp.pending_break_messages.foldl
      (fun (acc : globals) (e : share_mode_entry) =>
        let msg := share_mode_entry_to_message K.CLUSTER_SUPPORT
          (List.replicate (MSG_SMB_SHARE_MODE_ENTRY_SIZE K.CLUSTER_SUPPORT) 0) e
        acc.log (event.messaging_send_buf e.pid MSG_SMB_BREAK_RESPONSE
          (msg.take (MSG_SMB_SHARE_MODE_ENTRY_SIZE K.CLUSTER_SUPPORT)))) g
    (g1, { fsp with pending_break_messages := [], oplock_timeout := none })

/-- The timeout handler armed for a pending break (oplock.c,
`oplock_timeout_handler`). -/
def oplock_timeout_handler (K : smb_h) (E : env) (g : globals) (fsp : files_struct) :
    Except fatal (globals × files_struct) :=
  let fsp1 := { fsp with oplock_timeout := none }
  let g1 := { g with global_client_failed_oplock_break := true }
  match remove_oplock K E g1 fsp1 with
  | Except.error f => Except.error f
  | Except.ok (_, g2, fsp2) => Except.ok (reply_to_oplock_break_requests K E g2 fsp2)

/-- Add a timeout handler waiting for the client reply (oplock.c,
`add_oplock_timeout_handler`). -/
def add_oplock_timeout_handler (K : smb_h) (E : env) (fsp : files_struct) : files_struct :=
  if E.koplocks_has K.KOPLOCKS_TIMEOUT_NOTIFICATION then fsp
  else
    { fsp with oplock_timeout :=
        if E.event_add_timed_ok then some { ofs_sec := K.OPLOCK_BREAK_TIMEOUT, ofs_usec := 0 }
        else none }

/-- Send the break packet to the client with signing switched off around
the send, as the three break paths of the source do; the send failing ends
the process. -/
def send_break_to_client (E : env) (g : globals) (fsp : files_struct)
    (break_msg : break_smb_message) : Except fatal globals :=
  let g1 := g.log (event.srv_oplock_set_signing false)
  if !E.srv_send_smb_ok then Except.error fatal.exit_server_cleanly
  else
    let g2 := g1.log (event.srv_send_smb break_msg fsp.encrypted)
    Except.ok (g2.log (event.srv_oplock_set_signing E.sign_state))

/-- Break a level-II oplock to none without expecting a reply (oplock.c,
`break_level2_to_none_async`). -/
def break_level2_to_none_async (K : smb_h) (E : env) (g : globals) (fsp : files_struct) :
    Except fatal (globals × files_struct) :=
  if fsp.oplock_type = K.NO_OPLOCK then Except.ok (g, fsp)
  else if fsp.oplock_type = K.FAKE_LEVEL_II_OPLOCK then
    match remove_oplock K E g fsp with
    | Except.error f => Except.error f
    | Except.ok (_, g1, fsp1) => Except.ok (g1, fsp1)
  else
    SMB_ASSERT (fsp.oplock_type = K.LEVEL_II_OPLOCK) <|
    match new_break_smb_message E fsp K.OPLOCKLEVEL_NONE with
    | none => Except.error fatal.exit_server
    | some break_msg =>
      match send_break_to_client E g fsp break_msg with
      | Except.error f => Except.error f
      | Except.ok g1 =>
        match remove_oplock K E g1 fsp with
        | Except.error f => Except.error f
        | Except.ok (_, g2, fsp1) => Except.ok (g2, fsp1)

/-- Handle a write triggering a break to none message on a level2 oplock
(oplock.c, `process_oplock_async_level2_break_message`). -/
def process_oplock_async_level2_break_message (K : smb_h) (E : env) (s : smbd)
    (data : DATA_BLOB) : Except fatal smbd :=
  match data.data with
  | none => Except.ok s
  | some buf =>
    if data.length ≠ MSG_SMB_SHARE_MODE_ENTRY_SIZE K.CLUSTER_SUPPORT then Except.ok s
    else
      let msg := message_to_share_mode_entry K.CLUSTER_SUPPORT share_mode_entry.uninit buf
      match initial_break_processing K s.Files msg.id msg.share_file_id with
      | none => Except.ok s
      | some (i, fsp) =>
        match break_level2_to_none_async K E s.g fsp with
        | Except.error f => Except.error f
        | Except.ok (g1, fsp1) => Except.ok { g := g1, Files := s.Files.set i fsp1 }

/-- The local `break_to_level2` of `process_oplock_break_message`: a break
to level II is offered when the client has the level-II capability, the
request does not force a break to none, the kernel backend does not lack
level-II support, and the share allows level-II oplocks. -/
def break_to_level2 (K : smb_h) (E : env) (msg : share_mode_entry) (fsp : files_struct) : Bool :=
  (E.global_client_caps &&& K.CAP_LEVEL_II_OPLOCKS != 0) &&
  !(msg.op_type &&& K.FORCE_OPLOCK_BREAK_TO_NONE != 0) &&
  !(E.koplocks_lacks K.KOPLOCKS_LEVEL2_SUPPORTED) &&
  E.lp_level2_oplocks fsp.snum

/-- Handle the generic oplock break message from another smbd (oplock.c,
`process_oplock_break_message`). -/
def process_oplock_break_message (K : smb_h) (E : env) (s : smbd) (src : server_id)
    (data : DATA_BLOB) : Except fatal smbd :=
  match data.data with
  | none => Except.ok s
  | some buf =>
    if data.length ≠ MSG_SMB_SHARE_MODE_ENTRY_SIZE K.CLUSTER_SUPPORT then Except.ok s
    else
      let msg := message_to_share_mode_entry K.CLUSTER_SUPPORT share_mode_entry.uninit buf
      let same_back := event.messaging_send_buf src MSG_SMB_BREAK_RESPONSE
        (buf.take (MSG_SMB_SHARE_MODE_ENTRY_SIZE K.CLUSTER_SUPPORT))
      match initial_break_processing K s.Files msg.id msg.share_file_id with
      | none => Except.ok { s with g := s.g.log same_back }
      | some (i, fsp) =>
        if fsp.sent_oplock_break ≠ K.NO_BREAK_SENT then
          let msg1 := { msg with pid := src }
          let fsp1 := { fsp with
            pending_break_messages := fsp.pending_break_messages ++ [msg1] }
          Except.ok { s with Files := s.Files.set i fsp1 }
        else if K.EXCLUSIVE_OPLOCK_TYPE msg.op_type && !K.EXCLUSIVE_OPLOCK_TYPE fsp.oplock_type then
          Except.ok { s with g := s.g.log same_back }
        else
          let break_to_level2 : Bool := break_to_level2 K E msg fsp
          match new_break_smb_message E fsp
              (if break_to_level2 then K.OPLOCKLEVEL_II else K.OPLOCKLEVEL_NONE) with
          | none => Except.error fatal.exit_server
          | some break_msg =>
            let g1 := if procid_is_me K E src then wait_before_sending_break E s.g else s.g
            match send_break_to_client E g1 fsp break_msg with
            | Except.error f => Except.error f
            | Except.ok g2 =>
              let fsp1 := { fsp with sent_oplock_break :=
                if break_to_level2 then K.LEVEL_II_BREAK_SENT else K.BREAK_TO_NONE_SENT }
              let msg1 := { msg with pid := src }
              let fsp2 := { fsp1 with
                pending_break_messages := fsp1.pending_break_messages ++ [msg1] }
              Except.ok { g := g2, Files := s.Files.set i (add_oplock_timeout_handler K E fsp2) }

/-- Handle the kernel oplock break message (oplock.c,
`process_kernel_oplock_break`). -/
def process_kernel_oplock_break (K : smb_h) (E : env) (s : smbd) (data : DATA_BLOB) :
    Except fatal smbd :=
  match data.data with
  | none => Except.ok s
  | some buf =>
    if data.length ≠ MSG_SMB_KERNEL_BREAK_SIZE then Except.ok s
    else
      let id := pull_file_id_24 buf 0
      let file_id := IVAL buf 24
      match initial_break_processing K s.Files id file_id with
      | none => Except.ok s
      | some (i, fsp) =>
        if fsp.sent_oplock_break ≠ K.NO_BREAK_SENT then Except.ok s
        else
          match new_break_smb_message E fsp K.OPLOCKLEVEL_NONE with
          | none => Except.error fatal.exit_server
          | some break_msg =>
            match send_break_to_client E s.g fsp break_msg with
            | Except.error f => Except.error f
            | Except.ok g1 =>
              let fsp1 := { fsp with sent_oplock_break := K.BREAK_TO_NONE_SENT }
              Except.ok { g := g1, Files := s.Files.set i (add_oplock_timeout_handler K E fsp1) }

/-- Handle a break response: wake the deferred open that waits on it
(oplock.c, `process_oplock_break_response`). -/
def process_oplock_break_response (K : smb_h) (s : smbd) (data : DATA_BLOB) : smbd :=
  match data.data with
  | none => s
  | some buf =>
    if data.length ≠ MSG_SMB_SHARE_MODE_ENTRY_SIZE K.CLUSTER_SUPPORT then s
    else
      let msg := message_to_share_mode_entry K.CLUSTER_SUPPORT share_mode_entry.uninit buf
      { s with g := s.g.log (event.schedule_deferred_open_smb_message msg.op_mid) }

/-- Handle an open retry message (oplock.c, `process_open_retry_message`). -/
def process_open_retry_message (K : smb_h) (s : smbd) (data : DATA_BLOB) : smbd :=
  match data.data with
  | none => s
  | some buf =>
    if data.length ≠ MSG_SMB_SHARE_MODE_ENTRY_SIZE K.CLUSTER_SUPPORT then s
    else
      let msg := message_to_share_mode_entry K.CLUSTER_SUPPORT share_mode_entry.uninit buf
      { s with g := s.g.log (event.schedule_deferred_open_smb_message msg.op_mid) }

/-- The loop of `contend_level2_oplocks_begin_default` over the entries of
the share-mode lock, from the entry at hand to the last. -/
def contend_level2_loop (K : smb_h) (E : env) :
    List share_mode_entry → globals → files_struct → Except fatal (globals × files_struct)
  | [], g, fsp => Except.ok (g, fsp)
  | share_entry :: rest, g, fsp =>
    if !E.is_valid_share_mode_entry share_entry then contend_level2_loop K E rest g fsp
    else if share_entry.op_type = K.NO_OPLOCK then contend_level2_loop K E rest g fsp
    else if K.EXCLUSIVE_OPLOCK_TYPE share_entry.op_type then Except.error fatal.abort
    else
      let msg := share_mode_entry_to_message K.CLUSTER_SUPPORT
        (List.replicate (MSG_SMB_SHARE_MODE_ENTRY_SIZE K.CLUSTER_SUPPORT) 0) share_entry
      if procid_is_me K E share_entry.pid then
        match break_level2_to_none_async K E (wait_before_sending_break E g) fsp with
        | Except.error f => Except.error f
        | Except.ok (g1, fsp1) => contend_level2_loop K E rest g1 fsp1
      else
        contend_level2_loop K E rest
          (g.log (event.messaging_send_buf share_entry.pid MSG_SMB_ASYNC_LEVEL2_BREAK
            (msg.take (MSG_SMB_SHARE_MODE_ENTRY_SIZE K.CLUSTER_SUPPORT)))) fsp

/-- Tell all other level 2 holders to break to none on a file modification
or lock request (oplock.c, `contend_level2_oplocks_begin_default`). -/
def contend_level2_oplocks_begin_default (K : smb_h) (E : env) (g : globals)
    (fsp : files_struct) : Except fatal (globals × files_struct) :=
  if !K.LEVEL_II_OPLOCK_TYPE fsp.oplock_type then Except.ok (g, fsp)
  else
    match E.get_share_mode_lock fsp.file_id with
    | none => Except.ok (g, fsp)
    | some lck =>
      match contend_level2_loop K E lck.share_modes
          (g.log (event.get_share_mode_lock fsp.file_id)) fsp with
      | Except.error f => Except.error f
      | Except.ok (g1, fsp1) => Except.ok (g1.log (event.free_share_mode_lock fsp.file_id), fsp1)

/-- Entry point of level-II contention: the kernel backend's operation if
it has one, else the default (oplock.c, `contend_level2_oplocks_begin`). -/
def contend_level2_oplocks_begin (K : smb_h) (E : env) (g : globals) (fsp : files_struct)
    (type : Nat) : Except fatal (globals × files_struct) :=
  match E.koplocks with
  | some k =>
    if k.contend_level2_oplocks_begin then
      Except.ok (g.log (event.kernel_contend_level2_oplocks_begin fsp.file_id fsp.gen_id type), fsp)
    else contend_level2_oplocks_begin_default K E g fsp
  | none => contend_level2_oplocks_begin_default K E g fsp

/-- End of level-II contention: only kernel backends implement it
(oplock.c, `contend_level2_oplocks_end`). -/
def contend_level2_oplocks_end (E : env) (g : globals) (fsp : files_struct) (type : Nat) :
    globals :=
  match E.koplocks with
  | some k =>
    if k.contend_level2_oplocks_end then
      g.log (event.kernel_contend_level2_oplocks_end fsp.file_id fsp.gen_id type)
    else g
  | none => g

/-! ## The process as a transition system -/

/-- The calls into the module.  A handle is named by its position in the
open file table; a message by its sender and payload. -/
inductive op where
  | set_file_oplock (i : Nat) (oplock_type : Nat)
  | release_file_oplock (i : Nat)
  | downgrade_file_oplock (i : Nat)
  | remove_oplock (i : Nat)
  | downgrade_oplock (i : Nat)
  | reply_to_oplock_break_requests (i : Nat)
  | oplock_timeout_handler (i : Nat)
  | break_level2_to_none_async (i : Nat)
  | contend_level2_oplocks_begin (i : Nat) (type : Nat)
  | contend_level2_oplocks_end (i : Nat) (type : Nat)
  | break_kernel_oplock (i : Nat)
  | process_oplock_break_message (src : server_id) (data : DATA_BLOB)
  | process_oplock_async_level2_break_message (data : DATA_BLOB)
  | process_kernel_oplock_break (data : DATA_BLOB)
  | process_oplock_break_response (data : DATA_BLOB)
  | process_open_retry_message (data : DATA_BLOB)
deriving DecidableEq, Repr

/-- Run a call on the handle at position `i` and store the handle back; a
position that names no open handle names no call. -/
def on_handle (s : smbd) (i : Nat)
    (f : globals → files_struct → Except fatal (globals × files_struct)) : Except fatal smbd :=
  match s.Files[i]? with
  | none => Except.ok s
  | some fsp =>
    match f s.g fsp with
    | Except.error e => Except.error e
    | Except.ok (g1, fsp1) => Except.ok { g := g1, Files := s.Files.set i fsp1 }

/-- One call into the module, with the answers `E` of its collaborators. -/
def step (K : smb_h) (E : env) (s : smbd) : op → Except fatal smbd
  | op.set_file_oplock i t =>
    on_handle s i (fun g fsp => Except.ok (set_file_oplock K E g fsp t).2)
  | op.release_file_oplock i => on_handle s i (release_file_oplock K E)
  | op.downgrade_file_oplock i =>
    on_handle s i (fun g fsp => Except.ok (downgrade_file_oplock K E g fsp))
  | op.remove_oplock i =>
    on_handle s i (fun g fsp =>
      match remove_oplock K E g fsp with
      | Except.error e => Except.error e
      | Except.ok r => Except.ok r.2)
  | op.downgrade_oplock i => on_handle s i (fun g fsp => Except.ok (downgrade_oplock K E g fsp).2)
  | op.reply_to_oplock_break_requests i =>
    on_handle s i (fun g fsp => Except.ok (reply_to_oplock_break_requests K E g fsp))
  | op.oplock_timeout_handler i => on_handle s i (oplock_timeout_handler K E)
  | op.break_level2_to_none_async i => on_handle s i (break_level2_to_none_async K E)
  | op.contend_level2_oplocks_begin i type =>
    on_handle s i (fun g fsp => contend_level2_oplocks_begin K E g fsp type)
  | op.contend_level2_oplocks_end i type =>
    on_handle s i (fun g fsp => Except.ok (contend_level2_oplocks_end E g fsp type, fsp))
  | op.break_kernel_oplock i =>
    on_handle s i (fun g fsp => Except.ok (break_kernel_oplock E g fsp, fsp))
  | op.process_oplock_break_message src data => process_oplock_break_message K E s src data
  | op.process_oplock_async_level2_break_message data =>
    process_oplock_async_level2_break_message K E s data
  | op.process_kernel_oplock_break data => process_kernel_oplock_break K E s data
  | op.process_oplock_break_response data => Except.ok (process_oplock_break_response K s data)
  | op.process_open_retry_message data => Except.ok (process_open_retry_message K s data)

/-- A sequence of calls, each with its own answers of the collaborators; a
fatal exit ends the run. -/
def run (K : smb_h) : smbd → List (env × op) → Except fatal smbd
  | s, [] => Except.ok s
  | s, x :: rest =>
    match step K x.1 s x.2 with
    | Except.error e => Except.error e
    | Except.ok s1 => run K s1 rest

/-- The initial state of the claims: both counters 0 and every handle in
NONE. -/
def smbd.initial (K : smb_h) (s : smbd) : Prop :=
  s.g.exclusive_oplocks_open = 0 ∧ s.g.level_II_oplocks_open = 0 ∧
  ∀ f ∈ s.Files, f.oplock_type = K.NO_OPLOCK

instance (K : smb_h) (s : smbd) : Decidable (s.initial K) := by
  unfold smbd.initial; infer_instance

/-- Mutual exclusion: no two different open handles of the same file are
both in an EXCLUSIVE-family state. -/
def mutual_exclusion (K : smb_h) (Files : List files_struct) : Prop :=
  ∀ (i j : Nat) (fi fj : files_struct), i ≠ j → Files[i]? = some fi → Files[j]? = some fj →
    fi.file_id = fj.file_id → K.EXCLUSIVE_OPLOCK_TYPE fi.oplock_type = true →
    K.EXCLUSIVE_OPLOCK_TYPE fj.oplock_type = true → False

/-- The obligation `set_file_oplock` leaves to its caller: an oplock of the
EXCLUSIVE family is requested for a handle only when no other open handle of
the same file holds one.  Every other call is free. -/
def grant_allowed (K : smb_h) (s : smbd) : op → Prop
  | op.set_file_oplock i t =>
    K.EXCLUSIVE_OPLOCK_TYPE t = true →
      ∀ (j : Nat) (fi fj : files_struct), j ≠ i → s.Files[i]? = some fi → s.Files[j]? = some fj →
        fj.file_id = fi.file_id → K.EXCLUSIVE_OPLOCK_TYPE fj.oplock_type = false
  | _ => True

/-- Every call of the sequence meets `grant_allowed` in the state it is made
in. -/
def grants_allowed (K : smb_h) : smbd → List (env × op) → Prop
  | _, [] => True
  | s, x :: rest =>
    grant_allowed K s x.2 ∧ ∀ s1, step K x.1 s x.2 = Except.ok s1 → grants_allowed K s1 rest

/-- The three calls that move the counters directly. -/
def op.is_counter_call : op → Bool
  | op.set_file_oplock _ _ => true
  | op.release_file_oplock _ => true
  | op.downgrade_file_oplock _ => true
  | _ => false

/-- An environment without kernel backend in which every collaborator
succeeds. -/
def env.plain : env where
  koplocks := none
  get_share_mode_lock := fun _ => some ⟨[]⟩
  remove_share_oplock := fun _ _ => true
  downgrade_share_oplock := fun _ _ => true
  global_client_caps := 0x80
  lp_level2_oplocks := fun _ => true
  lp_oplock_break_wait_time := 0
  procid_self := ⟨100, 0⟩
  is_valid_share_mode_entry := fun _ => true
  talloc_ok := true
  srv_send_smb_ok := true
  sign_state := false
  event_add_timed_ok := true

/-- The environment `env.plain` with a kernel backend of the given
capability flags that grants every request. -/
def env.with_kernel (flags : Nat) : env :=
  { env.plain with
    koplocks := some
      { flags := flags, set_oplock := fun _ _ => true,
        contend_level2_oplocks_begin := false, contend_level2_oplocks_end := false } }

/-- An open handle of the file whose identity is 24 bytes `b`, with per-open
id `gen`, in the given oplock state and with no break in flight. -/
def files_struct.sample (b gen oplock_type : Nat) : files_struct where
  file_id := ⟨List.replicate 24 b⟩
  gen_id := gen
  fnum := gen
  cnum := 1
  encrypted := false
  snum := 0
  oplock_type := oplock_type
  sent_oplock_break := 0
  oplock_timeout := none
  pending_break_messages := []

/-- Globals at start-up: both counters 0, nothing called yet. -/
def globals.zero : globals where
  exclusive_oplocks_open := 0
  level_II_oplocks_open := 0
  global_client_failed_oplock_break := false
  trace := []

/-- The handle keeps its file and does not enter the EXCLUSIVE family. -/
def no_new_exclusive (K : smb_h) (fsp fsp1 : files_struct) : Prop :=
  fsp1.file_id = fsp.file_id ∧
  (K.EXCLUSIVE_OPLOCK_TYPE fsp1.oplock_type = true → K.EXCLUSIVE_OPLOCK_TYPE fsp.oplock_type = true)

/-- The indicator of a test: 1 or 0. -/
def ind (b : Bool) : Int := if b then 1 else 0

/-- Each counter moves at least as much as the handle's membership of the
state it counts: whenever the handle enters the EXCLUSIVE family (or
LEVEL_II) the counter goes up, and it goes down only when the handle
leaves. -/
def counted_move (K : smb_h) (g : globals) (fsp : files_struct) (g1 : globals)
    (fsp1 : files_struct) : Prop :=
  ind (K.EXCLUSIVE_OPLOCK_TYPE fsp1.oplock_type) - ind (K.EXCLUSIVE_OPLOCK_TYPE fsp.oplock_type)
    ≤ g1.exclusive_oplocks_open - g.exclusive_oplocks_open ∧
  ind (decide (fsp1.oplock_type = K.LEVEL_II_OPLOCK)) - ind (decide (fsp.oplock_type = K.LEVEL_II_OPLOCK))
    ≤ g1.level_II_oplocks_open - g.level_II_oplocks_open

/-- The counters cover the handles: each is at least the number of open
handles in the state it counts. -/
def counters_cover (K : smb_h) (s : smbd) : Prop :=
  (s.Files.countP (fun f => K.EXCLUSIVE_OPLOCK_TYPE f.oplock_type) : Int)
    ≤ s.g.exclusive_oplocks_open ∧
  (s.Files.countP (fun f => decide (f.oplock_type = K.LEVEL_II_OPLOCK)) : Int)
    ≤ s.g.level_II_oplocks_open

/-- The open file table after a call: the same handles at the same
positions, none of which entered the EXCLUSIVE family. -/
def files_step (K : smb_h) (Files Files1 : List files_struct) : Prop :=
  ∀ (j : Nat) (f1 : files_struct), Files1[j]? = some f1 →
    ∃ f, Files[j]? = some f ∧ no_new_exclusive K f f1

/-- Two open handles of one file, both in NONE, with both counters 0. -/
def two_handles : smbd where
  g := globals.zero
  Files := [files_struct.sample 7 1 0, files_struct.sample 7 2 0]

/-- A 62-byte break request naming the handle `(file 7, gen_id 1)`, with
oplock type EXCLUSIVE and mid 17, as process 4242 would send it. -/
def sample_request : List Nat :=
  share_mode_entry_to_message false (List.replicate 62 0)
    ⟨⟨4242, 0⟩, 17, 1, 0x12019f, 3, 0, ⟨1256900000, 250000⟩, ⟨List.replicate 24 7⟩, 1, 1000, 0⟩

/-! ## Reading the trace -/

/-- A call is a send on the message bus. -/
def event.is_bus_send : event → Bool
  | event.messaging_send_buf _ _ _ => true
  | _ => false

/-- A call is a packet sent to the client. -/
def event.is_client_send : event → Bool
  | event.srv_send_smb _ _ => true
  | _ => false

/-- A call changes an entry of the share-mode registry. -/
def event.is_registry_write : event → Bool
  | event.remove_share_oplock _ _ => true
  | event.downgrade_share_oplock _ _ => true
  | _ => false

/-- The sends on the message bus found in a trace, in order. -/
def bus_sends (tr : List event) : List event := tr.filter event.is_bus_send

/-- The packets sent to the client found in a trace, in order. -/
def client_sends (tr : List event) : List event := tr.filter event.is_client_send

/-- The changes of registry entries found in a trace, in order. -/
def registry_writes (tr : List event) : List event := tr.filter event.is_registry_write

/-- The handle as `release_file_oplock` leaves it. -/
def released (K : smb_h) (fsp : files_struct) : files_struct :=
  { fsp with
    oplock_type :=
      if K.EXCLUSIVE_OPLOCK_TYPE fsp.oplock_type then K.FAKE_LEVEL_II_OPLOCK else K.NO_OPLOCK
    sent_oplock_break := K.NO_BREAK_SENT
    oplock_timeout := none }

/-- The calls `release_file_oplock` makes: the kernel release when the
handle holds a kernel-visible oplock and a backend is present, then the
flush of the write cache. -/
def release_events (K : smb_h) (E : env) (fsp : files_struct) : List event :=
  (if fsp.oplock_type ≠ K.NO_OPLOCK ∧ fsp.oplock_type ≠ K.FAKE_LEVEL_II_OPLOCK ∧
      E.koplocks.isSome = true then
    [event.kernel_release_oplock fsp.file_id fsp.gen_id K.NO_OPLOCK]
  else []) ++ [event.flush_write_cache fsp.file_id fsp.gen_id]

/-- The break response that `reply_to_oplock_break_requests` sends for one
pending entry. -/
def break_response_for (K : smb_h) (e : share_mode_entry) : event :=
  event.messaging_send_buf e.pid MSG_SMB_BREAK_RESPONSE
    (share_mode_entry_to_message K.CLUSTER_SUPPORT
      (List.replicate (MSG_SMB_SHARE_MODE_ENTRY_SIZE K.CLUSTER_SUPPORT) 0) e)

/-- The counters count the handle: both are non-negative and the one that
counts the handle's state is at least 1, so that the two assertions of
`release_file_oplock` hold. -/
def counted (K : smb_h) (g : globals) (fsp : files_struct) : Prop :=
  0 ≤ g.exclusive_oplocks_open ∧ 0 ≤ g.level_II_oplocks_open ∧
  (fsp.oplock_type = K.LEVEL_II_OPLOCK → 1 ≤ g.level_II_oplocks_open) ∧
  (K.EXCLUSIVE_OPLOCK_TYPE fsp.oplock_type = true → 1 ≤ g.exclusive_oplocks_open)

instance (K : smb_h) (g : globals) (fsp : files_struct) : Decidable (counted K g fsp) := by
  unfold counted; infer_instance

/-! ## Concrete states for the runs -/

/-- The entry that `sample_request` carries: process 4242 asks about the
handle `(file 7, gen_id 1)` with oplock type EXCLUSIVE and mid 17. -/
def sample_entry : share_mode_entry :=
  ⟨⟨4242, 0⟩, 17, 1, 0x12019f, 3, 0, ⟨1256900000, 250000⟩, ⟨List.replicate 24 7⟩, 1, 1000, 0⟩

/-- An EXCLUSIVE handle of file 7 to which a break to level II has been
sent: the marker is LEVEL_II_BREAK_SENT, one requester waits, the timer is
armed. -/
def breaking_handle : files_struct :=
  { files_struct.sample 7 1 EXCLUSIVE_OPLOCK with
    sent_oplock_break := 2
    oplock_timeout := some ⟨30, 0⟩
    pending_break_messages := [sample_entry] }

/-- Globals with one exclusive oplock counted and nothing called yet. -/
def globals.one_exclusive : globals :=
  { globals.zero with exclusive_oplocks_open := 1 }

/-- Globals with `n` level-II oplocks counted and nothing called yet. -/
def globals.level2 (n : Int) : globals :=
  { globals.zero with level_II_oplocks_open := n }

/-- The calls of one break packet to the client: signing off, the packet
with the level `cmd`, signing back to its state. -/
def break_packet_events (E : env) (fsp : files_struct) (cmd : Nat) : List event :=
  [event.srv_oplock_set_signing false,
   event.srv_send_smb { tid := fsp.cnum, fnum := fsp.fnum, cmd := cmd } fsp.encrypted,
   event.srv_oplock_set_signing E.sign_state]

/-- The calls `remove_oplock` makes when the registry lock is obtained. -/
def remove_events (K : smb_h) (E : env) (fsp : files_struct) : List event :=
  [event.get_share_mode_lock fsp.file_id, event.remove_share_oplock fsp.file_id fsp.gen_id] ++
    release_events K E fsp ++ [event.free_share_mode_lock fsp.file_id]

/-- The environment `env.plain` in which the registry lock is not obtained. -/
def env.no_lock : env :=
  { env.plain with get_share_mode_lock := fun _ => none }

/-- A payload whose length field is one short of a share-mode entry. -/
def short_blob : DATA_BLOB :=
  { data := some (sample_request.take 61), length := 61 }

/-- The entry a handler decodes from the payload buffer `buf`. -/
def decoded (K : smb_h) (buf : List Nat) : share_mode_entry :=
  message_to_share_mode_entry K.CLUSTER_SUPPORT share_mode_entry.uninit buf

/-- The sleep `process_oplock_break_message` makes before a break that this
process sent to itself, when a wait time is configured. -/
def wait_events (K : smb_h) (E : env) (src : server_id) : List event :=
  if procid_is_me K E src = true ∧ E.lp_oplock_break_wait_time ≠ 0 then
    [event.smb_msleep E.lp_oplock_break_wait_time]
  else []

/-- The handle as `process_oplock_break_message` leaves it after sending a
break for the request `msg` of `src`, before the timer is added. -/
def break_sent (K : smb_h) (E : env) (src : server_id) (msg : share_mode_entry)
    (fsp : files_struct) : files_struct :=
  { fsp with
    sent_oplock_break :=
      if break_to_level2 K E msg fsp then K.LEVEL_II_BREAK_SENT else K.BREAK_TO_NONE_SENT
    pending_break_messages := fsp.pending_break_messages ++ [{ msg with pid := src }] }

/-- The well-formed payload carrying `sample_request`. -/
def sample_blob : DATA_BLOB :=
  { data := some sample_request, length := 62 }

/-- One open handle of file 7 in EXCLUSIVE, counted once, nothing called
yet. -/
def one_exclusive_handle : smbd where
  g := globals.one_exclusive
  Files := [files_struct.sample 7 1 EXCLUSIVE_OPLOCK]

/-- The calls `downgrade_oplock` makes on an EXCLUSIVE-family handle when
the registry lock is obtained. -/
def downgrade_events (K : smb_h) (E : env) (fsp : files_struct) : List event :=
  [event.get_share_mode_lock fsp.file_id,
   event.downgrade_share_oplock fsp.file_id fsp.gen_id] ++
    (if E.koplocks.isSome = true then
      [event.kernel_release_oplock fsp.file_id fsp.gen_id K.LEVEL_II_OPLOCK] else []) ++
    [event.free_share_mode_lock fsp.file_id]

/-- The environment `env.plain` with a kernel backend that supports level
II and notifies broken oplocks itself. -/
def env.kernel_notifies : env := env.with_kernel 9

/-- The sleep `wait_before_sending_break` makes when a wait time is
configured. -/
def sleep_events (E : env) : List event :=
  if E.lp_oplock_break_wait_time ≠ 0 then [event.smb_msleep E.lp_oplock_break_wait_time] else []

/-- An entry the loop of `contend_level2_oplocks_begin_default` passes over:
it is not valid or carries no oplock. -/
def passed_over (K : smb_h) (E : env) (e : share_mode_entry) : Prop :=
  E.is_valid_share_mode_entry e = false ∨ e.op_type = K.NO_OPLOCK

instance (K : smb_h) (E : env) (e : share_mode_entry) : Decidable (passed_over K E e) := by
  unfold passed_over; infer_instance

/-- The registry entry of this process (process 100 of `env.plain`) for its
handle `(file 7, gen)`, carrying a LEVEL_II oplock. -/
def own_entry (gen : Nat) : share_mode_entry :=
  { sample_entry with pid := ⟨100, 0⟩, op_mid := 0, op_type := 4, share_file_id := gen }

/-- The environment `env.plain` whose registry holds the entries `l` for
every file. -/
def env.registry (l : List share_mode_entry) : env :=
  { env.plain with get_share_mode_lock := fun _ => some ⟨l⟩ }

/-- Two open handles of file 7 in this process, both in LEVEL_II, both
counted. -/
def two_level2_handles : smbd where
  g := globals.level2 2
  Files := [files_struct.sample 7 1 4, files_struct.sample 7 2 4]

/-! ## The break-in-flight invariant -/

/-- The break-in-flight invariant on one handle: a marker other than
NO_BREAK_SENT comes with a waiting requester (unless the handle is one of
those a kernel break, which queues nobody, is sent for: `kb` on its file
identity and id) and with an armed timer (unless the kernel backend notifies
timeouts itself: `tn`). -/
def break_in_flight (K : smb_h) (tn : Bool) (kb : file_id → Nat → Bool) (f : files_struct) :
    Prop :=
  f.sent_oplock_break ≠ K.NO_BREAK_SENT →
    (kb f.file_id f.gen_id = false → f.pending_break_messages ≠ []) ∧
    (tn = false → f.oplock_timeout.isSome = true)

instance (K : smb_h) (tn : Bool) (kb : file_id → Nat → Bool) (f : files_struct) :
    Decidable (break_in_flight K tn kb f) := by
  unfold break_in_flight; infer_instance

/-- The conditions on a call under which the break-in-flight invariant is
kept: a break request is processed only while the backend's timeout
capability is `tn` and the timed event can be added; a kernel break message
that makes `process_kernel_oplock_break` send a break (it is well formed and
names an open handle holding an oplock with marker NO_BREAK_SENT) names a
handle of `kb`, and is processed while the capability is `tn` and the timed
event can be added; the replies are sent only for a handle whose marker is
NO_BREAK_SENT (after `remove_oplock` or `downgrade_oplock`, as the reply
path does); the timeout handler obtains the registry lock.  Every other
call is free. -/
def break_allowed (K : smb_h) (tn : Bool) (kb : file_id → Nat → Bool) (E : env) (s : smbd) :
    op → Prop
  | op.process_oplock_break_message _ _ =>
    E.koplocks_has K.KOPLOCKS_TIMEOUT_NOTIFICATION = tn ∧ (tn = false → E.event_add_timed_ok = true)
  | op.process_kernel_oplock_break data =>
    ∀ (buf : List Nat) (i : Nat) (fsp : files_struct),
      data.data = some buf → data.length = MSG_SMB_KERNEL_BREAK_SIZE →
      initial_break_processing K s.Files (pull_file_id_24 buf 0) (IVAL buf 24) = some (i, fsp) →
      fsp.sent_oplock_break = K.NO_BREAK_SENT →
      kb fsp.file_id fsp.gen_id = true ∧
      E.koplocks_has K.KOPLOCKS_TIMEOUT_NOTIFICATION = tn ∧
      (tn = false → E.event_add_timed_ok = true)
  | op.reply_to_oplock_break_requests i =>
    ∀ f, s.Files[i]? = some f → f.sent_oplock_break = K.NO_BREAK_SENT
  | op.oplock_timeout_handler i =>
    ∀ f, s.Files[i]? = some f → (E.get_share_mode_lock f.file_id).isSome = true
  | _ => True

/-- Every call of the sequence meets `break_allowed` in the state it is
made in. -/
def breaks_allowed (K : smb_h) (tn : Bool) (kb : file_id → Nat → Bool) :
    smbd → List (env × op) → Prop
  | _, [] => True
  | s, x :: rest =>
    break_allowed K tn kb x.1 s x.2 ∧
      ∀ s1, step K x.1 s x.2 = Except.ok s1 → breaks_allowed K tn kb s1 rest

/-- The handle is as it was, or its marker is NO_BREAK_SENT. -/
def same_or_settled (K : smb_h) (fsp fsp1 : files_struct) : Prop :=
  fsp1 = fsp ∨ fsp1.sent_oplock_break = K.NO_BREAK_SENT

/-- The payload of a kernel break naming the handle `(file 7, gen_id 1)`. -/
def kernel_blob : DATA_BLOB :=
  { data := some (List.replicate 24 7 ++ [1, 0, 0, 0]), length := 28 }

/-- The payload of a kernel break naming the handle `(file 8, gen_id 2)`. -/
def kernel_blob_other : DATA_BLOB :=
  { data := some (List.replicate 24 8 ++ [2, 0, 0, 0]), length := 28 }

/-- Two open handles of two files, `(file 7, gen_id 1)` and
`(file 8, gen_id 2)`, both in EXCLUSIVE, both counted, nothing called yet. -/
def two_exclusive_files : smbd where
  g := { globals.zero with exclusive_oplocks_open := 2 }
  Files := [files_struct.sample 7 1 EXCLUSIVE_OPLOCK, files_struct.sample 8 2 EXCLUSIVE_OPLOCK]

/-! ## Further concrete states -/

/-- One open handle of file 7 with a break to level II in flight and one
requester waiting. -/
def one_breaking_handle : smbd where
  g := globals.one_exclusive
  Files := [breaking_handle]

/-- One open handle of file 7 in LEVEL_II, counted once, nothing called
yet. -/
def one_level2_handle : smbd where
  g := globals.level2 1
  Files := [files_struct.sample 7 1 4]

/-- The environment `env.plain` in which `remove_share_oplock` finds no
entry to change. -/
def env.removal_fails : env :=
  { env.plain with remove_share_oplock := fun _ _ => false }

/-- The 28 bytes of a kernel break message for a handle: the 24 bytes of
its file identity, then its `gen_id` as 4 bytes, low byte first. -/
def kernel_break_message (fsp : files_struct) : List Nat :=
  file_id_bytes fsp.file_id ++ leBytes 4 fsp.gen_id

/-- An entry for which `contend_level2_oplocks_begin_default` sends a
message: it is valid, carries an oplock, and belongs to another process. -/
def notified_remote (K : smb_h) (E : env) (e : share_mode_entry) : Bool :=
  E.is_valid_share_mode_entry e && !decide (e.op_type = K.NO_OPLOCK) && !procid_is_me K E e.pid

/-- The asynchronous level-II break sent for a registry entry: addressed to
the pid of the entry, carrying the entry in wire form. -/
def async_break_for (K : smb_h) (e : share_mode_entry) : event :=
  event.messaging_send_buf e.pid MSG_SMB_ASYNC_LEVEL2_BREAK
    (share_mode_entry_to_message K.CLUSTER_SUPPORT
      (List.replicate (MSG_SMB_SHARE_MODE_ENTRY_SIZE K.CLUSTER_SUPPORT) 0) e)

/-- The registry entry of process 4242 for its handle `(file 7, 1)`,
carrying an oplock of the given type. -/
def remote_entry (op_type : Nat) : share_mode_entry :=
  { sample_entry with op_type := op_type }

/-- The environment `env.plain` in which the timed event cannot be added. -/
def env.no_timer : env :=
  { env.plain with event_add_timed_ok := false }

/-! ## Counters that count handles -/

/-- The counters count the handles: each equals the number of open handles
in the state it counts. -/
def counters_exact (K : smb_h) (s : smbd) : Prop :=
  s.g.exclusive_oplocks_open
    = (s.Files.countP (fun f => K.EXCLUSIVE_OPLOCK_TYPE f.oplock_type) : Int) ∧
  s.g.level_II_oplocks_open
    = (s.Files.countP (fun f => decide (f.oplock_type = K.LEVEL_II_OPLOCK)) : Int)

/-- Each counter moves exactly as the handle's membership of the state it
counts. -/
def exact_move (K : smb_h) (g : globals) (fsp : files_struct) (g1 : globals)
    (fsp1 : files_struct) : Prop :=
  g1.exclusive_oplocks_open - g.exclusive_oplocks_open
    = ind (K.EXCLUSIVE_OPLOCK_TYPE fsp1.oplock_type) - ind (K.EXCLUSIVE_OPLOCK_TYPE fsp.oplock_type) ∧
  g1.level_II_oplocks_open - g.level_II_oplocks_open
    = ind (decide (fsp1.oplock_type = K.LEVEL_II_OPLOCK))
      - ind (decide (fsp.oplock_type = K.LEVEL_II_OPLOCK))

/-- The restriction on grants: `set_file_oplock` is applied only to a
handle currently in NONE or FAKE_LEVEL_II.  Every other call is free. -/
def grant_fresh (K : smb_h) (s : smbd) : op → Prop
  | op.set_file_oplock i _ =>
    ∀ f, s.Files[i]? = some f →
      f.oplock_type = K.NO_OPLOCK ∨ f.oplock_type = K.FAKE_LEVEL_II_OPLOCK
  | _ => True

/-- Every call of the sequence meets `grant_fresh` in the state it is made
in. -/
def grants_fresh (K : smb_h) : smbd → List (env × op) → Prop
  | _, [] => True
  | s, x :: rest =>
    grant_fresh K s x.2 ∧ ∀ s1, step K x.1 s x.2 = Except.ok s1 → grants_fresh K s1 rest

/-! ### Codec lemmas -/

theorem put_bytes_append (bs : List Nat) :
    ∀ (pre rest : List Nat) (pos : Nat), pos = pre.length → bs.length ≤ rest.length →
      put_bytes (pre ++ rest) pos bs = pre ++ bs.map (· % 256) ++ rest.drop bs.length := by
  induction bs with
  | nil => intro pre rest pos _ _; simp [put_bytes]
  | cons b bs ih =>
    intro pre rest pos hp hl
    subst hp
    cases rest with
    | nil => simp at hl
    | cons r rest =>
      simp only [List.length_cons, Nat.add_le_add_iff_right] at hl
      have h1 : SCVAL (pre ++ r :: rest) pre.length b = (pre ++ [b % 256]) ++ rest := by
        simp [SCVAL, List.set_append]
      rw [put_bytes, h1, ih (pre ++ [b % 256]) rest (pre.length + 1) (by simp) hl]
      simp

theorem SSVAL_eq_put_bytes (buf : List Nat) (pos v : Nat) :
    SSVAL buf pos v = put_bytes buf pos (leBytes 2 v) := by
  simp [SSVAL, put_bytes, leBytes, SCVAL]

theorem SIVAL_eq_put_bytes (buf : List Nat) (pos v : Nat) :
    SIVAL buf pos v = put_bytes buf pos (leBytes 4 v) := by
  simp only [SIVAL, SSVAL, put_bytes, leBytes, SCVAL]
  have e1 : v / 65536 % 256 = v / 256 / 256 % 256 := by omega
  have e2 : v / 65536 / 256 % 256 = v / 256 / 256 / 256 % 256 := by omega
  simp [e1, e2]

theorem leBytes_length (n v : Nat) : (leBytes n v).length = n := by
  induction n generalizing v with
  | zero => rfl
  | succ n ih => simp [leBytes, ih]

theorem leBytes_map_mod (n v : Nat) : (leBytes n v).map (· % 256) = leBytes n v := by
  induction n generalizing v with
  | zero => rfl
  | succ n ih => simp [leBytes, ih]

theorem file_id_bytes_length (id : file_id) : (file_id_bytes id).length = 24 := by
  simp [file_id_bytes]

theorem SSVAL_append (pre rest : List Nat) (pos v : Nat) (hp : pos = pre.length)
    (hl : 2 ≤ rest.length) :
    SSVAL (pre ++ rest) pos v = pre ++ leBytes 2 v ++ rest.drop 2 := by
  rw [SSVAL_eq_put_bytes, put_bytes_append _ pre rest pos hp (by simpa [leBytes_length] using hl),
    leBytes_map_mod, leBytes_length]

theorem SIVAL_append (pre rest : List Nat) (pos v : Nat) (hp : pos = pre.length)
    (hl : 4 ≤ rest.length) :
    SIVAL (pre ++ rest) pos v = pre ++ leBytes 4 v ++ rest.drop 4 := by
  rw [SIVAL_eq_put_bytes, put_bytes_append _ pre rest pos hp (by simpa [leBytes_length] using hl),
    leBytes_map_mod, leBytes_length]

theorem push_file_id_24_append (pre rest : List Nat) (pos : Nat) (id : file_id)
    (hp : pos = pre.length) (hl : 24 ≤ rest.length) :
    push_file_id_24 (pre ++ rest) pos id = pre ++ file_id_bytes id ++ rest.drop 24 := by
  rw [push_file_id_24, put_bytes_append _ pre rest pos hp (by simpa using hl)]
  simp [file_id_bytes]

theorem wire_fields_length (e : share_mode_entry) : (wire_fields e).length = 62 := by
  simp [wire_fields, leBytes_length, file_id_bytes_length]

/-- Without cluster support the encoder overwrites the first 62 bytes of the
buffer with the fields in order and leaves the rest of the buffer alone. -/
theorem encode_fixed (msg : List Nat) (e : share_mode_entry) (h : 62 ≤ msg.length) :
    share_mode_entry_to_message false msg e = wire_fields e ++ msg.drop 62 := by
  simp only [share_mode_entry_to_message, Bool.false_eq_true, if_false]
  have s0 := SIVAL_append [] msg 0 e.pid.pid rfl (by omega)
  simp only [List.nil_append] at s0
  rw [s0]
  rw [SSVAL_append _ _ 4 e.op_mid (by simp [leBytes_length]) (by simp; omega)]
  rw [SSVAL_append _ _ 6 e.op_type (by simp [leBytes_length]) (by simp; omega)]
  rw [SIVAL_append _ _ 8 e.access_mask (by simp [leBytes_length]) (by simp; omega)]
  rw [SIVAL_append _ _ 12 e.share_access (by simp [leBytes_length]) (by simp; omega)]
  rw [SIVAL_append _ _ 16 e.private_options (by simp [leBytes_length]) (by simp; omega)]
  rw [SIVAL_append _ _ 20 e.time.tv_sec (by simp [leBytes_length]) (by simp; omega)]
  rw [SIVAL_append _ _ 24 (uint32_cast e.time.tv_usec) (by simp [leBytes_length])
    (by simp; omega)]
  rw [push_file_id_24_append _ _ 28 e.id (by simp [leBytes_length]) (by simp; omega)]
  rw [SIVAL_append _ _ 52 e.share_file_id
    (by simp [leBytes_length, file_id_bytes_length]) (by simp; omega)]
  rw [SIVAL_append _ _ 56 e.uid
    (by simp [leBytes_length, file_id_bytes_length]) (by simp; omega)]
  rw [SSVAL_append _ _ 60 e.flags
    (by simp [leBytes_length, file_id_bytes_length]) (by simp; omega)]
  simp [wire_fields]

/-- With cluster support the node number follows the fixed part. -/
theorem encode_cluster (msg : List Nat) (e : share_mode_entry) (h : 66 ≤ msg.length) :
    share_mode_entry_to_message true msg e
      = wire_fields e ++ leBytes 4 e.pid.vnn ++ msg.drop 66 := by
  have hf := encode_fixed msg e (by omega)
  simp only [share_mode_entry_to_message, Bool.false_eq_true, if_false, if_true] at hf ⊢
  rw [hf, SIVAL_append _ _ 62 e.pid.vnn (by simp [wire_fields_length]) (by simp; omega)]
  simp

theorem ofLE_leBytes (n v : Nat) : ofLE (leBytes n v) = v % 256 ^ n := by
  induction n generalizing v with
  | zero => simp [leBytes, ofLE, Nat.mod_one]
  | succ n ih =>
    simp only [leBytes, ofLE, ih]
    rw [pow_succ, Nat.mul_comm (256 ^ n) 256, Nat.mod_mul]

theorem leBytes_ofLE (l : List Nat) (hb : ∀ b ∈ l, b < 256) : leBytes l.length (ofLE l) = l := by
  induction l with
  | nil => rfl
  | cons a t ih =>
    have ha : a < 256 := hb a (List.mem_cons_self _ _)
    have ht := ih (fun b hb1 => hb b (List.mem_cons_of_mem _ hb1))
    simp only [List.length_cons, leBytes, ofLE]
    have e1 : (a + 256 * ofLE t) % 256 = a := by omega
    have e2 : (a + 256 * ofLE t) / 256 = ofLE t := by omega
    rw [e1, e2, ht]

theorem CVAL_drop (m : List Nat) (p k : Nat) : CVAL (m.drop p) k = CVAL m (p + k) := by
  simp [CVAL, List.getD_eq_getElem?_getD, List.getElem?_drop]

theorem ofLE_take2 (l : List Nat) : ofLE (l.take 2) = SVAL l 0 := by
  rcases l with _ | ⟨a, _ | ⟨b, t⟩⟩ <;> simp [ofLE, SVAL, CVAL]

theorem ofLE_take4 (l : List Nat) : ofLE (l.take 4) = IVAL l 0 := by
  rcases l with _ | ⟨a, _ | ⟨b, _ | ⟨c, _ | ⟨d, t⟩⟩⟩⟩ <;> simp [ofLE, IVAL, SVAL, CVAL] <;> omega

theorem SVAL_eq_ofLE (m : List Nat) (p : Nat) : SVAL m p = ofLE ((m.drop p).take 2) := by
  rw [ofLE_take2]; simp [SVAL, CVAL_drop]

theorem IVAL_eq_ofLE (m : List Nat) (p : Nat) : IVAL m p = ofLE ((m.drop p).take 4) := by
  rw [ofLE_take4]; simp [IVAL, SVAL, CVAL_drop, Nat.add_assoc]

theorem pull_file_id_24_eq (m : List Nat) (p : Nat) (h : p + 24 ≤ m.length) :
    pull_file_id_24 m p = ⟨(m.drop p).take 24⟩ := by
  unfold pull_file_id_24
  congr 1
  apply List.ext_getElem
  · simp; omega
  · intro i h1 h2
    simp only [List.length_map, List.length_range] at h1
    have h3 : p + i < m.length := by omega
    simp [CVAL, List.getD_eq_getElem?_getD, List.getElem?_eq_getElem h3]

theorem file_id_bytes_valid (id : file_id) (h : id.valid) : file_id_bytes id = id.enc := by
  obtain ⟨hlen, hb⟩ := h
  apply List.ext_getElem
  · simp [file_id_bytes, hlen]
  · intro i h1 h2
    have h3 : id.enc[i] < 256 := hb _ (List.getElem_mem _)
    simp [file_id_bytes, List.getD_eq_getElem?_getD, List.getElem?_eq_getElem h2,
      Nat.mod_eq_of_lt h3]

/-- Reading back through `(int)` what `(uint32)` wrote gives the value
again when it is a signed 32-bit number. -/
theorem int_cast_uint32_cast (x : Int) (h1 : -2147483648 ≤ x) (h2 : x < 2147483648) :
    int_cast (uint32_cast x % 256 ^ 4) = x := by
  unfold int_cast uint32_cast
  have e : (256 : Nat) ^ 4 = 4294967296 := by norm_num
  rw [e]
  split_ifs with h <;> omega

/-- Writing back through `(uint32)` what `(int)` read gives the low 32 bits
again. -/
theorem uint32_cast_int_cast (v : Nat) : uint32_cast (int_cast v) = v % 4294967296 := by
  unfold int_cast uint32_cast
  split_ifs with h <;> omega

theorem int_cast_range (v : Nat) : -2147483648 ≤ int_cast v ∧ int_cast v < 2147483648 := by
  unfold int_cast
  split_ifs with h <;> omega

theorem leBytes_mod (v : Nat) : leBytes 4 (v % 4294967296) = leBytes 4 v := by
  simp only [leBytes]
  refine congrArg₂ _ (by omega) (congrArg₂ _ (by omega) (congrArg₂ _ (by omega)
    (congrArg₂ _ (by omega) rfl)))

/-- The slices of a buffer that starts with the fixed part of a message. -/
theorem wire_fields_slices (e : share_mode_entry) (rest : List Nat) :
    ((wire_fields e ++ rest).drop 0).take 4 = leBytes 4 e.pid.pid ∧
    ((wire_fields e ++ rest).drop 4).take 2 = leBytes 2 e.op_mid ∧
    ((wire_fields e ++ rest).drop 6).take 2 = leBytes 2 e.op_type ∧
    ((wire_fields e ++ rest).drop 8).take 4 = leBytes 4 e.access_mask ∧
    ((wire_fields e ++ rest).drop 12).take 4 = leBytes 4 e.share_access ∧
    ((wire_fields e ++ rest).drop 16).take 4 = leBytes 4 e.private_options ∧
    ((wire_fields e ++ rest).drop 20).take 4 = leBytes 4 e.time.tv_sec ∧
    ((wire_fields e ++ rest).drop 24).take 4 = leBytes 4 (uint32_cast e.time.tv_usec) ∧
    ((wire_fields e ++ rest).drop 28).take 24 = file_id_bytes e.id ∧
    ((wire_fields e ++ rest).drop 52).take 4 = leBytes 4 e.share_file_id ∧
    ((wire_fields e ++ rest).drop 56).take 4 = leBytes 4 e.uid ∧
    ((wire_fields e ++ rest).drop 60).take 2 = leBytes 2 e.flags ∧
    (wire_fields e ++ rest).drop 62 = rest := by
  refine ⟨?_, ?_, ?_, ?_, ?_, ?_, ?_, ?_, ?_, ?_, ?_, ?_, ?_⟩ <;>
    simp [wire_fields, List.drop_append_eq_append_drop, List.take_append_eq_append_take,
      List.drop_eq_nil_of_le, List.take_of_length_le, leBytes_length, file_id_bytes_length]

theorem decode_wire_fields (e e0 : share_mode_entry) (rest : List Nat) (hv : e.valid false) :
    message_to_share_mode_entry false e0 (wire_fields e ++ rest)
      = { e with pid := { e.pid with vnn := e0.pid.vnn } } := by
  obtain ⟨h1, h2, h3, h4, h5, h6, h7, h8, h9, h10, h11, h12, -⟩ := hv
  obtain ⟨s1, s2, s3, s4, s5, s6, s7, s8, s9, s10, s11, s12, -⟩ := wire_fields_slices e rest
  have hb : 28 + 24 ≤ (wire_fields e ++ rest).length := by
    simp [wire_fields_length]; omega
  simp only [message_to_share_mode_entry, IVAL_eq_ofLE, SVAL_eq_ofLE, pull_file_id_24_eq _ _ hb,
    s1, s2, s3, s4, s5, s6, s7, s8, s9, s10, s11, s12, ofLE_leBytes, file_id_bytes_valid _ h9,
    Bool.false_eq_true, if_false]
  rw [int_cast_uint32_cast _ h8.1 h8.2]
  norm_num at h1 h2 h3 h4 h5 h6 h7 h10 h11 h12 ⊢
  simp [Nat.mod_eq_of_lt, h1, h2, h3, h4, h5, h6, h7, h10, h11, h12]

theorem decode_wire_fields_cluster (e e0 : share_mode_entry) (rest : List Nat)
    (hv : e.valid true) :
    message_to_share_mode_entry true e0 (wire_fields e ++ (leBytes 4 e.pid.vnn ++ rest)) = e := by
  obtain ⟨h1, h2, h3, h4, h5, h6, h7, h8, h9, h10, h11, h12, h13⟩ := hv
  have h14 := h13 rfl
  obtain ⟨s1, s2, s3, s4, s5, s6, s7, s8, s9, s10, s11, s12, s13⟩ :=
    wire_fields_slices e (leBytes 4 e.pid.vnn ++ rest)
  have hb : 28 + 24 ≤ (wire_fields e ++ (leBytes 4 e.pid.vnn ++ rest)).length := by
    simp [wire_fields_length]; omega
  have s14 : (leBytes 4 e.pid.vnn ++ rest).take 4 = leBytes 4 e.pid.vnn := by
    simp [List.take_append_eq_append_take, List.take_of_length_le, leBytes_length]
  simp only [message_to_share_mode_entry, IVAL_eq_ofLE, SVAL_eq_ofLE, pull_file_id_24_eq _ _ hb,
    s1, s2, s3, s4, s5, s6, s7, s8, s9, s10, s11, s12, s13, s14, ofLE_leBytes,
    file_id_bytes_valid _ h9, if_true]
  rw [int_cast_uint32_cast _ h8.1 h8.2]
  norm_num at h1 h2 h3 h4 h5 h6 h7 h10 h11 h12 h14 ⊢
  simp [Nat.mod_eq_of_lt, h1, h2, h3, h4, h5, h6, h7, h10, h11, h12, h14]

theorem mem_slice {m : List Nat} {p n b : Nat} (h : b ∈ (m.drop p).take n) : b ∈ m :=
  List.mem_of_mem_drop (List.mem_of_mem_take h)

theorem leBytes_SVAL (m : List Nat) (p : Nat) (h : p + 2 ≤ m.length) (hb : ∀ b ∈ m, b < 256) :
    leBytes 2 (SVAL m p) = (m.drop p).take 2 := by
  have hl : ((m.drop p).take 2).length = 2 := by simp; omega
  have := leBytes_ofLE ((m.drop p).take 2) (fun b hb1 => hb b (mem_slice hb1))
  rwa [hl, ← SVAL_eq_ofLE] at this

theorem leBytes_IVAL (m : List Nat) (p : Nat) (h : p + 4 ≤ m.length) (hb : ∀ b ∈ m, b < 256) :
    leBytes 4 (IVAL m p) = (m.drop p).take 4 := by
  have hl : ((m.drop p).take 4).length = 4 := by simp; omega
  have := leBytes_ofLE ((m.drop p).take 4) (fun b hb1 => hb b (mem_slice hb1))
  rwa [hl, ← IVAL_eq_ofLE] at this

theorem file_id_bytes_pull (m : List Nat) (p : Nat) (h : p + 24 ≤ m.length)
    (hb : ∀ b ∈ m, b < 256) :
    file_id_bytes (pull_file_id_24 m p) = (m.drop p).take 24 := by
  rw [pull_file_id_24_eq m p h]
  apply file_id_bytes_valid
  refine ⟨by simp; omega, fun b hb1 => hb b (mem_slice hb1)⟩

theorem slice_join (m : List Nat) (p n k q : Nat) (hq : q = p + n) :
    (m.drop p).take n ++ (m.drop q).take k = (m.drop p).take (n + k) := by
  subst hq
  rw [List.take_add, List.drop_drop]

theorem wire_fields_decode (m : List Nat) (e0 : share_mode_entry) (hlen : m.length = 62)
    (hb : ∀ b ∈ m, b < 256) :
    wire_fields (message_to_share_mode_entry false e0 m) = m := by
  simp only [wire_fields, message_to_share_mode_entry, uint32_cast_int_cast, leBytes_mod]
  rw [leBytes_IVAL m 0 (by omega) hb, leBytes_SVAL m 4 (by omega) hb,
    leBytes_SVAL m 6 (by omega) hb, leBytes_IVAL m 8 (by omega) hb,
    leBytes_IVAL m 12 (by omega) hb, leBytes_IVAL m 16 (by omega) hb,
    leBytes_IVAL m 20 (by omega) hb, leBytes_IVAL m 24 (by omega) hb,
    file_id_bytes_pull m 28 (by omega) hb, leBytes_IVAL m 52 (by omega) hb,
    leBytes_IVAL m 56 (by omega) hb, leBytes_SVAL m 60 (by omega) hb]
  rw [slice_join m 0 4 2 4 rfl, slice_join m 0 6 2 6 rfl, slice_join m 0 8 4 8 rfl,
    slice_join m 0 12 4 12 rfl, slice_join m 0 16 4 16 rfl, slice_join m 0 20 4 20 rfl,
    slice_join m 0 24 4 24 rfl, slice_join m 0 28 24 28 rfl, slice_join m 0 52 4 52 rfl,
    slice_join m 0 56 4 56 rfl, slice_join m 0 60 2 60 rfl]
  simp [List.take_of_length_le, hlen]

/-- On a buffer of exactly the message size the encoder leaves nothing of
the old contents. -/
theorem encode_exact (c : Bool) (msg : List Nat) (e : share_mode_entry)
    (h : msg.length = MSG_SMB_SHARE_MODE_ENTRY_SIZE c) :
    share_mode_entry_to_message c msg e
      = wire_fields e ++ (if c then leBytes 4 e.pid.vnn else []) := by
  cases c with
  | false =>
    simp only [MSG_SMB_SHARE_MODE_ENTRY_SIZE, Bool.false_eq_true, if_false] at h
    rw [encode_fixed msg e (by omega), List.drop_eq_nil_of_le (by omega)]
    simp
  | true =>
    simp only [MSG_SMB_SHARE_MODE_ENTRY_SIZE, if_true] at h
    rw [encode_cluster msg e (by omega), List.drop_eq_nil_of_le (by omega)]
    simp

/-! ### State lemmas -/

theorem samba_3_4_1_wf : samba_3_4_1.wf := by
  constructor <;> decide

/-! ### The `int32` counters -/

theorem int32_inc_of_ne {x : Int} (h : x ≠ INT32_MAX) : int32_inc x = x + 1 := by
  simp [int32_inc, h]

theorem int32_inc_of_lt {x : Int} (h : x < INT32_MAX) : int32_inc x = x + 1 :=
  int32_inc_of_ne (ne_of_lt h)

theorem int32_dec_of_ne {x : Int} (h : x ≠ INT32_MIN) : int32_dec x = x - 1 := by
  simp [int32_dec, h]

theorem int32_dec_of_nonneg {x : Int} (h : 0 ≤ x) : int32_dec x = x - 1 := by
  apply int32_dec_of_ne
  intro hx
  rw [hx] at h
  exact absurd h (by decide)

theorem int32_inc_max : int32_inc INT32_MAX = INT32_MIN := by
  simp [int32_inc]

/-- On the `int32` range the increment is addition modulo 2^32, read as a
signed number. -/
theorem int32_inc_eq_mod {x : Int} (h1 : INT32_MIN ≤ x) (h2 : x ≤ INT32_MAX) :
    int32_inc x = (x + 1 + 2147483648) % 4294967296 - 2147483648 := by
  simp only [INT32_MIN, INT32_MAX] at h1 h2
  unfold int32_inc
  simp only [INT32_MIN, INT32_MAX]
  split_ifs <;> omega

/-- On the `int32` range the decrement is subtraction modulo 2^32, read as a
signed number. -/
theorem int32_dec_eq_mod {x : Int} (h1 : INT32_MIN ≤ x) (h2 : x ≤ INT32_MAX) :
    int32_dec x = (x - 1 + 2147483648) % 4294967296 - 2147483648 := by
  simp only [INT32_MIN, INT32_MAX] at h1 h2
  unfold int32_dec
  simp only [INT32_MIN, INT32_MAX]
  split_ifs <;> omega

theorem no_new_exclusive_refl (K : smb_h) (fsp : files_struct) : no_new_exclusive K fsp fsp :=
  ⟨rfl, id⟩

theorem no_new_exclusive_trans {K : smb_h} {a b c : files_struct}
    (h1 : no_new_exclusive K a b) (h2 : no_new_exclusive K b c) : no_new_exclusive K a c :=
  ⟨h2.1.trans h1.1, fun h => h1.2 (h2.2 h)⟩

theorem release_file_oplock_no_new_exclusive {K : smb_h} (hK : K.wf) {E : env} {g g1 : globals}
    {fsp fsp1 : files_struct} (h : release_file_oplock K E g fsp = Except.ok (g1, fsp1)) :
    no_new_exclusive K fsp fsp1 := by
  simp only [release_file_oplock, SMB_ASSERT] at h
  split_ifs at h <;> simp at h <;> obtain ⟨-, rfl⟩ := h <;>
    simp [no_new_exclusive, hK.excl_fake, hK.excl_none]

theorem downgrade_file_oplock_no_new_exclusive {K : smb_h} (hK : K.wf) (E : env) (g : globals)
    (fsp : files_struct) : no_new_exclusive K fsp (downgrade_file_oplock K E g fsp).2 := by
  unfold downgrade_file_oplock
  split_ifs <;> simp [no_new_exclusive, hK.excl_level2]

theorem remove_oplock_no_new_exclusive {K : smb_h} (hK : K.wf) {E : env} {g g1 : globals}
    {fsp fsp1 : files_struct} {r : Bool}
    (h : remove_oplock K E g fsp = Except.ok (r, g1, fsp1)) : no_new_exclusive K fsp fsp1 := by
  simp only [remove_oplock] at h
  split at h
  · simp only [Except.ok.injEq, Prod.mk.injEq] at h
    obtain ⟨-, -, rfl⟩ := h
    exact no_new_exclusive_refl K fsp
  · split at h
    · simp at h
    · rename_i g3 fsp2 heq
      simp only [Except.ok.injEq, Prod.mk.injEq] at h
      obtain ⟨-, -, rfl⟩ := h
      exact release_file_oplock_no_new_exclusive hK heq

theorem downgrade_oplock_no_new_exclusive {K : smb_h} (hK : K.wf) (E : env) (g : globals)
    (fsp : files_struct) : no_new_exclusive K fsp (downgrade_oplock K E g fsp).2.2 := by
  unfold downgrade_oplock
  split
  · exact no_new_exclusive_refl K fsp
  · exact downgrade_file_oplock_no_new_exclusive hK E _ fsp

theorem reply_to_oplock_break_requests_no_new_exclusive (K : smb_h) (E : env) (g : globals)
    (fsp : files_struct) :
    no_new_exclusive K fsp (reply_to_oplock_break_requests K E g fsp).2 := by
  unfold reply_to_oplock_break_requests
  split_ifs <;> simp [no_new_exclusive]

theorem oplock_timeout_handler_no_new_exclusive {K : smb_h} (hK : K.wf) {E : env}
    {g g1 : globals} {fsp fsp1 : files_struct}
    (h : oplock_timeout_handler K E g fsp = Except.ok (g1, fsp1)) : no_new_exclusive K fsp fsp1 := by
  simp only [oplock_timeout_handler] at h
  split at h
  · simp at h
  · rename_i r g2 fsp2 heq
    simp only [Except.ok.injEq] at h
    have h1 := remove_oplock_no_new_exclusive hK heq
    have h2 := reply_to_oplock_break_requests_no_new_exclusive K E g2 fsp2
    rw [h] at h2
    exact no_new_exclusive_trans (no_new_exclusive_trans ⟨rfl, id⟩ h1) h2

theorem break_level2_to_none_async_no_new_exclusive {K : smb_h} (hK : K.wf) {E : env}
    {g g1 : globals} {fsp fsp1 : files_struct}
    (h : break_level2_to_none_async K E g fsp = Except.ok (g1, fsp1)) :
    no_new_exclusive K fsp fsp1 := by
  simp only [break_level2_to_none_async, SMB_ASSERT] at h
  split_ifs at h
  · simp only [Except.ok.injEq, Prod.mk.injEq] at h
    obtain ⟨-, rfl⟩ := h
    exact no_new_exclusive_refl K fsp
  · split at h
    · simp at h
    · rename_i r g2 fsp2 heq
      simp only [Except.ok.injEq, Prod.mk.injEq] at h
      obtain ⟨-, rfl⟩ := h
      exact remove_oplock_no_new_exclusive hK heq
  · split at h
    · simp at h
    · split at h
      · simp at h
      · split at h
        · simp at h
        · rename_i r g3 fsp2 heq
          simp only [Except.ok.injEq, Prod.mk.injEq] at h
          obtain ⟨-, rfl⟩ := h
          exact remove_oplock_no_new_exclusive hK heq

theorem contend_level2_loop_no_new_exclusive {K : smb_h} (hK : K.wf) (E : env)
    (l : List share_mode_entry) :
    ∀ (g g1 : globals) (fsp fsp1 : files_struct),
      contend_level2_loop K E l g fsp = Except.ok (g1, fsp1) → no_new_exclusive K fsp fsp1 := by
  induction l with
  | nil =>
    intro g g1 fsp fsp1 h
    simp only [contend_level2_loop, Except.ok.injEq, Prod.mk.injEq] at h
    obtain ⟨-, rfl⟩ := h
    exact no_new_exclusive_refl K fsp
  | cons e rest ih =>
    intro g g1 fsp fsp1 h
    unfold contend_level2_loop at h
    split_ifs at h
    · exact ih _ _ _ _ h
    · exact ih _ _ _ _ h
    · split at h
      · simp at h
      · rename_i g2 fsp2 heq
        exact no_new_exclusive_trans (break_level2_to_none_async_no_new_exclusive hK heq)
          (ih _ _ _ _ h)
    · exact ih _ _ _ _ h

theorem contend_level2_oplocks_begin_no_new_exclusive {K : smb_h} (hK : K.wf) {E : env}
    {g g1 : globals} {fsp fsp1 : files_struct} {type : Nat}
    (h : contend_level2_oplocks_begin K E g fsp type = Except.ok (g1, fsp1)) :
    no_new_exclusive K fsp fsp1 := by
  have hd : ∀ {g g1 : globals} {fsp1 : files_struct},
      contend_level2_oplocks_begin_default K E g fsp = Except.ok (g1, fsp1) →
      no_new_exclusive K fsp fsp1 := by
    intro g g1 fsp1 h
    unfold contend_level2_oplocks_begin_default at h
    split_ifs at h
    · simp only [Except.ok.injEq, Prod.mk.injEq] at h
      obtain ⟨-, rfl⟩ := h
      exact no_new_exclusive_refl K fsp
    · split at h
      · simp only [Except.ok.injEq, Prod.mk.injEq] at h
        obtain ⟨-, rfl⟩ := h
        exact no_new_exclusive_refl K fsp
      · split at h
        · simp at h
        · rename_i g2 fsp2 heq
          simp only [Except.ok.injEq, Prod.mk.injEq] at h
          obtain ⟨-, rfl⟩ := h
          exact contend_level2_loop_no_new_exclusive hK E _ _ _ _ _ heq
  unfold contend_level2_oplocks_begin at h
  split at h
  · split_ifs at h
    · simp only [Except.ok.injEq, Prod.mk.injEq] at h
      obtain ⟨-, rfl⟩ := h
      exact no_new_exclusive_refl K fsp
    · exact hd h
  · exact hd h

theorem add_oplock_timeout_handler_no_new_exclusive (K : smb_h) (E : env) (fsp : files_struct) :
    no_new_exclusive K fsp (add_oplock_timeout_handler K E fsp) := by
  unfold add_oplock_timeout_handler
  split_ifs <;> simp [no_new_exclusive]

/-- The three ways `set_file_oplock` ends: refused by the level-II test with
nothing touched, refused by the kernel after it was asked, or granted. -/
theorem set_file_oplock_cases (K : smb_h) (E : env) (g : globals) (fsp : files_struct)
    (t : Nat) :
    ∃ g1 : globals, (g1 = g ∨ g1 = g.log (event.kernel_set_oplock fsp.file_id fsp.gen_id t)) ∧
      (set_file_oplock K E g fsp t = (false, g1, fsp) ∨
       set_file_oplock K E g fsp t =
        (true,
          (if t = K.LEVEL_II_OPLOCK then
            { g1 with level_II_oplocks_open := int32_inc g1.level_II_oplocks_open }
          else if K.EXCLUSIVE_OPLOCK_TYPE t then
            { g1 with exclusive_oplocks_open := int32_inc g1.exclusive_oplocks_open }
          else g1),
          { fsp with oplock_type := t, sent_oplock_break := K.NO_BREAK_SENT })) := by
  unfold set_file_oplock
  by_cases h1 : fsp.oplock_type = K.LEVEL_II_OPLOCK ∧
      E.koplocks_lacks K.KOPLOCKS_LEVEL2_SUPPORTED = true
  · exact ⟨g, Or.inl rfl, Or.inl (by simp [h1])⟩
  · by_cases h2 : fsp.oplock_type ≠ K.NO_OPLOCK ∧ fsp.oplock_type ≠ K.FAKE_LEVEL_II_OPLOCK
    · cases hk : E.koplocks with
      | none => exact ⟨g, Or.inl rfl, Or.inr (by simp [h1, h2, hk])⟩
      | some k =>
        refine ⟨g.log (event.kernel_set_oplock fsp.file_id fsp.gen_id t), Or.inr rfl, ?_⟩
        cases hs : k.set_oplock fsp t
        · exact Or.inl (by simp [h1, h2, hk, hs])
        · exact Or.inr (by simp [h1, h2, hk, hs])
    · exact ⟨g, Or.inl rfl, Or.inr (by simp [h1, h2])⟩

theorem set_file_oplock_no_new_exclusive (K : smb_h) (E : env) (g : globals)
    (fsp : files_struct) (t : Nat) (ht : K.EXCLUSIVE_OPLOCK_TYPE t = false) :
    no_new_exclusive K fsp (set_file_oplock K E g fsp t).2.2 := by
  obtain ⟨g1, -, h | h⟩ := set_file_oplock_cases K E g fsp t <;> rw [h] <;>
    simp [no_new_exclusive, ht]

theorem set_file_oplock_file_id (K : smb_h) (E : env) (g : globals)
    (fsp : files_struct) (t : Nat) : (set_file_oplock K E g fsp t).2.2.file_id = fsp.file_id := by
  obtain ⟨g1, -, h | h⟩ := set_file_oplock_cases K E g fsp t <;> rw [h]

theorem files_step_refl (K : smb_h) (Files : List files_struct) : files_step K Files Files :=
  fun _ f1 h => ⟨f1, h, no_new_exclusive_refl K f1⟩

theorem files_step_set {K : smb_h} {Files : List files_struct} {i : Nat}
    {fsp fsp1 : files_struct} (hi : Files[i]? = some fsp) (h : no_new_exclusive K fsp fsp1) :
    files_step K Files (Files.set i fsp1) := by
  intro j f1 hj
  by_cases hij : i = j
  · subst hij
    have hlt : i < Files.length := by
      rcases Nat.lt_or_ge i Files.length with h1 | h1
      · exact h1
      · rw [List.getElem?_eq_none (by simpa using h1)] at hi; simp at hi
    simp only [List.getElem?_set, hlt, if_true, Option.some.injEq] at hj
    subst hj
    exact ⟨fsp, hi, h⟩
  · rw [List.getElem?_set_ne hij] at hj
    exact ⟨f1, hj, no_new_exclusive_refl K f1⟩

theorem mutual_exclusion_of_files_step {K : smb_h} {Files Files1 : List files_struct}
    (hs : files_step K Files Files1) (h : mutual_exclusion K Files) :
    mutual_exclusion K Files1 := by
  intro i j fi fj hij hi hj hid hxi hxj
  obtain ⟨fi0, hi0, hni⟩ := hs i fi hi
  obtain ⟨fj0, hj0, hnj⟩ := hs j fj hj
  exact h i j fi0 fj0 hij hi0 hj0 (by rw [← hni.1, ← hnj.1, hid]) (hni.2 hxi) (hnj.2 hxj)

theorem on_handle_files_step {K : smb_h} {s s1 : smbd} {i : Nat}
    {f : globals → files_struct → Except fatal (globals × files_struct)}
    (hf : ∀ g fsp g1 fsp1, f g fsp = Except.ok (g1, fsp1) → no_new_exclusive K fsp fsp1)
    (h : on_handle s i f = Except.ok s1) : files_step K s.Files s1.Files := by
  unfold on_handle at h
  split at h
  · simp only [Except.ok.injEq] at h
    subst h
    exact files_step_refl K _
  · rename_i fsp hi
    split at h
    · simp at h
    · rename_i g1 fsp1 heq
      simp only [Except.ok.injEq] at h
      subst h
      exact files_step_set hi (hf _ _ _ _ heq)

theorem initial_break_processing_some {K : smb_h} {Files : List files_struct} {id : file_id}
    {n i : Nat} {fsp : files_struct}
    (h : initial_break_processing K Files id n = some (i, fsp)) :
    Files[i]? = some fsp ∧ fsp.oplock_type ≠ K.NO_OPLOCK := by
  unfold initial_break_processing at h
  split at h
  · simp at h
  · split at h
    · simp at h
    · rename_i j hj fsp0 hfsp
      split_ifs at h with h0
      simp only [Option.some.injEq, Prod.mk.injEq] at h
      obtain ⟨rfl, rfl⟩ := h
      exact ⟨hfsp, h0⟩

theorem process_oplock_break_message_files_step {K : smb_h} {E : env} {s s1 : smbd}
    {src : server_id} {data : DATA_BLOB}
    (h : process_oplock_break_message K E s src data = Except.ok s1) :
    files_step K s.Files s1.Files := by
  simp only [process_oplock_break_message] at h
  split at h
  · simp only [Except.ok.injEq] at h; subst h; exact files_step_refl K _
  · by_cases hl : data.length ≠ MSG_SMB_SHARE_MODE_ENTRY_SIZE K.CLUSTER_SUPPORT
    · rw [if_pos hl] at h; simp only [Except.ok.injEq] at h; subst h; exact files_step_refl K _
    · rw [if_neg hl] at h
      split at h
      · simp only [Except.ok.injEq] at h; subst h; exact files_step_refl K _
      · rename_i i fsp hib
        have hi := (initial_break_processing_some hib).1
        by_cases hb : fsp.sent_oplock_break ≠ K.NO_BREAK_SENT
        · rw [if_pos hb] at h; simp only [Except.ok.injEq] at h; subst h
          exact files_step_set hi ⟨rfl, id⟩
        · rw [if_neg hb] at h
          split_ifs at h with hx ht
          · simp only [Except.ok.injEq] at h; subst h; exact files_step_refl K _
          all_goals
            by_cases ht : E.talloc_ok = true
            · by_cases hs : E.srv_send_smb_ok = true
              · simp only [new_break_smb_message, send_break_to_client, ht, hs, if_true,
                  Bool.not_true, Bool.false_eq_true, if_false, Except.ok.injEq] at h
                subst h
                exact files_step_set hi
                  (no_new_exclusive_trans ⟨rfl, id⟩
                    (add_oplock_timeout_handler_no_new_exclusive K E _))
              · simp [new_break_smb_message, send_break_to_client, ht, hs] at h
            · simp [new_break_smb_message, ht] at h

theorem process_oplock_async_level2_break_message_files_step {K : smb_h} (hK : K.wf) {E : env}
    {s s1 : smbd} {data : DATA_BLOB}
    (h : process_oplock_async_level2_break_message K E s data = Except.ok s1) :
    files_step K s.Files s1.Files := by
  simp only [process_oplock_async_level2_break_message] at h
  split at h
  · simp only [Except.ok.injEq] at h; subst h; exact files_step_refl K _
  · by_cases hl : data.length ≠ MSG_SMB_SHARE_MODE_ENTRY_SIZE K.CLUSTER_SUPPORT
    · rw [if_pos hl] at h; simp only [Except.ok.injEq] at h; subst h; exact files_step_refl K _
    · rw [if_neg hl] at h
      split at h
      · simp only [Except.ok.injEq] at h; subst h; exact files_step_refl K _
      · rename_i i fsp hib
        have hi := (initial_break_processing_some hib).1
        split at h
        · simp at h
        · rename_i g1 fsp1 heq
          simp only [Except.ok.injEq] at h; subst h
          exact files_step_set hi (break_level2_to_none_async_no_new_exclusive hK heq)

theorem process_kernel_oplock_break_files_step {K : smb_h} {E : env} {s s1 : smbd}
    {data : DATA_BLOB} (h : process_kernel_oplock_break K E s data = Except.ok s1) :
    files_step K s.Files s1.Files := by
  simp only [process_kernel_oplock_break] at h
  split at h
  · simp only [Except.ok.injEq] at h; subst h; exact files_step_refl K _
  · by_cases hl : data.length ≠ MSG_SMB_KERNEL_BREAK_SIZE
    · rw [if_pos hl] at h; simp only [Except.ok.injEq] at h; subst h; exact files_step_refl K _
    · rw [if_neg hl] at h
      split at h
      · simp only [Except.ok.injEq] at h; subst h; exact files_step_refl K _
      · rename_i i fsp hib
        have hi := (initial_break_processing_some hib).1
        by_cases hb : fsp.sent_oplock_break ≠ K.NO_BREAK_SENT
        · rw [if_pos hb] at h; simp only [Except.ok.injEq] at h; subst h; exact files_step_refl K _
        · rw [if_neg hb] at h
          by_cases ht : E.talloc_ok = true
          · by_cases hs : E.srv_send_smb_ok = true
            · simp only [new_break_smb_message, send_break_to_client, ht, hs, if_true,
                Bool.not_true, Bool.false_eq_true, if_false, Except.ok.injEq] at h
              subst h
              exact files_step_set hi
                (no_new_exclusive_trans ⟨rfl, id⟩
                  (add_oplock_timeout_handler_no_new_exclusive K E _))
            · simp [new_break_smb_message, send_break_to_client, ht, hs] at h
          · simp [new_break_smb_message, ht] at h

theorem process_oplock_break_response_Files (K : smb_h) (s : smbd) (data : DATA_BLOB) :
    (process_oplock_break_response K s data).Files = s.Files := by
  unfold process_oplock_break_response
  split
  · rfl
  · split_ifs <;> rfl

theorem process_open_retry_message_Files (K : smb_h) (s : smbd) (data : DATA_BLOB) :
    (process_open_retry_message K s data).Files = s.Files := by
  unfold process_open_retry_message
  split
  · rfl
  · split_ifs <;> rfl

theorem getElem?_set_cases {α : Type} {l : List α} {i j : Nat} {a b : α}
    (h : (l.set i a)[j]? = some b) : (i = j ∧ b = a) ∨ (i ≠ j ∧ l[j]? = some b) := by
  by_cases hij : i = j
  · subst hij
    left
    rcases Nat.lt_or_ge i l.length with h1 | h1
    · simp only [List.getElem?_set, h1, if_true, Option.some.injEq] at h
      exact ⟨rfl, h.symm⟩
    · rw [List.getElem?_eq_none (by simpa using h1)] at h; simp at h
  · right
    rw [List.getElem?_set_ne hij] at h
    exact ⟨hij, h⟩

theorem set_file_oplock_mutual_exclusion {K : smb_h} {E : env} {s s1 : smbd} {i t : Nat}
    (hme : mutual_exclusion K s.Files) (hg : grant_allowed K s (op.set_file_oplock i t))
    (h : step K E s (op.set_file_oplock i t) = Except.ok s1) : mutual_exclusion K s1.Files := by
  cases ht : K.EXCLUSIVE_OPLOCK_TYPE t with
  | false =>
    simp only [step] at h
    refine mutual_exclusion_of_files_step (on_handle_files_step ?_ h) hme
    intro g fsp g1 fsp1 he
    simp only [Except.ok.injEq] at he
    have := set_file_oplock_no_new_exclusive K E g fsp t ht
    rw [he] at this
    exact this
  | true =>
    simp only [step, on_handle] at h
    split at h
    · simp only [Except.ok.injEq] at h
      subst h
      exact hme
    · rename_i fsp hi
      simp only [Except.ok.injEq] at h
      subst h
      have hfid := set_file_oplock_file_id K E s.g fsp t
      have hga := hg ht
      intro a b fa fb hab ha hb hid hxa hxb
      simp only at ha hb
      rcases getElem?_set_cases ha with ⟨rfl, rfl⟩ | ⟨hia, ha0⟩
      · rcases getElem?_set_cases hb with ⟨rfl, -⟩ | ⟨-, hb0⟩
        · exact hab rfl
        · have := hga b fsp fb (Ne.symm hab) hi hb0 (by rw [← hid, hfid])
          rw [this] at hxb
          exact Bool.false_ne_true hxb
      · rcases getElem?_set_cases hb with ⟨rfl, rfl⟩ | ⟨-, hb0⟩
        · have := hga a fsp fa (Ne.symm hia) hi ha0 (by rw [hid, hfid])
          rw [this] at hxa
          exact Bool.false_ne_true hxa
        · exact hme a b fa fb hab ha0 hb0 hid hxa hxb

/-- One call keeps mutual exclusion, provided a grant of an EXCLUSIVE-family
oplock meets the caller's obligation. -/
theorem step_mutual_exclusion {K : smb_h} (hK : K.wf) {E : env} {s s1 : smbd} {o : op}
    (hme : mutual_exclusion K s.Files) (hg : grant_allowed K s o)
    (h : step K E s o = Except.ok s1) : mutual_exclusion K s1.Files := by
  cases o with
  | set_file_oplock i t => exact set_file_oplock_mutual_exclusion hme hg h
  | release_file_oplock i =>
    exact mutual_exclusion_of_files_step
      (on_handle_files_step (fun _ _ _ _ he => release_file_oplock_no_new_exclusive hK he) h) hme
  | downgrade_file_oplock i =>
    simp only [step] at h
    refine mutual_exclusion_of_files_step (on_handle_files_step ?_ h) hme
    intro g fsp g1 fsp1 he
    simp only [Except.ok.injEq] at he
    have := downgrade_file_oplock_no_new_exclusive hK E g fsp
    rw [he] at this
    exact this
  | remove_oplock i =>
    simp only [step] at h
    refine mutual_exclusion_of_files_step (on_handle_files_step ?_ h) hme
    intro g fsp g1 fsp1 he
    split at he
    · simp at he
    · rename_i r heq
      obtain ⟨b, g2, fsp2⟩ := r
      simp only [Except.ok.injEq, Prod.mk.injEq] at he
      obtain ⟨rfl, rfl⟩ := he
      exact remove_oplock_no_new_exclusive hK heq
  | downgrade_oplock i =>
    simp only [step] at h
    refine mutual_exclusion_of_files_step (on_handle_files_step ?_ h) hme
    intro g fsp g1 fsp1 he
    simp only [Except.ok.injEq] at he
    have := downgrade_oplock_no_new_exclusive hK E g fsp
    rw [he] at this
    exact this
  | reply_to_oplock_break_requests i =>
    simp only [step] at h
    refine mutual_exclusion_of_files_step (on_handle_files_step ?_ h) hme
    intro g fsp g1 fsp1 he
    simp only [Except.ok.injEq] at he
    have := reply_to_oplock_break_requests_no_new_exclusive K E g fsp
    rw [he] at this
    exact this
  | oplock_timeout_handler i =>
    exact mutual_exclusion_of_files_step
      (on_handle_files_step (fun _ _ _ _ he => oplock_timeout_handler_no_new_exclusive hK he) h)
      hme
  | break_level2_to_none_async i =>
    exact mutual_exclusion_of_files_step
      (on_handle_files_step
        (fun _ _ _ _ he => break_level2_to_none_async_no_new_exclusive hK he) h) hme
  | contend_level2_oplocks_begin i type =>
    exact mutual_exclusion_of_files_step
      (on_handle_files_step
        (fun _ _ _ _ he => contend_level2_oplocks_begin_no_new_exclusive hK he) h) hme
  | contend_level2_oplocks_end i type =>
    simp only [step] at h
    refine mutual_exclusion_of_files_step (on_handle_files_step ?_ h) hme
    intro g fsp g1 fsp1 he
    simp only [Except.ok.injEq, Prod.mk.injEq] at he
    rw [← he.2]
    exact no_new_exclusive_refl K fsp
  | break_kernel_oplock i =>
    simp only [step] at h
    refine mutual_exclusion_of_files_step (on_handle_files_step ?_ h) hme
    intro g fsp g1 fsp1 he
    simp only [Except.ok.injEq, Prod.mk.injEq] at he
    rw [← he.2]
    exact no_new_exclusive_refl K fsp
  | process_oplock_break_message src data =>
    exact mutual_exclusion_of_files_step (process_oplock_break_message_files_step h) hme
  | process_oplock_async_level2_break_message data =>
    exact mutual_exclusion_of_files_step
      (process_oplock_async_level2_break_message_files_step hK h) hme
  | process_kernel_oplock_break data =>
    exact mutual_exclusion_of_files_step (process_kernel_oplock_break_files_step h) hme
  | process_oplock_break_response data =>
    simp only [step, Except.ok.injEq] at h
    rw [← h, process_oplock_break_response_Files]
    exact hme
  | process_open_retry_message data =>
    simp only [step, Except.ok.injEq] at h
    rw [← h, process_open_retry_message_Files]
    exact hme

theorem initial_mutual_exclusion {K : smb_h} (hK : K.wf) {s : smbd} (h : s.initial K) :
    mutual_exclusion K s.Files := by
  intro i j fi fj _ hi _ _ hxi _
  have hm : fi ∈ s.Files := List.getElem?_mem hi
  rw [h.2.2 fi hm, hK.excl_none] at hxi
  exact Bool.false_ne_true hxi

theorem run_mutual_exclusion {K : smb_h} (hK : K.wf) (ops : List (env × op)) :
    ∀ (s s1 : smbd), mutual_exclusion K s.Files → grants_allowed K s ops →
      run K s ops = Except.ok s1 → mutual_exclusion K s1.Files := by
  induction ops with
  | nil =>
    intro s s1 hme _ h
    simp only [run, Except.ok.injEq] at h
    subst h
    exact hme
  | cons x rest ih =>
    intro s s1 hme hg h
    simp only [run] at h
    split at h
    · simp at h
    · rename_i s2 hs
      exact ih s2 s1 (step_mutual_exclusion hK hme hg.1 hs) (hg.2 s2 hs) h

/-- When the counters are non-negative and count the handle, the two
assertions of `release_file_oplock` hold and the call returns: the handle
becomes FAKE_LEVEL_II (from the EXCLUSIVE family) or NONE, its break marker
and timer are cleared, and the counter of its former state goes down by 1. -/
theorem release_file_oplock_ok {K : smb_h} (hK : K.wf) (E : env) (g : globals)
    (fsp : files_struct) (h0x : 0 ≤ g.exclusive_oplocks_open) (h0l : 0 ≤ g.level_II_oplocks_open)
    (hl : fsp.oplock_type = K.LEVEL_II_OPLOCK → 1 ≤ g.level_II_oplocks_open)
    (hx : K.EXCLUSIVE_OPLOCK_TYPE fsp.oplock_type = true → 1 ≤ g.exclusive_oplocks_open) :
    ∃ (g1 : globals) (fsp1 : files_struct),
      release_file_oplock K E g fsp = Except.ok (g1, fsp1) ∧
      fsp1 = { fsp with
          oplock_type :=
            if K.EXCLUSIVE_OPLOCK_TYPE fsp.oplock_type then K.FAKE_LEVEL_II_OPLOCK
            else K.NO_OPLOCK
          sent_oplock_break := K.NO_BREAK_SENT
          oplock_timeout := none } ∧
      g1.exclusive_oplocks_open
        = g.exclusive_oplocks_open - ind (K.EXCLUSIVE_OPLOCK_TYPE fsp.oplock_type) ∧
      g1.level_II_oplocks_open
        = g.level_II_oplocks_open - ind (decide (fsp.oplock_type = K.LEVEL_II_OPLOCK)) ∧
      g1.global_client_failed_oplock_break = g.global_client_failed_oplock_break := by
  by_cases hL : fsp.oplock_type = K.LEVEL_II_OPLOCK
  · have hX : K.EXCLUSIVE_OPLOCK_TYPE fsp.oplock_type = false := by rw [hL]; exact hK.excl_level2
    have h1 := hl hL
    have h2 : (0:Int) ≤ g.level_II_oplocks_open - 1 := by omega
    have d1 := int32_dec_of_nonneg h0l
    by_cases hk : E.koplocks.isSome = true <;>
      simp [release_file_oplock, SMB_ASSERT, hL, hk, globals.log, ind, h0x, h2, d1,
        hK.level2_ne_fake, hK.none_ne_level2.symm, hK.excl_level2] <;>
      exact ⟨_, _, ⟨rfl, rfl⟩, rfl, rfl, rfl, rfl⟩
  · cases hX : K.EXCLUSIVE_OPLOCK_TYPE fsp.oplock_type
    · by_cases hk : fsp.oplock_type ≠ K.NO_OPLOCK ∧ fsp.oplock_type ≠ K.FAKE_LEVEL_II_OPLOCK ∧
          E.koplocks.isSome = true <;>
        simp [release_file_oplock, SMB_ASSERT, hL, hX, hk, globals.log, ind, h0x, h0l] <;>
        exact ⟨_, _, ⟨rfl, rfl⟩, rfl, rfl, rfl, rfl⟩
    · have h1 := hx hX
      have h2 : (0:Int) ≤ g.exclusive_oplocks_open - 1 := by omega
      have d1 := int32_dec_of_nonneg h0x
      by_cases hk : fsp.oplock_type ≠ K.NO_OPLOCK ∧ fsp.oplock_type ≠ K.FAKE_LEVEL_II_OPLOCK ∧
          E.koplocks.isSome = true <;>
        simp [release_file_oplock, SMB_ASSERT, hL, hX, hk, globals.log, ind, h0l, h2, d1] <;>
        exact ⟨_, _, ⟨rfl, rfl⟩, rfl, rfl, rfl, rfl⟩

theorem countP_set_int {α : Type} (p : α → Bool) (l : List α) :
    ∀ (i : Nat) (a b : α), l[i]? = some a →
      ((l.set i b).countP p : Int) = (l.countP p : Int) - ind (p a) + ind (p b) := by
  induction l with
  | nil => intro i a b h; simp at h
  | cons x t ih =>
    intro i a b h
    cases i with
    | zero =>
      simp only [List.getElem?_cons_zero, Option.some.injEq] at h
      subst h
      simp only [List.set_cons_zero, List.countP_cons, ind]
      cases p x <;> cases p b <;> simp
    | succ n =>
      simp only [List.getElem?_cons_succ] at h
      have := ih n a b h
      simp only [List.set_cons_succ, List.countP_cons, Nat.cast_add]
      omega

theorem counters_cover_set {K : smb_h} {s : smbd} {i : Nat} {fsp fsp1 : files_struct}
    {g1 : globals} (hc : counters_cover K s) (hi : s.Files[i]? = some fsp)
    (hm : counted_move K s.g fsp g1 fsp1) :
    counters_cover K { g := g1, Files := s.Files.set i fsp1 } := by
  obtain ⟨hc1, hc2⟩ := hc
  obtain ⟨hm1, hm2⟩ := hm
  constructor
  · have := countP_set_int (fun f => K.EXCLUSIVE_OPLOCK_TYPE f.oplock_type) s.Files i fsp fsp1 hi
    simp only at this ⊢
    omega
  · have := countP_set_int (fun f => decide (f.oplock_type = K.LEVEL_II_OPLOCK)) s.Files i fsp
      fsp1 hi
    simp only at this ⊢
    omega

theorem set_file_oplock_counted_move {K : smb_h} (hK : K.wf) (E : env) (g : globals)
    (fsp : files_struct) (t : Nat) (hmx : g.exclusive_oplocks_open < INT32_MAX)
    (hml : g.level_II_oplocks_open < INT32_MAX) :
    counted_move K g fsp (set_file_oplock K E g fsp t).2.1 (set_file_oplock K E g fsp t).2.2 ∧
    (set_file_oplock K E g fsp t).2.1.exclusive_oplocks_open ≤ g.exclusive_oplocks_open + 1 ∧
    (set_file_oplock K E g fsp t).2.1.level_II_oplocks_open ≤ g.level_II_oplocks_open + 1 := by
  obtain ⟨g1, hg, h | h⟩ := set_file_oplock_cases K E g fsp t
  · rw [h]
    rcases hg with rfl | rfl <;> simp [counted_move, globals.log]
  · rw [h]
    have e1 : g1.exclusive_oplocks_open = g.exclusive_oplocks_open := by
      rcases hg with rfl | rfl <;> rfl
    have e2 : g1.level_II_oplocks_open = g.level_II_oplocks_open := by
      rcases hg with rfl | rfl <;> rfl
    have k1 : int32_inc g.exclusive_oplocks_open = g.exclusive_oplocks_open + 1 :=
      int32_inc_of_lt hmx
    have k2 : int32_inc g.level_II_oplocks_open = g.level_II_oplocks_open + 1 :=
      int32_inc_of_lt hml
    have i1 : 0 ≤ ind (K.EXCLUSIVE_OPLOCK_TYPE fsp.oplock_type) := by
      unfold ind; split_ifs <;> omega
    have i2 : 0 ≤ ind (decide (fsp.oplock_type = K.LEVEL_II_OPLOCK)) := by
      unfold ind; split_ifs <;> omega
    by_cases hL : t = K.LEVEL_II_OPLOCK
    · have hX : K.EXCLUSIVE_OPLOCK_TYPE t = false := by rw [hL]; exact hK.excl_level2
      have j1 : ind (K.EXCLUSIVE_OPLOCK_TYPE t) = 0 := by simp [ind, hX]
      have j2 : ind (decide (t = K.LEVEL_II_OPLOCK)) = 1 := by simp [ind, hL]
      simp only [counted_move, if_pos hL, j1, j2, e1, e2, k1, k2]
      refine ⟨⟨?_, ?_⟩, ?_, ?_⟩ <;> omega
    · have j2 : ind (decide (t = K.LEVEL_II_OPLOCK)) = 0 := by simp [ind, hL]
      cases hX : K.EXCLUSIVE_OPLOCK_TYPE t
      · have j1 : ind false = 0 := rfl
        simp only [counted_move, if_neg hL, hX, j1, j2, e1, e2, k1, k2, Bool.false_eq_true,
          if_false]
        refine ⟨⟨?_, ?_⟩, ?_, ?_⟩ <;> omega
      · have j1 : ind true = 1 := rfl
        simp only [counted_move, if_neg hL, hX, j1, j2, e1, e2, k1, k2, if_true]
        refine ⟨⟨?_, ?_⟩, ?_, ?_⟩ <;> omega

theorem downgrade_file_oplock_counted_move {K : smb_h} (hK : K.wf) (E : env) (g : globals)
    (fsp : files_struct) (h0x : 0 ≤ g.exclusive_oplocks_open)
    (hml : g.level_II_oplocks_open < INT32_MAX) :
    counted_move K g fsp (downgrade_file_oplock K E g fsp).1 (downgrade_file_oplock K E g fsp).2 ∧
    (downgrade_file_oplock K E g fsp).1.exclusive_oplocks_open ≤ g.exclusive_oplocks_open + 1 ∧
    (downgrade_file_oplock K E g fsp).1.level_II_oplocks_open ≤ g.level_II_oplocks_open + 1 := by
  unfold downgrade_file_oplock
  cases hX : K.EXCLUSIVE_OPLOCK_TYPE fsp.oplock_type
  · simp [counted_move]
  · have hL : fsp.oplock_type ≠ K.LEVEL_II_OPLOCK := by
      intro h; rw [h, hK.excl_level2] at hX; exact Bool.false_ne_true hX
    have d1 := int32_dec_of_nonneg h0x
    have k2 := int32_inc_of_lt hml
    cases hk : E.koplocks.isSome <;>
      simp [counted_move, hX, hL, hK.excl_level2, ind, globals.log, d1, k2] <;> omega

theorem countP_pos_of_getElem? {α : Type} (p : α → Bool) {l : List α} {i : Nat} {a : α}
    (h : l[i]? = some a) (hp : p a = true) : 1 ≤ (l.countP p : Int) := by
  have hm : a ∈ l := List.getElem?_mem h
  have : 0 < l.countP p := List.countP_pos_iff.mpr ⟨a, hm, hp⟩
  omega

/-- One of the three counter calls, made in a state whose counters cover the
handles, returns, keeps the cover, and raises each counter by at most 1. -/
theorem step_counter_call {K : smb_h} (hK : K.wf) (E : env) {s : smbd} {o : op}
    (hc : counters_cover K s) (ho : o.is_counter_call = true)
    (hmx : s.g.exclusive_oplocks_open < INT32_MAX)
    (hml : s.g.level_II_oplocks_open < INT32_MAX) :
    ∃ s1, step K E s o = Except.ok s1 ∧ counters_cover K s1 ∧
      s1.g.exclusive_oplocks_open ≤ s.g.exclusive_oplocks_open + 1 ∧
      s1.g.level_II_oplocks_open ≤ s.g.level_II_oplocks_open + 1 := by
  cases o with
  | set_file_oplock i t =>
    simp only [step, on_handle]
    cases hi : s.Files[i]? with
    | none => exact ⟨s, rfl, hc, by omega, by omega⟩
    | some fsp =>
      obtain ⟨hm, hb1, hb2⟩ := set_file_oplock_counted_move hK E s.g fsp t hmx hml
      exact ⟨_, rfl, counters_cover_set hc hi hm, hb1, hb2⟩
  | downgrade_file_oplock i =>
    simp only [step, on_handle]
    cases hi : s.Files[i]? with
    | none => exact ⟨s, rfl, hc, by omega, by omega⟩
    | some fsp =>
      obtain ⟨hm, hb1, hb2⟩ := downgrade_file_oplock_counted_move hK E s.g fsp
        (le_trans (Int.ofNat_nonneg _) hc.1) hml
      exact ⟨_, rfl, counters_cover_set hc hi hm, hb1, hb2⟩
  | release_file_oplock i =>
    simp only [step, on_handle]
    cases hi : s.Files[i]? with
    | none => exact ⟨s, rfl, hc, by omega, by omega⟩
    | some fsp =>
      have hx0 : (0 : Int) ≤ s.g.exclusive_oplocks_open :=
        le_trans (Int.ofNat_nonneg _) hc.1
      have hl0 : (0 : Int) ≤ s.g.level_II_oplocks_open :=
        le_trans (Int.ofNat_nonneg _) hc.2
      have hl : fsp.oplock_type = K.LEVEL_II_OPLOCK → 1 ≤ s.g.level_II_oplocks_open :=
        fun h => le_trans
          (countP_pos_of_getElem? (fun f => decide (f.oplock_type = K.LEVEL_II_OPLOCK)) hi
            (by simpa using h)) hc.2
      have hx : K.EXCLUSIVE_OPLOCK_TYPE fsp.oplock_type = true → 1 ≤ s.g.exclusive_oplocks_open :=
        fun h => le_trans
          (countP_pos_of_getElem? (fun f => K.EXCLUSIVE_OPLOCK_TYPE f.oplock_type) hi h) hc.1
      obtain ⟨g1, fsp1, hr, hf, e1, e2, -⟩ := release_file_oplock_ok hK E s.g fsp hx0 hl0 hl hx
      refine ⟨{ g := g1, Files := s.Files.set i fsp1 }, by simp only [hr],
        counters_cover_set hc hi ?_, ?_, ?_⟩
      · subst hf
        constructor
        · simp only [e1]
          cases hX : K.EXCLUSIVE_OPLOCK_TYPE fsp.oplock_type <;>
            simp [ind, hK.excl_none, hK.excl_fake]
        · simp only [e2]
          cases hX : K.EXCLUSIVE_OPLOCK_TYPE fsp.oplock_type <;>
            simp [ind, hK.none_ne_level2, hK.level2_ne_fake.symm]
      · simp only [e1, ind]; split_ifs <;> omega
      · simp only [e2, ind]; split_ifs <;> omega
  | _ => simp [op.is_counter_call] at ho

theorem initial_counters_cover {K : smb_h} (hK : K.wf) {s : smbd} (h : s.initial K) :
    counters_cover K s := by
  obtain ⟨h1, h2, h3⟩ := h
  have c1 : s.Files.countP (fun f => K.EXCLUSIVE_OPLOCK_TYPE f.oplock_type) = 0 := by
    rw [List.countP_eq_zero]
    intro f hf
    simp [h3 f hf, hK.excl_none]
  have c2 : s.Files.countP (fun f => decide (f.oplock_type = K.LEVEL_II_OPLOCK)) = 0 := by
    rw [List.countP_eq_zero]
    intro f hf
    simp [h3 f hf, hK.none_ne_level2]
  simp [counters_cover, c1, c2, h1, h2]

theorem run_counter_calls {K : smb_h} (hK : K.wf) (ops : List (env × op)) :
    ∀ (s : smbd) (c : Int), counters_cover K s → s.g.exclusive_oplocks_open ≤ c →
      s.g.level_II_oplocks_open ≤ c → (∀ x ∈ ops, x.2.is_counter_call = true) →
      c + ops.length ≤ INT32_MAX →
      ∃ s1, run K s ops = Except.ok s1 ∧ counters_cover K s1 ∧
        s1.g.exclusive_oplocks_open ≤ c + ops.length ∧
        s1.g.level_II_oplocks_open ≤ c + ops.length := by
  induction ops with
  | nil =>
    intro s c hc h1 h2 _ _
    exact ⟨s, rfl, hc, by simpa using h1, by simpa using h2⟩
  | cons x rest ih =>
    intro s c hc h1 h2 ho hb
    simp only [List.length_cons, Nat.cast_add, Nat.cast_one] at hb
    have hn : (0 : Int) ≤ (rest.length : Int) := Int.ofNat_nonneg _
    obtain ⟨s1, hs, hc1, b1, b2⟩ :=
      step_counter_call hK x.1 hc (ho x (List.mem_cons_self _ _)) (by omega) (by omega)
    obtain ⟨s2, hr, hc2, b3, b4⟩ := ih s1 (c + 1) hc1 (by omega) (by omega)
      (fun y hy => ho y (List.mem_cons_of_mem _ hy)) (by omega)
    refine ⟨s2, by simp [run, hs, hr], hc2, ?_, ?_⟩
    · simp only [List.length_cons, Nat.cast_add, Nat.cast_one]; omega
    · simp only [List.length_cons, Nat.cast_add, Nat.cast_one]; omega

/-! ### Trace lemmas -/

theorem bus_sends_append (a b : List event) : bus_sends (a ++ b) = bus_sends a ++ bus_sends b := by
  simp [bus_sends]

theorem client_sends_append (a b : List event) :
    client_sends (a ++ b) = client_sends a ++ client_sends b := by
  simp [client_sends]

theorem registry_writes_append (a b : List event) :
    registry_writes (a ++ b) = registry_writes a ++ registry_writes b := by
  simp [registry_writes]

theorem release_events_quiet (K : smb_h) (E : env) (fsp : files_struct) :
    bus_sends (release_events K E fsp) = [] ∧ client_sends (release_events K E fsp) = [] ∧
    registry_writes (release_events K E fsp) = [] := by
  unfold release_events
  split_ifs <;>
    simp [bus_sends, client_sends, registry_writes, event.is_bus_send, event.is_client_send,
      event.is_registry_write]

/-- The full effect of `release_file_oplock` when its assertions hold. -/
theorem release_file_oplock_eq {K : smb_h} (hK : K.wf) (E : env) (g : globals)
    (fsp : files_struct) (hc : counted K g fsp) :
    release_file_oplock K E g fsp = Except.ok
      ({ exclusive_oplocks_open :=
           g.exclusive_oplocks_open - ind (K.EXCLUSIVE_OPLOCK_TYPE fsp.oplock_type)
         level_II_oplocks_open :=
           g.level_II_oplocks_open - ind (decide (fsp.oplock_type = K.LEVEL_II_OPLOCK))
         global_client_failed_oplock_break := g.global_client_failed_oplock_break
         trace := g.trace ++ release_events K E fsp }, released K fsp) := by
  obtain ⟨h0x, h0l, hl, hx⟩ := hc
  by_cases hL : fsp.oplock_type = K.LEVEL_II_OPLOCK
  · have h1 := hl hL
    have h2 : (0:Int) ≤ g.level_II_oplocks_open - 1 := by omega
    have d1 := int32_dec_of_nonneg h0l
    by_cases hk : E.koplocks.isSome = true <;>
      simp [release_file_oplock, SMB_ASSERT, hL, hk, globals.log, ind, h0x, d1, h2, released,
        release_events, hK.level2_ne_fake, hK.none_ne_level2.symm, hK.excl_level2]
  · cases hX : K.EXCLUSIVE_OPLOCK_TYPE fsp.oplock_type
    · by_cases hk : fsp.oplock_type ≠ K.NO_OPLOCK ∧ fsp.oplock_type ≠ K.FAKE_LEVEL_II_OPLOCK ∧
          E.koplocks.isSome = true <;>
        simp [release_file_oplock, SMB_ASSERT, hL, hX, hk, globals.log, ind, h0x, h0l, released,
          release_events]
    · have h1 := hx hX
      have h2 : (0:Int) ≤ g.exclusive_oplocks_open - 1 := by omega
      have d1 := int32_dec_of_nonneg h0x
      by_cases hk : fsp.oplock_type ≠ K.NO_OPLOCK ∧ fsp.oplock_type ≠ K.FAKE_LEVEL_II_OPLOCK ∧
          E.koplocks.isSome = true <;>
        simp [release_file_oplock, SMB_ASSERT, hL, hX, hk, globals.log, ind, h0l, d1, h2,
          released, release_events]

theorem counted_of_counters {K : smb_h} {g g1 : globals} {fsp : files_struct}
    (hc : counted K g fsp) (h1 : g1.exclusive_oplocks_open = g.exclusive_oplocks_open)
    (h2 : g1.level_II_oplocks_open = g.level_II_oplocks_open) : counted K g1 fsp := by
  unfold counted at *
  rw [h1, h2]
  exact hc

/-- The full effect of `remove_oplock` when the registry lock is obtained
and the assertions of the release hold. -/
theorem remove_oplock_eq_locked {K : smb_h} (hK : K.wf) (E : env) (g : globals)
    (fsp : files_struct) (lck : share_mode_lock)
    (hlock : E.get_share_mode_lock fsp.file_id = some lck) (hc : counted K g fsp) :
    remove_oplock K E g fsp = Except.ok
      (E.remove_share_oplock lck fsp,
       { exclusive_oplocks_open :=
           g.exclusive_oplocks_open - ind (K.EXCLUSIVE_OPLOCK_TYPE fsp.oplock_type)
         level_II_oplocks_open :=
           g.level_II_oplocks_open - ind (decide (fsp.oplock_type = K.LEVEL_II_OPLOCK))
         global_client_failed_oplock_break := g.global_client_failed_oplock_break
         trace := g.trace ++
           [event.get_share_mode_lock fsp.file_id,
            event.remove_share_oplock fsp.file_id fsp.gen_id] ++
           release_events K E fsp ++ [event.free_share_mode_lock fsp.file_id] },
       released K fsp) := by
  have hc2 : counted K
      ((g.log (event.get_share_mode_lock fsp.file_id)).log
        (event.remove_share_oplock fsp.file_id fsp.gen_id)) fsp :=
    counted_of_counters hc rfl rfl
  simp only [remove_oplock, hlock, release_file_oplock_eq hK E _ fsp hc2]
  simp [globals.log]

theorem remove_oplock_eq_unlocked (K : smb_h) (E : env) (g : globals) (fsp : files_struct)
    (hlock : E.get_share_mode_lock fsp.file_id = none) :
    remove_oplock K E g fsp = Except.ok (false, g, fsp) := by
  simp only [remove_oplock, hlock]

theorem foldl_log (f : share_mode_entry → event) (l : List share_mode_entry) :
    ∀ g : globals, l.foldl (fun acc e => acc.log (f e)) g
      = { g with trace := g.trace ++ l.map f } := by
  induction l with
  | nil => intro g; simp
  | cons a t ih =>
    intro g
    rw [List.foldl_cons, ih]
    simp [globals.log]

theorem encode_length (c : Bool) (msg : List Nat) (e : share_mode_entry)
    (h : msg.length = MSG_SMB_SHARE_MODE_ENTRY_SIZE c) :
    (share_mode_entry_to_message c msg e).length = MSG_SMB_SHARE_MODE_ENTRY_SIZE c := by
  rw [encode_exact c msg e h]
  cases c <;> simp [MSG_SMB_SHARE_MODE_ENTRY_SIZE, wire_fields_length, leBytes_length]

theorem encode_take (c : Bool) (e : share_mode_entry) :
    (share_mode_entry_to_message c (List.replicate (MSG_SMB_SHARE_MODE_ENTRY_SIZE c) 0) e).take
        (MSG_SMB_SHARE_MODE_ENTRY_SIZE c)
      = share_mode_entry_to_message c (List.replicate (MSG_SMB_SHARE_MODE_ENTRY_SIZE c) 0) e := by
  apply List.take_of_length_le
  rw [encode_length c _ e (by simp)]

/-- The full effect of `reply_to_oplock_break_requests` when the kernel
backend does not notify broken oplocks itself. -/
theorem reply_to_oplock_break_requests_eq (K : smb_h) (E : env) (g : globals)
    (fsp : files_struct) (hk : E.koplocks_has K.KOPLOCKS_OPLOCK_BROKEN_NOTIFICATION = false) :
    reply_to_oplock_break_requests K E g fsp =
      ({ g with trace := g.trace ++ fsp.pending_break_messages.map (break_response_for K) },
       { fsp with pending_break_messages := [], oplock_timeout := none }) := by
  simp only [reply_to_oplock_break_requests, hk, Bool.false_eq_true, if_false, encode_take]
  have := foldl_log (break_response_for K) fsp.pending_break_messages g
  simp only [break_response_for] at this ⊢
  rw [this]

theorem reply_to_oplock_break_requests_kernel (K : smb_h) (E : env) (g : globals)
    (fsp : files_struct) (hk : E.koplocks_has K.KOPLOCKS_OPLOCK_BROKEN_NOTIFICATION = true) :
    reply_to_oplock_break_requests K E g fsp = (g, fsp) := by
  simp only [reply_to_oplock_break_requests, hk, if_true]

theorem bus_sends_map_break_response (K : smb_h) (l : List share_mode_entry) :
    bus_sends (l.map (break_response_for K)) = l.map (break_response_for K) := by
  induction l with
  | nil => rfl
  | cons a t ih =>
    simp only [List.map_cons, bus_sends, List.filter_cons] at ih ⊢
    simp [break_response_for, event.is_bus_send, ih]

theorem client_sends_map_break_response (K : smb_h) (l : List share_mode_entry) :
    client_sends (l.map (break_response_for K)) = [] := by
  induction l with
  | nil => rfl
  | cons a t ih =>
    simp only [List.map_cons, client_sends, List.filter_cons] at ih ⊢
    simp [break_response_for, event.is_client_send, ih]

/-- The timeout handler when the registry lock is obtained: the release,
with the flag of a failed break set, followed by the replies. -/
theorem oplock_timeout_handler_locked {K : smb_h} (hK : K.wf) (E : env) (g : globals)
    (fsp : files_struct) (lck : share_mode_lock)
    (hlock : E.get_share_mode_lock fsp.file_id = some lck) (hc : counted K g fsp) :
    oplock_timeout_handler K E g fsp = Except.ok
      (reply_to_oplock_break_requests K E
        { exclusive_oplocks_open :=
            g.exclusive_oplocks_open - ind (K.EXCLUSIVE_OPLOCK_TYPE fsp.oplock_type)
          level_II_oplocks_open :=
            g.level_II_oplocks_open - ind (decide (fsp.oplock_type = K.LEVEL_II_OPLOCK))
          global_client_failed_oplock_break := true
          trace := g.trace ++
            [event.get_share_mode_lock fsp.file_id,
             event.remove_share_oplock fsp.file_id fsp.gen_id] ++
            release_events K E fsp ++ [event.free_share_mode_lock fsp.file_id] }
        (released K fsp)) := by
  have hc1 : counted K { g with global_client_failed_oplock_break := true }
      { fsp with oplock_timeout := none } := hc
  have hr := remove_oplock_eq_locked hK E { g with global_client_failed_oplock_break := true }
    { fsp with oplock_timeout := none } lck hlock hc1
  simp only [oplock_timeout_handler, hr]
  rfl

/-- The timeout handler when the registry lock is not obtained: only the
replies, the oplock staying as it was. -/
theorem oplock_timeout_handler_unlocked (K : smb_h) (E : env) (g : globals)
    (fsp : files_struct) (hlock : E.get_share_mode_lock fsp.file_id = none) :
    oplock_timeout_handler K E g fsp = Except.ok
      (reply_to_oplock_break_requests K E { g with global_client_failed_oplock_break := true }
        { fsp with oplock_timeout := none }) := by
  have hr := remove_oplock_eq_unlocked K E { g with global_client_failed_oplock_break := true }
    { fsp with oplock_timeout := none } hlock
  simp only [oplock_timeout_handler, hr]

theorem reply_to_oplock_break_requests_frame (K : smb_h) (E : env) (g : globals)
    (fsp : files_struct) :
    (reply_to_oplock_break_requests K E g fsp).2.oplock_type = fsp.oplock_type ∧
    (reply_to_oplock_break_requests K E g fsp).2.sent_oplock_break = fsp.sent_oplock_break ∧
    (reply_to_oplock_break_requests K E g fsp).1.exclusive_oplocks_open
      = g.exclusive_oplocks_open ∧
    (reply_to_oplock_break_requests K E g fsp).1.level_II_oplocks_open
      = g.level_II_oplocks_open := by
  cases hb : E.koplocks_has K.KOPLOCKS_OPLOCK_BROKEN_NOTIFICATION
  · rw [reply_to_oplock_break_requests_eq K E g fsp hb]
    exact ⟨rfl, rfl, rfl, rfl⟩
  · rw [reply_to_oplock_break_requests_kernel K E g fsp hb]
    exact ⟨rfl, rfl, rfl, rfl⟩

theorem reply_to_oplock_break_requests_timer (K : smb_h) (E : env) (g : globals)
    (fsp : files_struct) (h : fsp.oplock_timeout = none) :
    (reply_to_oplock_break_requests K E g fsp).2.oplock_timeout = none := by
  cases hb : E.koplocks_has K.KOPLOCKS_OPLOCK_BROKEN_NOTIFICATION
  · rw [reply_to_oplock_break_requests_eq K E g fsp hb]
  · rw [reply_to_oplock_break_requests_kernel K E g fsp hb]
    exact h

theorem reply_to_oplock_break_requests_sends (K : smb_h) (E : env) (g : globals)
    (fsp : files_struct) :
    (E.koplocks_has K.KOPLOCKS_OPLOCK_BROKEN_NOTIFICATION = false →
      bus_sends (reply_to_oplock_break_requests K E g fsp).1.trace
        = bus_sends g.trace ++ fsp.pending_break_messages.map (break_response_for K) ∧
      (reply_to_oplock_break_requests K E g fsp).2.pending_break_messages = []) ∧
    (E.koplocks_has K.KOPLOCKS_OPLOCK_BROKEN_NOTIFICATION = true →
      bus_sends (reply_to_oplock_break_requests K E g fsp).1.trace = bus_sends g.trace) := by
  constructor
  · intro hb
    rw [reply_to_oplock_break_requests_eq K E g fsp hb]
    simp [bus_sends_append, bus_sends_map_break_response]
  · intro hb
    rw [reply_to_oplock_break_requests_kernel K E g fsp hb]

/-! ### The asynchronous level-II break -/

theorem send_break_to_client_eq (E : env) (g : globals) (fsp : files_struct)
    (m : break_smb_message) (hs : E.srv_send_smb_ok = true) :
    send_break_to_client E g fsp m = Except.ok
      { g with trace := g.trace ++
          [event.srv_oplock_set_signing false, event.srv_send_smb m fsp.encrypted,
           event.srv_oplock_set_signing E.sign_state] } := by
  simp [send_break_to_client, hs, globals.log]

theorem break_packet_events_quiet (E : env) (fsp : files_struct) (cmd : Nat) :
    bus_sends (break_packet_events E fsp cmd) = [] ∧
    registry_writes (break_packet_events E fsp cmd) = [] ∧
    client_sends (break_packet_events E fsp cmd)
      = [event.srv_send_smb { tid := fsp.cnum, fnum := fsp.fnum, cmd := cmd } fsp.encrypted] := by
  simp [break_packet_events, bus_sends, registry_writes, client_sends, event.is_bus_send,
    event.is_registry_write, event.is_client_send]

theorem remove_events_quiet (K : smb_h) (E : env) (fsp : files_struct) :
    bus_sends (remove_events K E fsp) = [] ∧ client_sends (remove_events K E fsp) = [] ∧
    registry_writes (remove_events K E fsp)
      = [event.remove_share_oplock fsp.file_id fsp.gen_id] := by
  have hq := release_events_quiet K E fsp
  simp only [remove_events, bus_sends_append, client_sends_append, registry_writes_append,
    hq.1, hq.2.1, hq.2.2]
  simp [bus_sends, registry_writes, client_sends, event.is_bus_send,
    event.is_registry_write, event.is_client_send]

theorem break_level2_to_none_async_none (K : smb_h) (E : env) (g : globals)
    (fsp : files_struct) (h : fsp.oplock_type = K.NO_OPLOCK) :
    break_level2_to_none_async K E g fsp = Except.ok (g, fsp) := by
  simp [break_level2_to_none_async, h]

/-- The full effect of the asynchronous break on a LEVEL_II handle when the
packet is allocated and sent and the registry lock is obtained. -/
theorem break_level2_to_none_async_level2 {K : smb_h} (hK : K.wf) (E : env) (g : globals)
    (fsp : files_struct) (lck : share_mode_lock)
    (hL : fsp.oplock_type = K.LEVEL_II_OPLOCK)
    (hlock : E.get_share_mode_lock fsp.file_id = some lck)
    (ht : E.talloc_ok = true) (hs : E.srv_send_smb_ok = true) (hc : counted K g fsp) :
    break_level2_to_none_async K E g fsp = Except.ok
      ({ exclusive_oplocks_open := g.exclusive_oplocks_open
         level_II_oplocks_open := g.level_II_oplocks_open - 1
         global_client_failed_oplock_break := g.global_client_failed_oplock_break
         trace := g.trace ++ break_packet_events E fsp K.OPLOCKLEVEL_NONE ++
           remove_events K E fsp },
       { fsp with oplock_type := K.NO_OPLOCK, sent_oplock_break := K.NO_BREAK_SENT,
                  oplock_timeout := none }) := by
  have hc2 : counted K
      { g with trace := g.trace ++
          [event.srv_oplock_set_signing false,
           event.srv_send_smb { tid := fsp.cnum, fnum := fsp.fnum, cmd := K.OPLOCKLEVEL_NONE }
             fsp.encrypted,
           event.srv_oplock_set_signing E.sign_state] } fsp :=
    counted_of_counters hc rfl rfl
  have hr := remove_oplock_eq_locked hK E _ fsp lck hlock hc2
  simp only [break_level2_to_none_async, SMB_ASSERT, new_break_smb_message, ht, if_true,
    send_break_to_client_eq E g fsp _ hs, hr]
  simp [hL, hK.none_ne_level2.symm, hK.level2_ne_fake, hK.excl_level2, ind, released,
    break_packet_events, remove_events]

/-- The full effect of the asynchronous break on a FAKE_LEVEL_II handle
when the registry lock is obtained: no packet goes to the client. -/
theorem break_level2_to_none_async_fake {K : smb_h} (hK : K.wf) (E : env) (g : globals)
    (fsp : files_struct) (lck : share_mode_lock)
    (hF : fsp.oplock_type = K.FAKE_LEVEL_II_OPLOCK)
    (hlock : E.get_share_mode_lock fsp.file_id = some lck) (hc : counted K g fsp) :
    break_level2_to_none_async K E g fsp = Except.ok
      ({ g with trace := g.trace ++ remove_events K E fsp },
       { fsp with oplock_type := K.NO_OPLOCK, sent_oplock_break := K.NO_BREAK_SENT,
                  oplock_timeout := none }) := by
  have hr := remove_oplock_eq_locked hK E g fsp lck hlock hc
  simp only [break_level2_to_none_async, hr]
  simp [hF, hK.none_ne_fake.symm, hK.level2_ne_fake.symm, hK.excl_fake, ind, released,
    remove_events]

/-! ### The break request -/

theorem wait_events_quiet (K : smb_h) (E : env) (src : server_id) :
    bus_sends (wait_events K E src) = [] ∧ client_sends (wait_events K E src) = [] ∧
    registry_writes (wait_events K E src) = [] := by
  unfold wait_events
  split_ifs <;>
    simp [bus_sends, client_sends, registry_writes, event.is_bus_send, event.is_client_send,
      event.is_registry_write]

/-- The full effect of `process_oplock_break_message` when it sends a break
to the client: the request is well formed, the handle is found with no
break in flight, the request is not the one of an already downgraded
oplock, and the packet is allocated and sent. -/
theorem process_oplock_break_message_break (K : smb_h) (E : env) (s : smbd) (src : server_id)
    (data : DATA_BLOB) (buf : List Nat) (i : Nat) (fsp : files_struct)
    (hd : data.data = some buf)
    (hl : data.length = MSG_SMB_SHARE_MODE_ENTRY_SIZE K.CLUSTER_SUPPORT)
    (hi : initial_break_processing K s.Files (decoded K buf).id (decoded K buf).share_file_id
      = some (i, fsp))
    (hn : fsp.sent_oplock_break = K.NO_BREAK_SENT)
    (hx : (K.EXCLUSIVE_OPLOCK_TYPE (decoded K buf).op_type &&
      !K.EXCLUSIVE_OPLOCK_TYPE fsp.oplock_type) = false)
    (ht : E.talloc_ok = true) (hs : E.srv_send_smb_ok = true) :
    process_oplock_break_message K E s src data = Except.ok
      { g :=
          { s.g with
            trace := s.g.trace ++ wait_events K E src ++
              break_packet_events E fsp
                (if break_to_level2 K E (decoded K buf) fsp then K.OPLOCKLEVEL_II
                 else K.OPLOCKLEVEL_NONE) }
        Files := s.Files.set i
          (add_oplock_timeout_handler K E (break_sent K E src (decoded K buf) fsp)) } := by
  unfold decoded at hi hx
  simp only [process_oplock_break_message, hd, hl, hi, hn, hx, new_break_smb_message, ht,
    ne_eq, not_true_eq_false, if_false, if_true, Bool.false_eq_true]
  rw [send_break_to_client_eq E _ fsp _ hs]
  by_cases hme : procid_is_me K E src = true <;>
  by_cases hw : E.lp_oplock_break_wait_time = 0 <;>
    simp [hme, hw, wait_events, wait_before_sending_break, globals.log, break_packet_events,
      break_sent, decoded]

theorem getElem?_set_self_of_some {α : Type} {l : List α} {i : Nat} {a b : α}
    (h : l[i]? = some b) : (l.set i a)[i]? = some a := by
  have hi : i < l.length := by
    by_contra hc
    rw [List.getElem?_eq_none (by omega)] at h
    cases h
  simp [List.getElem?_set, hi]

theorem break_to_level2_iff (K : smb_h) (E : env) (msg : share_mode_entry)
    (fsp : files_struct) :
    break_to_level2 K E msg fsp = true ↔
      (E.global_client_caps &&& K.CAP_LEVEL_II_OPLOCKS ≠ 0 ∧
       msg.op_type &&& K.FORCE_OPLOCK_BREAK_TO_NONE = 0 ∧
       (∀ k, E.koplocks = some k → k.flags &&& K.KOPLOCKS_LEVEL2_SUPPORTED ≠ 0) ∧
       E.lp_level2_oplocks fsp.snum = true) := by
  cases hk : E.koplocks <;>
    simp [break_to_level2, env.koplocks_lacks, hk, and_assoc]

theorem add_oplock_timeout_handler_eq (K : smb_h) (E : env) (fsp : files_struct) :
    add_oplock_timeout_handler K E fsp =
      { fsp with oplock_timeout :=
          if E.koplocks_has K.KOPLOCKS_TIMEOUT_NOTIFICATION then fsp.oplock_timeout
          else if E.event_add_timed_ok then some ⟨K.OPLOCK_BREAK_TIMEOUT, 0⟩ else none } := by
  unfold add_oplock_timeout_handler
  split_ifs <;> rfl

/-! ### Downgrade and calls on a handle of the table -/

theorem downgrade_events_quiet (K : smb_h) (E : env) (fsp : files_struct) :
    bus_sends (downgrade_events K E fsp) = [] ∧ client_sends (downgrade_events K E fsp) = [] := by
  unfold downgrade_events
  split_ifs <;> simp [bus_sends, client_sends, event.is_bus_send, event.is_client_send]

/-- The full effect of `downgrade_oplock` on an EXCLUSIVE-family handle when
the registry lock is obtained. -/
theorem downgrade_oplock_eq_locked (K : smb_h) (E : env) (g : globals) (fsp : files_struct)
    (lck : share_mode_lock) (hlock : E.get_share_mode_lock fsp.file_id = some lck)
    (hX : K.EXCLUSIVE_OPLOCK_TYPE fsp.oplock_type = true) :
    downgrade_oplock K E g fsp =
      (E.downgrade_share_oplock lck fsp,
       { exclusive_oplocks_open := int32_dec g.exclusive_oplocks_open
         level_II_oplocks_open := int32_inc g.level_II_oplocks_open
         global_client_failed_oplock_break := g.global_client_failed_oplock_break
         trace := g.trace ++ downgrade_events K E fsp },
       { fsp with oplock_type := K.LEVEL_II_OPLOCK, sent_oplock_break := K.NO_BREAK_SENT }) := by
  by_cases hk : E.koplocks.isSome = true <;>
    simp [downgrade_oplock, hlock, downgrade_file_oplock, hX, hk, globals.log, downgrade_events]

theorem on_handle_eq {s : smbd} {i : Nat} {fsp fsp1 : files_struct} {g1 : globals}
    {f : globals → files_struct → Except fatal (globals × files_struct)}
    (hi : s.Files[i]? = some fsp) (hf : f s.g fsp = Except.ok (g1, fsp1)) :
    on_handle s i f = Except.ok { g := g1, Files := s.Files.set i fsp1 } := by
  simp only [on_handle, hi, hf]

theorem run_cons_ok {K : smb_h} {s s1 : smbd} {E : env} {o : op} {rest : List (env × op)}
    (h : step K E s o = Except.ok s1) : run K s ((E, o) :: rest) = run K s1 rest := by
  simp only [run, h]

/-- One step of the scenario: the break request sends the break to the
client and queues the requester. -/
theorem step_break_request (K : smb_h) (E : env) (s : smbd) (src : server_id)
    (data : DATA_BLOB) (buf : List Nat) (i : Nat) (fsp : files_struct)
    (hd : data.data = some buf)
    (hl : data.length = MSG_SMB_SHARE_MODE_ENTRY_SIZE K.CLUSTER_SUPPORT)
    (hi : initial_break_processing K s.Files (decoded K buf).id (decoded K buf).share_file_id
      = some (i, fsp))
    (hn : fsp.sent_oplock_break = K.NO_BREAK_SENT)
    (hx : (K.EXCLUSIVE_OPLOCK_TYPE (decoded K buf).op_type &&
      !K.EXCLUSIVE_OPLOCK_TYPE fsp.oplock_type) = false)
    (ht : E.talloc_ok = true) (hs : E.srv_send_smb_ok = true) :
    ∃ (s1 : smbd) (fsp1 : files_struct),
      step K E s (op.process_oplock_break_message src data) = Except.ok s1 ∧
      s1.Files[i]? = some fsp1 ∧
      fsp1.file_id = fsp.file_id ∧ fsp1.oplock_type = fsp.oplock_type ∧
      fsp1.pending_break_messages
        = fsp.pending_break_messages ++ [{ decoded K buf with pid := src }] ∧
      s1.g.exclusive_oplocks_open = s.g.exclusive_oplocks_open ∧
      s1.g.level_II_oplocks_open = s.g.level_II_oplocks_open ∧
      bus_sends s1.g.trace = bus_sends s.g.trace ∧
      client_sends s1.g.trace = client_sends s.g.trace ++
        [event.srv_send_smb
          { tid := fsp.cnum, fnum := fsp.fnum,
            cmd := if break_to_level2 K E (decoded K buf) fsp then K.OPLOCKLEVEL_II
                   else K.OPLOCKLEVEL_NONE } fsp.encrypted] := by
  have hf := initial_break_processing_some hi
  have hw := wait_events_quiet K E src
  have hp := break_packet_events_quiet E fsp
    (if break_to_level2 K E (decoded K buf) fsp then K.OPLOCKLEVEL_II else K.OPLOCKLEVEL_NONE)
  simp only [step]
  rw [process_oplock_break_message_break K E s src data buf i fsp hd hl hi hn hx ht hs,
    add_oplock_timeout_handler_eq]
  refine ⟨_, _, rfl, getElem?_set_self_of_some hf.1, rfl, rfl, rfl, rfl, rfl, ?_, ?_⟩
  · simp only [bus_sends_append, hw.1, hp.1, List.append_nil]
  · simp only [client_sends_append, hw.2.1, hp.2.2, List.append_nil]

/-- One step of the scenario: the downgrade of an EXCLUSIVE-family handle
with the registry lock obtained. -/
theorem step_downgrade_oplock (K : smb_h) (E : env) (s : smbd) (i : Nat) (fsp : files_struct)
    (lck : share_mode_lock) (hi : s.Files[i]? = some fsp)
    (hlock : E.get_share_mode_lock fsp.file_id = some lck)
    (hX : K.EXCLUSIVE_OPLOCK_TYPE fsp.oplock_type = true) :
    ∃ (s1 : smbd) (fsp1 : files_struct),
      step K E s (op.downgrade_oplock i) = Except.ok s1 ∧
      s1.Files[i]? = some fsp1 ∧
      fsp1.oplock_type = K.LEVEL_II_OPLOCK ∧ fsp1.sent_oplock_break = K.NO_BREAK_SENT ∧
      fsp1.pending_break_messages = fsp.pending_break_messages ∧
      s1.g.exclusive_oplocks_open = int32_dec s.g.exclusive_oplocks_open ∧
      s1.g.level_II_oplocks_open = int32_inc s.g.level_II_oplocks_open ∧
      bus_sends s1.g.trace = bus_sends s.g.trace ∧
      client_sends s1.g.trace = client_sends s.g.trace := by
  have hq := downgrade_events_quiet K E fsp
  simp only [step]
  rw [on_handle_eq hi (by rw [downgrade_oplock_eq_locked K E s.g fsp lck hlock hX])]
  refine ⟨_, _, rfl, getElem?_set_self_of_some hi, rfl, rfl, rfl, rfl, rfl, ?_, ?_⟩
  · simp only [bus_sends_append, hq.1, List.append_nil]
  · simp only [client_sends_append, hq.2, List.append_nil]

/-- One step of the scenario: the replies, when no kernel backend notifies
broken oplocks itself. -/
theorem step_reply_to_oplock_break_requests (K : smb_h) (E : env) (s : smbd) (i : Nat)
    (fsp : files_struct) (hi : s.Files[i]? = some fsp)
    (hk : E.koplocks_has K.KOPLOCKS_OPLOCK_BROKEN_NOTIFICATION = false) :
    ∃ (s1 : smbd) (fsp1 : files_struct),
      step K E s (op.reply_to_oplock_break_requests i) = Except.ok s1 ∧
      s1.Files[i]? = some fsp1 ∧
      fsp1.oplock_type = fsp.oplock_type ∧ fsp1.sent_oplock_break = fsp.sent_oplock_break ∧
      fsp1.pending_break_messages = [] ∧ fsp1.oplock_timeout = none ∧
      s1.g.exclusive_oplocks_open = s.g.exclusive_oplocks_open ∧
      s1.g.level_II_oplocks_open = s.g.level_II_oplocks_open ∧
      bus_sends s1.g.trace
        = bus_sends s.g.trace ++ fsp.pending_break_messages.map (break_response_for K) ∧
      client_sends s1.g.trace = client_sends s.g.trace := by
  simp only [step]
  rw [on_handle_eq hi (by rw [reply_to_oplock_break_requests_eq K E s.g fsp hk])]
  refine ⟨_, _, rfl, getElem?_set_self_of_some hi, rfl, rfl, rfl, rfl, rfl, rfl, ?_, ?_⟩
  · simp only [bus_sends_append, bus_sends_map_break_response]
  · simp only [client_sends_append, client_sends_map_break_response, List.append_nil]

/-! ### Level-II contention -/

theorem sleep_events_quiet (E : env) :
    bus_sends (sleep_events E) = [] ∧ client_sends (sleep_events E) = [] ∧
    registry_writes (sleep_events E) = [] := by
  unfold sleep_events
  split_ifs <;>
    simp [bus_sends, client_sends, registry_writes, event.is_bus_send, event.is_client_send,
      event.is_registry_write]

theorem wait_before_sending_break_eq (E : env) (g : globals) :
    wait_before_sending_break E g = { g with trace := g.trace ++ sleep_events E } := by
  unfold wait_before_sending_break sleep_events
  split_ifs <;> simp [globals.log]

theorem contend_level2_loop_passed_over (K : smb_h) (E : env) (l : List share_mode_entry)
    (rest : List share_mode_entry) (h : ∀ e ∈ l, passed_over K E e) (g : globals)
    (fsp : files_struct) :
    contend_level2_loop K E (l ++ rest) g fsp = contend_level2_loop K E rest g fsp := by
  induction l with
  | nil => rfl
  | cons e t ih =>
    have he := h e (List.mem_cons_self e t)
    have ht := ih (fun x hx => h x (List.mem_cons_of_mem e hx))
    rw [List.cons_append, contend_level2_loop]
    rcases he with he | he
    · simp only [he, Bool.not_false, if_true]
      exact ht
    · by_cases hv : E.is_valid_share_mode_entry e = true
      · simp only [hv, Bool.not_true, Bool.false_eq_true, if_false, he, if_true]
        exact ht
      · simp only [Bool.not_eq_true] at hv
        simp only [hv, Bool.not_false, if_true]
        exact ht

theorem contend_level2_loop_all_passed_over (K : smb_h) (E : env) (l : List share_mode_entry)
    (h : ∀ e ∈ l, passed_over K E e) (g : globals) (fsp : files_struct) :
    contend_level2_loop K E l g fsp = Except.ok (g, fsp) := by
  have := contend_level2_loop_passed_over K E l [] h g fsp
  rw [List.append_nil] at this
  rw [this, contend_level2_loop]

/-- The loop at an entry of this process that carries a level-II oplock,
the requester being in LEVEL_II: the requester is broken inline and the loop
goes on with the requester in NONE. -/
theorem contend_level2_loop_own {K : smb_h} (hK : K.wf) (E : env) (own : share_mode_entry)
    (rest : List share_mode_entry) (g : globals) (fsp : files_struct) (lck : share_mode_lock)
    (hv : E.is_valid_share_mode_entry own = true) (hown : own.op_type = K.LEVEL_II_OPLOCK)
    (hme : procid_is_me K E own.pid = true)
    (hty : fsp.oplock_type = K.LEVEL_II_OPLOCK)
    (hlock : E.get_share_mode_lock fsp.file_id = some lck)
    (ht : E.talloc_ok = true) (hs : E.srv_send_smb_ok = true) (hc : counted K g fsp) :
    contend_level2_loop K E (own :: rest) g fsp =
      contend_level2_loop K E rest
        { exclusive_oplocks_open := g.exclusive_oplocks_open
          level_II_oplocks_open := g.level_II_oplocks_open - 1
          global_client_failed_oplock_break := g.global_client_failed_oplock_break
          trace := g.trace ++ sleep_events E ++ break_packet_events E fsp K.OPLOCKLEVEL_NONE ++
            remove_events K E fsp }
        { fsp with oplock_type := K.NO_OPLOCK, sent_oplock_break := K.NO_BREAK_SENT,
                   oplock_timeout := none } := by
  have hc2 : counted K { g with trace := g.trace ++ sleep_events E } fsp :=
    counted_of_counters hc rfl rfl
  have hb := break_level2_to_none_async_level2 hK E _ fsp lck hty hlock ht hs hc2
  have hne : ¬ K.LEVEL_II_OPLOCK = K.NO_OPLOCK := fun h => hK.none_ne_level2 h.symm
  rw [contend_level2_loop]
  simp only [hv, hown, hne, hK.excl_level2, hme, Bool.not_true, Bool.false_eq_true, if_false,
    if_true, wait_before_sending_break_eq, hb]

/-- The default contention when the only entry not passed over belongs to
this process and the requester is in LEVEL_II. -/
theorem contend_level2_oplocks_begin_default_own {K : smb_h} (hK : K.wf) (E : env)
    (g : globals) (fsp : files_struct) (lck : share_mode_lock)
    (pre post : List share_mode_entry) (own : share_mode_entry)
    (hL2 : K.LEVEL_II_OPLOCK_TYPE K.LEVEL_II_OPLOCK = true)
    (hty : fsp.oplock_type = K.LEVEL_II_OPLOCK)
    (hlock : E.get_share_mode_lock fsp.file_id = some lck)
    (hsm : lck.share_modes = pre ++ own :: post)
    (hpre : ∀ e ∈ pre, passed_over K E e) (hpost : ∀ e ∈ post, passed_over K E e)
    (hv : E.is_valid_share_mode_entry own = true) (hown : own.op_type = K.LEVEL_II_OPLOCK)
    (hme : procid_is_me K E own.pid = true)
    (ht : E.talloc_ok = true) (hs : E.srv_send_smb_ok = true) (hc : counted K g fsp) :
    contend_level2_oplocks_begin_default K E g fsp = Except.ok
      ({ exclusive_oplocks_open := g.exclusive_oplocks_open
         level_II_oplocks_open := g.level_II_oplocks_open - 1
         global_client_failed_oplock_break := g.global_client_failed_oplock_break
         trace := g.trace ++ [event.get_share_mode_lock fsp.file_id] ++ sleep_events E ++
           break_packet_events E fsp K.OPLOCKLEVEL_NONE ++ remove_events K E fsp ++
           [event.free_share_mode_lock fsp.file_id] },
       { fsp with oplock_type := K.NO_OPLOCK, sent_oplock_break := K.NO_BREAK_SENT,
                  oplock_timeout := none }) := by
  have hc2 : counted K (g.log (event.get_share_mode_lock fsp.file_id)) fsp :=
    counted_of_counters hc rfl rfl
  have hloop := contend_level2_loop_own hK E own post
    (g.log (event.get_share_mode_lock fsp.file_id)) fsp lck hv hown hme hty hlock ht hs hc2
  rw [contend_level2_loop_all_passed_over K E post hpost] at hloop
  simp only [contend_level2_oplocks_begin_default, hty, hL2, Bool.not_true, Bool.false_eq_true,
    if_false, hlock, hsm, contend_level2_loop_passed_over K E pre _ hpre, hloop]
  simp [globals.log]

theorem contend_level2_oplocks_begin_no_override (K : smb_h) (E : env) (g : globals)
    (fsp : files_struct) (type : Nat)
    (hko : ∀ k, E.koplocks = some k → k.contend_level2_oplocks_begin = false) :
    contend_level2_oplocks_begin K E g fsp type
      = contend_level2_oplocks_begin_default K E g fsp := by
  unfold contend_level2_oplocks_begin
  cases hk : E.koplocks with
  | none => rfl
  | some k => simp [hko k hk]

theorem contend_level2_loop_error {K : smb_h} (hK : K.wf) (E : env) (x : share_mode_entry)
    (hv : E.is_valid_share_mode_entry x = true)
    (hX : K.EXCLUSIVE_OPLOCK_TYPE x.op_type = true) (l : List share_mode_entry) :
    x ∈ l → ∀ (g : globals) (fsp : files_struct),
      ∃ f, contend_level2_loop K E l g fsp = Except.error f := by
  induction l with
  | nil => intro hx; cases hx
  | cons e t ih =>
    intro hx g fsp
    rw [contend_level2_loop]
    by_cases h1 : E.is_valid_share_mode_entry e = true
    · by_cases h2 : e.op_type = K.NO_OPLOCK
      · have hne : x ≠ e := by
          rintro rfl
          rw [h2, hK.excl_none] at hX
          cases hX
        have hxt : x ∈ t := by
          rcases List.mem_cons.mp hx with h | h
          · exact absurd h hne
          · exact h
        simp only [h1, h2, Bool.not_true, Bool.false_eq_true, if_false, if_true]
        exact ih hxt g fsp
      · cases h3 : K.EXCLUSIVE_OPLOCK_TYPE e.op_type
        · have hne : x ≠ e := by
            rintro rfl
            rw [h3] at hX
            cases hX
          have hxt : x ∈ t := by
            rcases List.mem_cons.mp hx with h | h
            · exact absurd h hne
            · exact h
          simp only [h1, h2, h3, Bool.not_true, Bool.false_eq_true, if_false]
          split_ifs
          · split
            · exact ⟨_, rfl⟩
            · exact ih hxt _ _
          · exact ih hxt _ _
        · simp only [h1, h2, Bool.not_true, Bool.false_eq_true, if_false, if_true]
          exact ⟨_, rfl⟩
    · have hne : x ≠ e := by
        rintro rfl
        exact h1 hv
      have hxt : x ∈ t := by
        rcases List.mem_cons.mp hx with h | h
        · exact absurd h hne
        · exact h
      simp only [Bool.not_eq_true] at h1
      simp only [h1, Bool.not_false, if_true]
      exact ih hxt g fsp

/-- The asynchronous break returns, leaving the handle in NONE and counted,
when the handle is in NONE, LEVEL_II or FAKE_LEVEL_II and the collaborators
succeed. -/
theorem break_level2_to_none_async_total {K : smb_h} (hK : K.wf) (E : env) (g : globals)
    (fsp : files_struct) (lck : share_mode_lock)
    (hty : fsp.oplock_type = K.NO_OPLOCK ∨ fsp.oplock_type = K.LEVEL_II_OPLOCK ∨
      fsp.oplock_type = K.FAKE_LEVEL_II_OPLOCK)
    (hlock : E.get_share_mode_lock fsp.file_id = some lck)
    (ht : E.talloc_ok = true) (hs : E.srv_send_smb_ok = true) (hc : counted K g fsp) :
    ∃ (g1 : globals) (fsp1 : files_struct),
      break_level2_to_none_async K E g fsp = Except.ok (g1, fsp1) ∧
      fsp1.oplock_type = K.NO_OPLOCK ∧ fsp1.file_id = fsp.file_id ∧ counted K g1 fsp1 := by
  have hnl : ¬ K.NO_OPLOCK = K.LEVEL_II_OPLOCK := hK.none_ne_level2
  rcases hty with h | h | h
  · refine ⟨g, fsp, break_level2_to_none_async_none K E g fsp h, h, rfl, hc⟩
  · refine ⟨_, _, break_level2_to_none_async_level2 hK E g fsp lck h hlock ht hs hc, rfl, rfl, ?_⟩
    obtain ⟨h0x, -, hl, -⟩ := hc
    have := hl h
    refine ⟨h0x, ?_, ?_, ?_⟩
    · show (0:Int) ≤ g.level_II_oplocks_open - 1
      omega
    · intro h'
      exact absurd h' hnl
    · intro h'
      rw [show K.EXCLUSIVE_OPLOCK_TYPE K.NO_OPLOCK = false from hK.excl_none] at h'
      cases h'
  · refine ⟨_, _, break_level2_to_none_async_fake hK E g fsp lck h hlock hc, rfl, rfl, ?_⟩
    obtain ⟨h0x, h0l, -, -⟩ := hc
    refine ⟨h0x, h0l, ?_, ?_⟩
    · intro h'
      exact absurd h' hnl
    · intro h'
      rw [show K.EXCLUSIVE_OPLOCK_TYPE K.NO_OPLOCK = false from hK.excl_none] at h'
      cases h'

theorem contend_level2_loop_abort {K : smb_h} (hK : K.wf) (E : env) (x : share_mode_entry)
    (hv : E.is_valid_share_mode_entry x = true)
    (hX : K.EXCLUSIVE_OPLOCK_TYPE x.op_type = true)
    (ht : E.talloc_ok = true) (hs : E.srv_send_smb_ok = true) (l : List share_mode_entry) :
    x ∈ l → ∀ (g : globals) (fsp : files_struct) (lck : share_mode_lock),
      (fsp.oplock_type = K.NO_OPLOCK ∨ fsp.oplock_type = K.LEVEL_II_OPLOCK ∨
        fsp.oplock_type = K.FAKE_LEVEL_II_OPLOCK) →
      E.get_share_mode_lock fsp.file_id = some lck → counted K g fsp →
      contend_level2_loop K E l g fsp = Except.error fatal.abort := by
  induction l with
  | nil => intro hx; cases hx
  | cons e t ih =>
    intro hx g fsp lck hty hlock hc
    rw [contend_level2_loop]
    by_cases h1 : E.is_valid_share_mode_entry e = true
    · by_cases h2 : e.op_type = K.NO_OPLOCK
      · have hne : x ≠ e := by
          rintro rfl
          rw [h2, hK.excl_none] at hX
          cases hX
        have hxt : x ∈ t := by
          rcases List.mem_cons.mp hx with h | h
          · exact absurd h hne
          · exact h
        simp only [h1, h2, Bool.not_true, Bool.false_eq_true, if_false, if_true]
        exact ih hxt g fsp lck hty hlock hc
      · cases h3 : K.EXCLUSIVE_OPLOCK_TYPE e.op_type
        · have hne : x ≠ e := by
            rintro rfl
            rw [h3] at hX
            cases hX
          have hxt : x ∈ t := by
            rcases List.mem_cons.mp hx with h | h
            · exact absurd h hne
            · exact h
          simp only [h1, h2, h3, Bool.not_true, Bool.false_eq_true, if_false]
          split_ifs
          · have hc2 : counted K (wait_before_sending_break E g) fsp := by
              rw [wait_before_sending_break_eq]
              exact counted_of_counters hc rfl rfl
            obtain ⟨g1, fsp1, hb, hn1, hid1, hc1⟩ :=
              break_level2_to_none_async_total hK E _ fsp lck hty hlock ht hs hc2
            rw [hb]
            exact ih hxt g1 fsp1 lck (Or.inl hn1) (by rw [hid1]; exact hlock) hc1
          · exact ih hxt _ fsp lck hty hlock (counted_of_counters hc rfl rfl)
        · simp only [h1, h2, Bool.not_true, Bool.false_eq_true, if_false, if_true]
    · have hne : x ≠ e := by
        rintro rfl
        exact h1 hv
      have hxt : x ∈ t := by
        rcases List.mem_cons.mp hx with h | h
        · exact absurd h hne
        · exact h
      simp only [Bool.not_eq_true] at h1
      simp only [h1, Bool.not_false, if_true]
      exact ih hxt g fsp lck hty hlock hc

/-! ### The break-in-flight invariant -/

theorem same_or_settled_refl (K : smb_h) (fsp : files_struct) : same_or_settled K fsp fsp :=
  Or.inl rfl

theorem same_or_settled_trans {K : smb_h} {a b c : files_struct}
    (h1 : same_or_settled K a b) (h2 : same_or_settled K b c) : same_or_settled K a c := by
  rcases h2 with rfl | h2
  · exact h1
  · exact Or.inr h2

theorem break_in_flight_of_settled {K : smb_h} (tn : Bool) (kb : file_id → Nat → Bool) {f : files_struct}
    (h : f.sent_oplock_break = K.NO_BREAK_SENT) : break_in_flight K tn kb f :=
  fun hn => absurd h hn

theorem break_in_flight_of_same_or_settled {K : smb_h} {tn : Bool} {kb : file_id → Nat → Bool} {f f1 : files_struct}
    (hP : break_in_flight K tn kb f) (h : same_or_settled K f f1) :
    break_in_flight K tn kb f1 := by
  rcases h with rfl | h
  · exact hP
  · exact break_in_flight_of_settled tn kb h

theorem release_file_oplock_settled {K : smb_h} {E : env} {g g1 : globals}
    {fsp fsp1 : files_struct} (h : release_file_oplock K E g fsp = Except.ok (g1, fsp1)) :
    fsp1.sent_oplock_break = K.NO_BREAK_SENT := by
  simp only [release_file_oplock, SMB_ASSERT] at h
  split_ifs at h <;> simp at h <;> obtain ⟨-, rfl⟩ := h <;> rfl

theorem downgrade_file_oplock_same_or_settled (K : smb_h) (E : env) (g : globals)
    (fsp : files_struct) : same_or_settled K fsp (downgrade_file_oplock K E g fsp).2 := by
  unfold downgrade_file_oplock
  split_ifs <;> simp [same_or_settled]

theorem remove_oplock_same_or_settled {K : smb_h} {E : env} {g g1 : globals}
    {fsp fsp1 : files_struct} {r : Bool}
    (h : remove_oplock K E g fsp = Except.ok (r, g1, fsp1)) : same_or_settled K fsp fsp1 := by
  simp only [remove_oplock] at h
  split at h
  · simp only [Except.ok.injEq, Prod.mk.injEq] at h
    obtain ⟨-, -, rfl⟩ := h
    exact Or.inl rfl
  · split at h
    · simp at h
    · rename_i g3 fsp2 heq
      simp only [Except.ok.injEq, Prod.mk.injEq] at h
      obtain ⟨-, -, rfl⟩ := h
      exact Or.inr (release_file_oplock_settled heq)

theorem downgrade_oplock_same_or_settled (K : smb_h) (E : env) (g : globals)
    (fsp : files_struct) : same_or_settled K fsp (downgrade_oplock K E g fsp).2.2 := by
  unfold downgrade_oplock
  split
  · exact Or.inl rfl
  · exact downgrade_file_oplock_same_or_settled K E _ fsp

theorem set_file_oplock_same_or_settled (K : smb_h) (E : env) (g : globals)
    (fsp : files_struct) (t : Nat) : same_or_settled K fsp (set_file_oplock K E g fsp t).2.2 := by
  obtain ⟨g1, -, h | h⟩ := set_file_oplock_cases K E g fsp t <;> rw [h]
  · exact Or.inl rfl
  · exact Or.inr rfl

theorem break_level2_to_none_async_same_or_settled {K : smb_h} {E : env}
    {g g1 : globals} {fsp fsp1 : files_struct}
    (h : break_level2_to_none_async K E g fsp = Except.ok (g1, fsp1)) :
    same_or_settled K fsp fsp1 := by
  simp only [break_level2_to_none_async, SMB_ASSERT] at h
  split_ifs at h
  · simp only [Except.ok.injEq, Prod.mk.injEq] at h
    obtain ⟨-, rfl⟩ := h
    exact Or.inl rfl
  · split at h
    · simp at h
    · rename_i r g2 fsp2 heq
      simp only [Except.ok.injEq, Prod.mk.injEq] at h
      obtain ⟨-, rfl⟩ := h
      exact remove_oplock_same_or_settled heq
  · split at h
    · simp at h
    · split at h
      · simp at h
      · split at h
        · simp at h
        · rename_i r g3 fsp2 heq
          simp only [Except.ok.injEq, Prod.mk.injEq] at h
          obtain ⟨-, rfl⟩ := h
          exact remove_oplock_same_or_settled heq

theorem contend_level2_loop_same_or_settled (K : smb_h) (E : env)
    (l : List share_mode_entry) :
    ∀ (g g1 : globals) (fsp fsp1 : files_struct),
      contend_level2_loop K E l g fsp = Except.ok (g1, fsp1) → same_or_settled K fsp fsp1 := by
  induction l with
  | nil =>
    intro g g1 fsp fsp1 h
    simp only [contend_level2_loop, Except.ok.injEq, Prod.mk.injEq] at h
    obtain ⟨-, rfl⟩ := h
    exact Or.inl rfl
  | cons e rest ih =>
    intro g g1 fsp fsp1 h
    unfold contend_level2_loop at h
    split_ifs at h
    · exact ih _ _ _ _ h
    · exact ih _ _ _ _ h
    · split at h
      · simp at h
      · rename_i g2 fsp2 heq
        exact same_or_settled_trans (break_level2_to_none_async_same_or_settled heq)
          (ih _ _ _ _ h)
    · exact ih _ _ _ _ h

theorem contend_level2_oplocks_begin_same_or_settled {K : smb_h} {E : env}
    {g g1 : globals} {fsp fsp1 : files_struct} {type : Nat}
    (h : contend_level2_oplocks_begin K E g fsp type = Except.ok (g1, fsp1)) :
    same_or_settled K fsp fsp1 := by
  have hd : ∀ {g g1 : globals} {fsp1 : files_struct},
      contend_level2_oplocks_begin_default K E g fsp = Except.ok (g1, fsp1) →
      same_or_settled K fsp fsp1 := by
    intro g g1 fsp1 h
    unfold contend_level2_oplocks_begin_default at h
    split_ifs at h
    · simp only [Except.ok.injEq, Prod.mk.injEq] at h
      obtain ⟨-, rfl⟩ := h
      exact Or.inl rfl
    · split at h
      · simp only [Except.ok.injEq, Prod.mk.injEq] at h
        obtain ⟨-, rfl⟩ := h
        exact Or.inl rfl
      · split at h
        · simp at h
        · rename_i g2 fsp2 heq
          simp only [Except.ok.injEq, Prod.mk.injEq] at h
          obtain ⟨-, rfl⟩ := h
          exact contend_level2_loop_same_or_settled K E _ _ _ _ _ heq
  unfold contend_level2_oplocks_begin at h
  split at h
  · split_ifs at h
    · simp only [Except.ok.injEq, Prod.mk.injEq] at h
      obtain ⟨-, rfl⟩ := h
      exact Or.inl rfl
    · exact hd h
  · exact hd h

theorem forall_mem_set {α : Type} {P : α → Prop} {l : List α} {i : Nat} {a : α}
    (hl : ∀ x ∈ l, P x) (ha : P a) : ∀ x ∈ l.set i a, P x := by
  intro x hx
  rcases List.mem_or_eq_of_mem_set hx with h | h
  · exact hl x h
  · rw [h]; exact ha

theorem on_handle_forall {P : files_struct → Prop} {s s1 : smbd} {i : Nat}
    {f : globals → files_struct → Except fatal (globals × files_struct)}
    (hf : ∀ fsp g1 fsp1, s.Files[i]? = some fsp → P fsp →
      f s.g fsp = Except.ok (g1, fsp1) → P fsp1)
    (hP : ∀ x ∈ s.Files, P x) (h : on_handle s i f = Except.ok s1) :
    ∀ x ∈ s1.Files, P x := by
  unfold on_handle at h
  split at h
  · simp only [Except.ok.injEq] at h
    subst h
    exact hP
  · rename_i fsp hi
    split at h
    · simp at h
    · rename_i g1 fsp1 heq
      simp only [Except.ok.injEq] at h
      subst h
      exact forall_mem_set hP (hf fsp g1 fsp1 hi (hP fsp (List.getElem?_mem hi)) heq)

theorem add_oplock_timeout_handler_armed (K : smb_h) (E : env) (fsp : files_struct)
    (tn : Bool) (kb : file_id → Nat → Bool)
    (hE : E.koplocks_has K.KOPLOCKS_TIMEOUT_NOTIFICATION = tn)
    (hev : tn = false → E.event_add_timed_ok = true)
    (hp : kb fsp.file_id fsp.gen_id = false → fsp.pending_break_messages ≠ []) :
    break_in_flight K tn kb (add_oplock_timeout_handler K E fsp) := by
  intro _
  rw [add_oplock_timeout_handler_eq]
  refine ⟨hp, ?_⟩
  intro ht
  subst ht
  simp [hE, hev rfl]

theorem remove_oplock_settled {K : smb_h} {E : env} {g g1 : globals}
    {fsp fsp1 : files_struct} {r : Bool}
    (hlock : (E.get_share_mode_lock fsp.file_id).isSome = true)
    (h : remove_oplock K E g fsp = Except.ok (r, g1, fsp1)) :
    fsp1.sent_oplock_break = K.NO_BREAK_SENT := by
  simp only [remove_oplock] at h
  split at h
  · rename_i hn
    rw [hn] at hlock
    cases hlock
  · split at h
    · simp at h
    · rename_i g3 fsp2 heq
      simp only [Except.ok.injEq, Prod.mk.injEq] at h
      obtain ⟨-, -, rfl⟩ := h
      exact release_file_oplock_settled heq

theorem oplock_timeout_handler_settled {K : smb_h} {E : env} {g g1 : globals}
    {fsp fsp1 : files_struct}
    (hlock : (E.get_share_mode_lock fsp.file_id).isSome = true)
    (h : oplock_timeout_handler K E g fsp = Except.ok (g1, fsp1)) :
    fsp1.sent_oplock_break = K.NO_BREAK_SENT := by
  simp only [oplock_timeout_handler] at h
  split at h
  · simp at h
  · rename_i r g2 fsp2 heq
    simp only [Except.ok.injEq] at h
    have h1 : fsp2.sent_oplock_break = K.NO_BREAK_SENT :=
      @remove_oplock_settled K E _ _ { fsp with oplock_timeout := none } _ _ hlock heq
    have h2 := (reply_to_oplock_break_requests_frame K E g2 fsp2).2.1
    rw [h] at h2
    exact h2.trans h1

theorem process_oplock_break_message_break_in_flight {K : smb_h} {E : env} {s s1 : smbd}
    {src : server_id} {data : DATA_BLOB} {tn : Bool} {kb : file_id → Nat → Bool}
    (hE : E.koplocks_has K.KOPLOCKS_TIMEOUT_NOTIFICATION = tn)
    (hev : tn = false → E.event_add_timed_ok = true)
    (hP : ∀ x ∈ s.Files, break_in_flight K tn kb x)
    (h : process_oplock_break_message K E s src data = Except.ok s1) :
    ∀ x ∈ s1.Files, break_in_flight K tn kb x := by
  simp only [process_oplock_break_message] at h
  split at h
  · simp only [Except.ok.injEq] at h; subst h; exact hP
  · by_cases hl : data.length ≠ MSG_SMB_SHARE_MODE_ENTRY_SIZE K.CLUSTER_SUPPORT
    · rw [if_pos hl] at h; simp only [Except.ok.injEq] at h; subst h; exact hP
    · rw [if_neg hl] at h
      split at h
      · simp only [Except.ok.injEq] at h; subst h; exact hP
      · rename_i i fsp hib
        have hi := (initial_break_processing_some hib).1
        by_cases hb : fsp.sent_oplock_break ≠ K.NO_BREAK_SENT
        · rw [if_pos hb] at h; simp only [Except.ok.injEq] at h; subst h
          refine forall_mem_set hP ?_
          intro _
          exact ⟨fun _ => by simp, (hP fsp (List.getElem?_mem hi) hb).2⟩
        · rw [if_neg hb] at h
          split_ifs at h with hx ht
          · simp only [Except.ok.injEq] at h; subst h; exact hP
          all_goals
            by_cases ht : E.talloc_ok = true
            · by_cases hs : E.srv_send_smb_ok = true
              · simp only [new_break_smb_message, send_break_to_client, ht, hs, if_true,
                  Bool.not_true, Bool.false_eq_true, if_false, Except.ok.injEq] at h
                subst h
                exact forall_mem_set hP
                  (add_oplock_timeout_handler_armed K E _ tn kb hE hev (fun _ => by simp))
              · simp [new_break_smb_message, send_break_to_client, ht, hs] at h
            · simp [new_break_smb_message, ht] at h

theorem process_oplock_async_level2_break_message_break_in_flight {K : smb_h} {E : env}
    {s s1 : smbd} {data : DATA_BLOB} {tn : Bool} {kb : file_id → Nat → Bool}
    (hP : ∀ x ∈ s.Files, break_in_flight K tn kb x)
    (h : process_oplock_async_level2_break_message K E s data = Except.ok s1) :
    ∀ x ∈ s1.Files, break_in_flight K tn kb x := by
  simp only [process_oplock_async_level2_break_message] at h
  split at h
  · simp only [Except.ok.injEq] at h; subst h; exact hP
  · by_cases hl : data.length ≠ MSG_SMB_SHARE_MODE_ENTRY_SIZE K.CLUSTER_SUPPORT
    · rw [if_pos hl] at h; simp only [Except.ok.injEq] at h; subst h; exact hP
    · rw [if_neg hl] at h
      split at h
      · simp only [Except.ok.injEq] at h; subst h; exact hP
      · rename_i i fsp hib
        have hi := (initial_break_processing_some hib).1
        split at h
        · simp at h
        · rename_i g1 fsp1 heq
          simp only [Except.ok.injEq] at h; subst h
          exact forall_mem_set hP
            (break_in_flight_of_same_or_settled (hP fsp (List.getElem?_mem hi))
              (break_level2_to_none_async_same_or_settled heq))

theorem process_kernel_oplock_break_break_in_flight {K : smb_h} {E : env} {s s1 : smbd}
    {data : DATA_BLOB} {tn : Bool} {kb : file_id → Nat → Bool}
    (ha : break_allowed K tn kb E s (op.process_kernel_oplock_break data))
    (hP : ∀ x ∈ s.Files, break_in_flight K tn kb x)
    (h : process_kernel_oplock_break K E s data = Except.ok s1) :
    ∀ x ∈ s1.Files, break_in_flight K tn kb x := by
  simp only [process_kernel_oplock_break] at h
  split at h
  · simp only [Except.ok.injEq] at h; subst h; exact hP
  · by_cases hl : data.length ≠ MSG_SMB_KERNEL_BREAK_SIZE
    · rw [if_pos hl] at h; simp only [Except.ok.injEq] at h; subst h; exact hP
    · rw [if_neg hl] at h
      split at h
      · simp only [Except.ok.injEq] at h; subst h; exact hP
      · rename_i buf hd _ i fsp hib
        by_cases hb : fsp.sent_oplock_break ≠ K.NO_BREAK_SENT
        · rw [if_pos hb] at h; simp only [Except.ok.injEq] at h; subst h; exact hP
        · rw [if_neg hb] at h
          obtain ⟨hkb, hE, hev⟩ := ha buf i fsp hd (not_not.mp hl) hib (not_not.mp hb)
          by_cases ht : E.talloc_ok = true
          · by_cases hs : E.srv_send_smb_ok = true
            · simp only [new_break_smb_message, send_break_to_client, ht, hs, if_true,
                Bool.not_true, Bool.false_eq_true, if_false, Except.ok.injEq] at h
              subst h
              refine forall_mem_set hP
                (add_oplock_timeout_handler_armed K E _ tn kb hE hev ?_)
              intro hf
              rw [hkb] at hf
              cases hf
            · simp [new_break_smb_message, send_break_to_client, ht, hs] at h
          · simp [new_break_smb_message, ht] at h

/-- One allowed call keeps the break-in-flight invariant. -/
theorem step_break_in_flight {K : smb_h} {E : env} {s s1 : smbd} {o : op} {tn : Bool} {kb : file_id → Nat → Bool}
    (ha : break_allowed K tn kb E s o) (hP : ∀ x ∈ s.Files, break_in_flight K tn kb x)
    (h : step K E s o = Except.ok s1) : ∀ x ∈ s1.Files, break_in_flight K tn kb x := by
  cases o with
  | set_file_oplock i t =>
    simp only [step] at h
    refine on_handle_forall ?_ hP h
    intro fsp g1 fsp1 _ hf he
    simp only [Except.ok.injEq] at he
    have := set_file_oplock_same_or_settled K E s.g fsp t
    rw [he] at this
    exact break_in_flight_of_same_or_settled hf this
  | release_file_oplock i =>
    simp only [step] at h
    refine on_handle_forall ?_ hP h
    intro fsp g1 fsp1 _ _ he
    exact break_in_flight_of_settled tn kb (release_file_oplock_settled he)
  | downgrade_file_oplock i =>
    simp only [step] at h
    refine on_handle_forall ?_ hP h
    intro fsp g1 fsp1 _ hf he
    simp only [Except.ok.injEq] at he
    have := downgrade_file_oplock_same_or_settled K E s.g fsp
    rw [he] at this
    exact break_in_flight_of_same_or_settled hf this
  | remove_oplock i =>
    simp only [step] at h
    refine on_handle_forall ?_ hP h
    intro fsp g1 fsp1 _ hf he
    split at he
    · simp at he
    · rename_i r heq
      simp only [Except.ok.injEq] at he
      obtain ⟨b, g2, fsp2⟩ := r
      simp only [Prod.mk.injEq] at he
      obtain ⟨-, rfl⟩ := he
      exact break_in_flight_of_same_or_settled hf (remove_oplock_same_or_settled heq)
  | downgrade_oplock i =>
    simp only [step] at h
    refine on_handle_forall ?_ hP h
    intro fsp g1 fsp1 _ hf he
    simp only [Except.ok.injEq] at he
    have := downgrade_oplock_same_or_settled K E s.g fsp
    rw [he] at this
    exact break_in_flight_of_same_or_settled hf this
  | reply_to_oplock_break_requests i =>
    simp only [step] at h
    refine on_handle_forall ?_ hP h
    intro fsp g1 fsp1 hi _ he
    simp only [Except.ok.injEq] at he
    have h2 := (reply_to_oplock_break_requests_frame K E s.g fsp).2.1
    rw [he] at h2
    exact break_in_flight_of_settled tn kb (h2.trans (ha fsp hi))
  | oplock_timeout_handler i =>
    simp only [step] at h
    refine on_handle_forall ?_ hP h
    intro fsp g1 fsp1 hi _ he
    exact break_in_flight_of_settled tn kb (oplock_timeout_handler_settled (ha fsp hi) he)
  | break_level2_to_none_async i =>
    simp only [step] at h
    refine on_handle_forall ?_ hP h
    intro fsp g1 fsp1 _ hf he
    exact break_in_flight_of_same_or_settled hf (break_level2_to_none_async_same_or_settled he)
  | contend_level2_oplocks_begin i type =>
    simp only [step] at h
    refine on_handle_forall ?_ hP h
    intro fsp g1 fsp1 _ hf he
    exact break_in_flight_of_same_or_settled hf (contend_level2_oplocks_begin_same_or_settled he)
  | contend_level2_oplocks_end i type =>
    simp only [step] at h
    refine on_handle_forall ?_ hP h
    intro fsp g1 fsp1 _ hf he
    simp only [Except.ok.injEq, Prod.mk.injEq] at he
    obtain ⟨-, rfl⟩ := he
    exact hf
  | break_kernel_oplock i =>
    simp only [step] at h
    refine on_handle_forall ?_ hP h
    intro fsp g1 fsp1 _ hf he
    simp only [Except.ok.injEq, Prod.mk.injEq] at he
    obtain ⟨-, rfl⟩ := he
    exact hf
  | process_oplock_break_message src data =>
    exact process_oplock_break_message_break_in_flight ha.1 ha.2 hP h
  | process_oplock_async_level2_break_message data =>
    exact process_oplock_async_level2_break_message_break_in_flight hP h
  | process_kernel_oplock_break data =>
    exact process_kernel_oplock_break_break_in_flight ha hP h
  | process_oplock_break_response data =>
    simp only [step, Except.ok.injEq] at h
    subst h
    rw [process_oplock_break_response_Files]
    exact hP
  | process_open_retry_message data =>
    simp only [step, Except.ok.injEq] at h
    subst h
    rw [process_open_retry_message_Files]
    exact hP

theorem run_break_in_flight {K : smb_h} {tn : Bool} {kb : file_id → Nat → Bool} (ops : List (env × op)) :
    ∀ (s s1 : smbd), (∀ x ∈ s.Files, break_in_flight K tn kb x) →
      breaks_allowed K tn kb s ops → run K s ops = Except.ok s1 →
      ∀ x ∈ s1.Files, break_in_flight K tn kb x := by
  induction ops with
  | nil =>
    intro s s1 hP _ h
    simp only [run, Except.ok.injEq] at h
    subst h
    exact hP
  | cons x rest ih =>
    intro s s1 hP ha h
    simp only [run] at h
    split at h
    · simp at h
    · rename_i s2 hs
      exact ih s2 s1 (step_break_in_flight ha.1 hP hs) (ha.2 s2 hs) h

/-! ### Coalescing and the already-downgraded reply -/

/-- The full effect of `process_oplock_break_message` when a break is
already in flight for the handle. -/
theorem process_oplock_break_message_in_flight (K : smb_h) (E : env) (s : smbd)
    (src : server_id) (data : DATA_BLOB) (buf : List Nat) (i : Nat) (fsp : files_struct)
    (hd : data.data = some buf)
    (hl : data.length = MSG_SMB_SHARE_MODE_ENTRY_SIZE K.CLUSTER_SUPPORT)
    (hi : initial_break_processing K s.Files (decoded K buf).id (decoded K buf).share_file_id
      = some (i, fsp))
    (hb : fsp.sent_oplock_break ≠ K.NO_BREAK_SENT) :
    process_oplock_break_message K E s src data = Except.ok
      { g := s.g
        Files := s.Files.set i
          { fsp with
            pending_break_messages :=
              fsp.pending_break_messages ++ [{ decoded K buf with pid := src }] } } := by
  unfold decoded at hi
  simp only [process_oplock_break_message, hd, hl, hi, ne_eq, not_true_eq_false, if_false]
  rw [if_pos hb]
  rfl

/-- The full effect of `process_oplock_break_message` when the request asks
for an EXCLUSIVE-family oplock that the handle no longer holds. -/
theorem process_oplock_break_message_downgraded (K : smb_h) (E : env) (s : smbd)
    (src : server_id) (data : DATA_BLOB) (buf : List Nat) (i : Nat) (fsp : files_struct)
    (hd : data.data = some buf)
    (hl : data.length = MSG_SMB_SHARE_MODE_ENTRY_SIZE K.CLUSTER_SUPPORT)
    (hi : initial_break_processing K s.Files (decoded K buf).id (decoded K buf).share_file_id
      = some (i, fsp))
    (hn : fsp.sent_oplock_break = K.NO_BREAK_SENT)
    (hx : K.EXCLUSIVE_OPLOCK_TYPE (decoded K buf).op_type = true)
    (hf : K.EXCLUSIVE_OPLOCK_TYPE fsp.oplock_type = false) :
    process_oplock_break_message K E s src data = Except.ok
      { g := { s.g with trace := s.g.trace ++
                 [event.messaging_send_buf src MSG_SMB_BREAK_RESPONSE
                   (buf.take (MSG_SMB_SHARE_MODE_ENTRY_SIZE K.CLUSTER_SUPPORT))] }
        Files := s.Files } := by
  unfold decoded at hi hx
  simp only [process_oplock_break_message, hd, hl, hi, hn, hx, hf, ne_eq, not_true_eq_false,
    if_false, Bool.not_false, Bool.and_self, if_true, globals.log]

/-! ### The asynchronous break on a handle of the EXCLUSIVE family -/

theorem break_level2_to_none_async_exclusive {K : smb_h} (hK : K.wf) (E : env) (g : globals)
    (fsp : files_struct) (hX : K.EXCLUSIVE_OPLOCK_TYPE fsp.oplock_type = true) :
    break_level2_to_none_async K E g fsp = Except.error fatal.smb_panic := by
  have h1 : fsp.oplock_type ≠ K.NO_OPLOCK := by
    intro h
    rw [h, hK.excl_none] at hX
    cases hX
  have h2 : fsp.oplock_type ≠ K.FAKE_LEVEL_II_OPLOCK := by
    intro h
    rw [h, hK.excl_fake] at hX
    cases hX
  have h3 : fsp.oplock_type ≠ K.LEVEL_II_OPLOCK := by
    intro h
    rw [h, hK.excl_level2] at hX
    cases hX
  simp only [break_level2_to_none_async, SMB_ASSERT]
  rw [if_neg h1, if_neg h2, if_neg h3]

/-! ### The kernel break message -/

theorem kernel_break_message_length (fsp : files_struct) :
    (kernel_break_message fsp).length = MSG_SMB_KERNEL_BREAK_SIZE := by
  simp [kernel_break_message, file_id_bytes_length, leBytes_length, MSG_SMB_KERNEL_BREAK_SIZE]

/-- The message `break_kernel_oplock` posts. -/
theorem break_kernel_oplock_eq (E : env) (g : globals) (fsp : files_struct) :
    break_kernel_oplock E g fsp =
      g.log (event.messaging_send_buf E.procid_self MSG_SMB_KERNEL_BREAK
        (kernel_break_message fsp)) := by
  have h1 : push_file_id_24 (List.replicate MSG_SMB_KERNEL_BREAK_SIZE 0) 0 fsp.file_id
      = file_id_bytes fsp.file_id ++ List.replicate 4 0 := by
    have := push_file_id_24_append [] (List.replicate MSG_SMB_KERNEL_BREAK_SIZE 0) 0 fsp.file_id
      rfl (by simp [MSG_SMB_KERNEL_BREAK_SIZE])
    simpa [MSG_SMB_KERNEL_BREAK_SIZE] using this
  have h2 : SIVAL (file_id_bytes fsp.file_id ++ List.replicate 4 0) 24 fsp.gen_id
      = kernel_break_message fsp := by
    have := SIVAL_append (file_id_bytes fsp.file_id) (List.replicate 4 0) 24 fsp.gen_id
      (file_id_bytes_length _).symm (by simp)
    simpa [kernel_break_message] using this
  have h3 : (kernel_break_message fsp).take MSG_SMB_KERNEL_BREAK_SIZE
      = kernel_break_message fsp :=
    List.take_of_length_le (le_of_eq (kernel_break_message_length fsp))
  simp only [break_kernel_oplock, h1, h2, h3]

theorem kernel_break_message_pull (fsp : files_struct) (hv : fsp.file_id.valid) :
    pull_file_id_24 (kernel_break_message fsp) 0 = fsp.file_id := by
  rw [pull_file_id_24_eq _ 0 (by rw [kernel_break_message_length]; decide)]
  have : ((kernel_break_message fsp).drop 0).take 24 = file_id_bytes fsp.file_id := by
    simp [kernel_break_message, List.take_append_eq_append_take, file_id_bytes_length]
  rw [this, file_id_bytes_valid _ hv]

theorem kernel_break_message_IVAL (fsp : files_struct) (hg : fsp.gen_id < 2 ^ 32) :
    IVAL (kernel_break_message fsp) 24 = fsp.gen_id := by
  rw [IVAL_eq_ofLE]
  have : ((kernel_break_message fsp).drop 24).take 4 = leBytes 4 fsp.gen_id := by
    have hd : (kernel_break_message fsp).drop 24 = leBytes 4 fsp.gen_id := by
      unfold kernel_break_message
      rw [List.drop_append_eq_append_drop, file_id_bytes_length]
      simp [file_id_bytes_length]
    rw [hd]
    exact List.take_of_length_le (le_of_eq (leBytes_length 4 _))
  rw [this, ofLE_leBytes]
  have : (256 : Nat) ^ 4 = 2 ^ 32 := by norm_num
  rw [this]
  exact Nat.mod_eq_of_lt hg

theorem initial_break_processing_names {K : smb_h} {Files : List files_struct} {id : file_id}
    {n i : Nat} {fsp : files_struct}
    (h : initial_break_processing K Files id n = some (i, fsp)) :
    fsp.file_id = id ∧ fsp.gen_id = n := by
  unfold initial_break_processing at h
  split at h
  · simp at h
  · rename_i j hj
    split at h
    · simp at h
    · rename_i fsp0 hfsp
      split_ifs at h
      simp only [Option.some.injEq, Prod.mk.injEq] at h
      obtain ⟨-, rfl⟩ := h
      have := List.findIdx?_of_eq_some hj
      rw [hfsp] at this
      simpa using this

/-! ### What level-II contention sends -/

/-- The asynchronous break on a handle in NONE, LEVEL_II or FAKE_LEVEL_II
with working collaborators: it returns, the handle ends in NONE and stays
counted, nothing goes on the bus, the only registry write is the removal for
this handle, and the client hears of it only from LEVEL_II. -/
theorem break_level2_to_none_async_effect {K : smb_h} (hK : K.wf) (E : env) (g : globals)
    (fsp : files_struct) (lck : share_mode_lock)
    (hty : fsp.oplock_type = K.NO_OPLOCK ∨ fsp.oplock_type = K.LEVEL_II_OPLOCK ∨
      fsp.oplock_type = K.FAKE_LEVEL_II_OPLOCK)
    (hlock : E.get_share_mode_lock fsp.file_id = some lck)
    (ht : E.talloc_ok = true) (hs : E.srv_send_smb_ok = true) (hc : counted K g fsp) :
    ∃ (g1 : globals) (fsp1 : files_struct),
      break_level2_to_none_async K E g fsp = Except.ok (g1, fsp1) ∧
      fsp1.oplock_type = K.NO_OPLOCK ∧ fsp1.file_id = fsp.file_id ∧ fsp1.gen_id = fsp.gen_id ∧
      counted K g1 fsp1 ∧
      bus_sends g1.trace = bus_sends g.trace ∧
      (∀ w ∈ registry_writes g1.trace, w ∈ registry_writes g.trace ∨
        w = event.remove_share_oplock fsp.file_id fsp.gen_id) ∧
      (fsp.oplock_type ≠ K.LEVEL_II_OPLOCK → client_sends g1.trace = client_sends g.trace) := by
  obtain ⟨g0, f0, h0, hn0, hid0, hc0⟩ :=
    break_level2_to_none_async_total hK E g fsp lck hty hlock ht hs hc
  have hbp := break_packet_events_quiet E fsp K.OPLOCKLEVEL_NONE
  have hre := remove_events_quiet K E fsp
  rcases hty with h | h | h
  · rw [break_level2_to_none_async_none K E g fsp h]
    exact ⟨g, fsp, rfl, h, rfl, rfl, hc, rfl, fun w hw => Or.inl hw, fun _ => rfl⟩
  · have he := break_level2_to_none_async_level2 hK E g fsp lck h hlock ht hs hc
    rw [he] at h0 ⊢
    simp only [Except.ok.injEq, Prod.mk.injEq] at h0
    obtain ⟨rfl, rfl⟩ := h0
    refine ⟨_, _, rfl, rfl, rfl, rfl, hc0, ?_, ?_, fun hne => absurd h hne⟩
    · simp only [bus_sends_append, hbp.1, hre.1, List.append_nil]
    · intro w hw
      simp only [registry_writes_append, hbp.2.1, hre.2.2, List.append_nil, List.mem_append,
        List.mem_singleton] at hw
      exact hw
  · have he := break_level2_to_none_async_fake hK E g fsp lck h hlock hc
    rw [he] at h0 ⊢
    simp only [Except.ok.injEq, Prod.mk.injEq] at h0
    obtain ⟨rfl, rfl⟩ := h0
    refine ⟨_, _, rfl, rfl, rfl, rfl, hc0, ?_, ?_, fun _ => ?_⟩
    · simp only [bus_sends_append, hre.1, List.append_nil]
    · intro w hw
      simp only [registry_writes_append, hre.2.2, List.mem_append, List.mem_singleton] at hw
      exact hw
    · simp only [client_sends_append, hre.2.1, List.append_nil]

theorem bus_sends_log_async_break (K : smb_h) (g : globals) (e : share_mode_entry) :
    let g1 := g.log (event.messaging_send_buf e.pid MSG_SMB_ASYNC_LEVEL2_BREAK
      ((share_mode_entry_to_message K.CLUSTER_SUPPORT
        (List.replicate (MSG_SMB_SHARE_MODE_ENTRY_SIZE K.CLUSTER_SUPPORT) 0) e).take
          (MSG_SMB_SHARE_MODE_ENTRY_SIZE K.CLUSTER_SUPPORT)))
    bus_sends g1.trace = bus_sends g.trace ++ [async_break_for K e] ∧
    registry_writes g1.trace = registry_writes g.trace ∧
    client_sends g1.trace = client_sends g.trace := by
  simp only [encode_take, globals.log, bus_sends_append, registry_writes_append,
    client_sends_append]
  simp [bus_sends, registry_writes, client_sends, event.is_bus_send, event.is_registry_write,
    event.is_client_send, async_break_for]

/-- The loop of the default contention over entries none of which is a
valid EXCLUSIVE-family entry, with working collaborators. -/
theorem contend_level2_loop_effect {K : smb_h} (hK : K.wf) (E : env)
    (ht : E.talloc_ok = true) (hs : E.srv_send_smb_ok = true) (l : List share_mode_entry) :
    (∀ e ∈ l, E.is_valid_share_mode_entry e = true → K.EXCLUSIVE_OPLOCK_TYPE e.op_type = false) →
    ∀ (g : globals) (fsp : files_struct) (lck : share_mode_lock),
      (fsp.oplock_type = K.NO_OPLOCK ∨ fsp.oplock_type = K.LEVEL_II_OPLOCK ∨
        fsp.oplock_type = K.FAKE_LEVEL_II_OPLOCK) →
      E.get_share_mode_lock fsp.file_id = some lck → counted K g fsp →
      ∃ (g1 : globals) (fsp1 : files_struct),
        contend_level2_loop K E l g fsp = Except.ok (g1, fsp1) ∧
        bus_sends g1.trace
          = bus_sends g.trace ++ (l.filter (notified_remote K E)).map (async_break_for K) ∧
        (∀ w ∈ registry_writes g1.trace, w ∈ registry_writes g.trace ∨
          w = event.remove_share_oplock fsp.file_id fsp.gen_id) ∧
        (fsp.oplock_type ≠ K.LEVEL_II_OPLOCK →
          client_sends g1.trace = client_sends g.trace) := by
  induction l with
  | nil =>
    intro _ g fsp lck _ _ _
    exact ⟨g, fsp, rfl, by simp, fun w hw => Or.inl hw, fun _ => rfl⟩
  | cons e t ih =>
    intro hnx g fsp lck hty hlock hc
    have hnt : ∀ x ∈ t, E.is_valid_share_mode_entry x = true →
        K.EXCLUSIVE_OPLOCK_TYPE x.op_type = false :=
      fun x hx => hnx x (List.mem_cons_of_mem e hx)
    rw [contend_level2_loop]
    by_cases h1 : E.is_valid_share_mode_entry e = true
    · have h3 := hnx e (List.mem_cons_self e t) h1
      by_cases h2 : e.op_type = K.NO_OPLOCK
      · obtain ⟨g1, fsp1, hr, hb, hw, hcl⟩ := ih hnt g fsp lck hty hlock hc
        simp only [h1, h2, Bool.not_true, Bool.false_eq_true, if_false, if_true]
        refine ⟨g1, fsp1, hr, ?_, hw, hcl⟩
        rw [hb]
        simp [List.filter_cons, notified_remote, h2]
      · simp only [h1, h2, h3, Bool.not_true, Bool.false_eq_true, if_false]
        by_cases hme : procid_is_me K E e.pid = true
        · rw [if_pos hme]
          have hsl := sleep_events_quiet E
          have hc2 : counted K (wait_before_sending_break E g) fsp := by
            rw [wait_before_sending_break_eq]
            exact counted_of_counters hc rfl rfl
          obtain ⟨g1, fsp1, hb1, hn1, hid1, hgen1, hc1, hbus1, hw1, hcl1⟩ :=
            break_level2_to_none_async_effect hK E _ fsp lck hty hlock ht hs hc2
          rw [wait_before_sending_break_eq] at hbus1 hw1 hcl1
          simp only [bus_sends_append, registry_writes_append, client_sends_append, hsl.1,
            hsl.2.1, hsl.2.2, List.append_nil] at hbus1 hw1 hcl1
          obtain ⟨g2, fsp2, hr, hb, hw, hcl⟩ :=
            ih hnt g1 fsp1 lck (Or.inl hn1) (by rw [hid1]; exact hlock) hc1
          rw [hb1]
          refine ⟨g2, fsp2, hr, ?_, ?_, ?_⟩
          · rw [hb, hbus1]
            simp [List.filter_cons, notified_remote, hme]
          · intro w hw2
            rcases hw w hw2 with h | h
            · exact hw1 w h
            · rw [hid1, hgen1] at h
              exact Or.inr h
          · intro hne
            rw [hcl (by rw [hn1]; exact hK.none_ne_level2), hcl1 hne]
        · rw [if_neg hme]
          obtain ⟨hbus1, hw1, hcl1⟩ := bus_sends_log_async_break K g e
          have hc3 : counted K
              (g.log (event.messaging_send_buf e.pid MSG_SMB_ASYNC_LEVEL2_BREAK
                ((share_mode_entry_to_message K.CLUSTER_SUPPORT
                  (List.replicate (MSG_SMB_SHARE_MODE_ENTRY_SIZE K.CLUSTER_SUPPORT) 0) e).take
                    (MSG_SMB_SHARE_MODE_ENTRY_SIZE K.CLUSTER_SUPPORT)))) fsp :=
            counted_of_counters hc rfl rfl
          obtain ⟨g2, fsp2, hr, hb, hw, hcl⟩ := ih hnt _ fsp lck hty hlock hc3
          refine ⟨g2, fsp2, hr, ?_, ?_, ?_⟩
          · rw [hb, hbus1]
            simp only [Bool.not_eq_true] at hme
            simp [List.filter_cons, notified_remote, h1, h2, hme]
          · intro w hw2
            rcases hw w hw2 with h | h
            · rw [hw1] at h
              exact Or.inl h
            · exact Or.inr h
          · intro hne
            rw [hcl hne, hcl1]
    · simp only [Bool.not_eq_true] at h1
      obtain ⟨g1, fsp1, hr, hb, hw, hcl⟩ := ih hnt g fsp lck hty hlock hc
      simp only [h1, Bool.not_false, if_true]
      refine ⟨g1, fsp1, hr, ?_, hw, hcl⟩
      rw [hb]
      simp [List.filter_cons, notified_remote, h1]

/-- The default contention when no valid entry is of the EXCLUSIVE family
and the collaborators work: what it sends and writes. -/
theorem contend_level2_oplocks_begin_default_effect {K : smb_h} (hK : K.wf) (E : env)
    (g : globals) (fsp : files_struct) (lck : share_mode_lock)
    (hty2 : K.LEVEL_II_OPLOCK_TYPE fsp.oplock_type = true)
    (hty : fsp.oplock_type = K.LEVEL_II_OPLOCK ∨ fsp.oplock_type = K.FAKE_LEVEL_II_OPLOCK)
    (hlock : E.get_share_mode_lock fsp.file_id = some lck)
    (hnx : ∀ e ∈ lck.share_modes, E.is_valid_share_mode_entry e = true →
      K.EXCLUSIVE_OPLOCK_TYPE e.op_type = false)
    (ht : E.talloc_ok = true) (hs : E.srv_send_smb_ok = true) (hc : counted K g fsp) :
    ∃ (g1 : globals) (fsp1 : files_struct),
      contend_level2_oplocks_begin_default K E g fsp = Except.ok (g1, fsp1) ∧
      bus_sends g1.trace = bus_sends g.trace ++
        (lck.share_modes.filter (notified_remote K E)).map (async_break_for K) ∧
      (∀ w ∈ registry_writes g1.trace, w ∈ registry_writes g.trace ∨
        w = event.remove_share_oplock fsp.file_id fsp.gen_id) ∧
      (fsp.oplock_type ≠ K.LEVEL_II_OPLOCK → client_sends g1.trace = client_sends g.trace) := by
  have hc2 : counted K (g.log (event.get_share_mode_lock fsp.file_id)) fsp :=
    counted_of_counters hc rfl rfl
  obtain ⟨g1, fsp1, hr, hb, hw, hcl⟩ :=
    contend_level2_loop_effect hK E ht hs lck.share_modes hnx
      (g.log (event.get_share_mode_lock fsp.file_id)) fsp lck (Or.inr hty) hlock hc2
  have e1 : bus_sends (g.log (event.get_share_mode_lock fsp.file_id)).trace = bus_sends g.trace := by
    simp [globals.log, bus_sends, event.is_bus_send]
  have e2 : registry_writes (g.log (event.get_share_mode_lock fsp.file_id)).trace
      = registry_writes g.trace := by
    simp [globals.log, registry_writes, event.is_registry_write]
  have e3 : client_sends (g.log (event.get_share_mode_lock fsp.file_id)).trace
      = client_sends g.trace := by
    simp [globals.log, client_sends, event.is_client_send]
  rw [e1] at hb
  rw [e2] at hw
  rw [e3] at hcl
  simp only [contend_level2_oplocks_begin_default, hty2, Bool.not_true, Bool.false_eq_true,
    if_false, hlock, hr]
  refine ⟨_, _, rfl, ?_, ?_, ?_⟩
  · simp only [globals.log, bus_sends_append, hb]
    simp [bus_sends, event.is_bus_send]
  · intro w hw2
    simp only [globals.log, registry_writes_append] at hw2
    simp only [registry_writes, List.filter_cons, event.is_registry_write, List.filter_nil,
      List.append_nil, Bool.false_eq_true, if_false] at hw2 hw ⊢
    exact hw w hw2
  · intro hne
    simp only [globals.log, client_sends_append, hcl hne]
    simp [client_sends, event.is_client_send]

/-! ### Timers under a backend that notifies timeouts -/

theorem map_timer_set {Files : List files_struct} {i : Nat} {fsp f : files_struct}
    (hi : Files[i]? = some fsp) (h : f.oplock_timeout = fsp.oplock_timeout) :
    (Files.set i f).map (fun x => x.oplock_timeout) = Files.map (fun x => x.oplock_timeout) := by
  induction Files generalizing i with
  | nil => rfl
  | cons a t ih =>
    cases i with
    | zero =>
      simp only [List.getElem?_cons_zero, Option.some.injEq] at hi
      subst hi
      simp [h]
    | succ n =>
      simp only [List.getElem?_cons_succ] at hi
      simp [ih hi]

theorem add_oplock_timeout_handler_disabled (K : smb_h) (E : env) (fsp : files_struct)
    (hf : E.koplocks_has K.KOPLOCKS_TIMEOUT_NOTIFICATION = true) :
    add_oplock_timeout_handler K E fsp = fsp := by
  simp [add_oplock_timeout_handler, hf]

theorem process_oplock_break_message_timers {K : smb_h} {E : env} {s s1 : smbd}
    {src : server_id} {data : DATA_BLOB}
    (hf : E.koplocks_has K.KOPLOCKS_TIMEOUT_NOTIFICATION = true)
    (h : process_oplock_break_message K E s src data = Except.ok s1) :
    s1.Files.map (fun x => x.oplock_timeout) = s.Files.map (fun x => x.oplock_timeout) := by
  simp only [process_oplock_break_message] at h
  split at h
  · simp only [Except.ok.injEq] at h; subst h; rfl
  · by_cases hl : data.length ≠ MSG_SMB_SHARE_MODE_ENTRY_SIZE K.CLUSTER_SUPPORT
    · rw [if_pos hl] at h; simp only [Except.ok.injEq] at h; subst h; rfl
    · rw [if_neg hl] at h
      split at h
      · simp only [Except.ok.injEq] at h; subst h; rfl
      · rename_i i fsp hib
        have hi := (initial_break_processing_some hib).1
        by_cases hb : fsp.sent_oplock_break ≠ K.NO_BREAK_SENT
        · rw [if_pos hb] at h; simp only [Except.ok.injEq] at h; subst h
          exact map_timer_set hi rfl
        · rw [if_neg hb] at h
          split_ifs at h with hx ht
          · simp only [Except.ok.injEq] at h; subst h; rfl
          all_goals
            by_cases ht : E.talloc_ok = true
            · by_cases hs : E.srv_send_smb_ok = true
              · simp only [new_break_smb_message, send_break_to_client, ht, hs, if_true,
                  Bool.not_true, Bool.false_eq_true, if_false, Except.ok.injEq,
                  add_oplock_timeout_handler_disabled K E _ hf] at h
                subst h
                exact map_timer_set hi rfl
              · simp [new_break_smb_message, send_break_to_client, ht, hs] at h
            · simp [new_break_smb_message, ht] at h

theorem process_kernel_oplock_break_timers {K : smb_h} {E : env} {s s1 : smbd}
    {data : DATA_BLOB} (hf : E.koplocks_has K.KOPLOCKS_TIMEOUT_NOTIFICATION = true)
    (h : process_kernel_oplock_break K E s data = Except.ok s1) :
    s1.Files.map (fun x => x.oplock_timeout) = s.Files.map (fun x => x.oplock_timeout) := by
  simp only [process_kernel_oplock_break] at h
  split at h
  · simp only [Except.ok.injEq] at h; subst h; rfl
  · by_cases hl : data.length ≠ MSG_SMB_KERNEL_BREAK_SIZE
    · rw [if_pos hl] at h; simp only [Except.ok.injEq] at h; subst h; rfl
    · rw [if_neg hl] at h
      split at h
      · simp only [Except.ok.injEq] at h; subst h; rfl
      · rename_i i fsp hib
        have hi := (initial_break_processing_some hib).1
        by_cases hb : fsp.sent_oplock_break ≠ K.NO_BREAK_SENT
        · rw [if_pos hb] at h; simp only [Except.ok.injEq] at h; subst h; rfl
        · rw [if_neg hb] at h
          by_cases ht : E.talloc_ok = true
          · by_cases hs : E.srv_send_smb_ok = true
            · simp only [new_break_smb_message, send_break_to_client, ht, hs, if_true,
                Bool.not_true, Bool.false_eq_true, if_false, Except.ok.injEq,
                add_oplock_timeout_handler_disabled K E _ hf] at h
              subst h
              exact map_timer_set hi rfl
            · simp [new_break_smb_message, send_break_to_client, ht, hs] at h
          · simp [new_break_smb_message, ht] at h

/-- The two handlers that send a break return when the break packet is
allocated and sent. -/
theorem break_handlers_return (K : smb_h) (E : env) (s : smbd) (src : server_id)
    (data : DATA_BLOB) (ht : E.talloc_ok = true) (hs : E.srv_send_smb_ok = true) :
    (∃ s1, process_oplock_break_message K E s src data = Except.ok s1) ∧
    (∃ s1, process_kernel_oplock_break K E s data = Except.ok s1) := by
  constructor
  · cases hd : data.data with
    | none => exact ⟨s, by simp only [process_oplock_break_message, hd]⟩
    | some buf =>
      by_cases hl : data.length = MSG_SMB_SHARE_MODE_ENTRY_SIZE K.CLUSTER_SUPPORT
      · cases hi : initial_break_processing K s.Files (decoded K buf).id
            (decoded K buf).share_file_id with
        | none =>
          unfold decoded at hi
          simp only [process_oplock_break_message, hd, hl, hi, ne_eq, not_true_eq_false,
            if_false]
          exact ⟨_, rfl⟩
        | some r =>
          obtain ⟨i, fsp⟩ := r
          by_cases hb : fsp.sent_oplock_break = K.NO_BREAK_SENT
          · cases hx : (K.EXCLUSIVE_OPLOCK_TYPE (decoded K buf).op_type &&
                !K.EXCLUSIVE_OPLOCK_TYPE fsp.oplock_type)
            · rw [process_oplock_break_message_break K E s src data buf i fsp hd hl hi hb hx
                ht hs]
              exact ⟨_, rfl⟩
            · unfold decoded at hi hx
              simp only [process_oplock_break_message, hd, hl, hi, hb, hx, ne_eq,
                not_true_eq_false, if_false, if_true]
              exact ⟨_, rfl⟩
          · rw [process_oplock_break_message_in_flight K E s src data buf i fsp hd hl hi hb]
            exact ⟨_, rfl⟩
      · simp only [process_oplock_break_message, hd, ne_eq, hl, not_false_eq_true, if_true]
        exact ⟨_, rfl⟩
  · cases hd : data.data with
    | none => exact ⟨s, by simp only [process_kernel_oplock_break, hd]⟩
    | some buf =>
      by_cases hl : data.length = MSG_SMB_KERNEL_BREAK_SIZE
      · cases hi : initial_break_processing K s.Files (pull_file_id_24 buf 0) (IVAL buf 24) with
        | none =>
          simp only [process_kernel_oplock_break, hd, hl, hi, ne_eq, not_true_eq_false,
            if_false]
          exact ⟨_, rfl⟩
        | some r =>
          obtain ⟨i, fsp⟩ := r
          by_cases hb : fsp.sent_oplock_break = K.NO_BREAK_SENT
          · simp only [process_kernel_oplock_break, hd, hl, hi, hb, ne_eq, not_true_eq_false,
              if_false, new_break_smb_message, send_break_to_client, ht, hs, if_true,
              Bool.not_true, Bool.false_eq_true]
            exact ⟨_, rfl⟩
          · simp only [process_kernel_oplock_break, hd, hl, hi, ne_eq, not_true_eq_false,
              if_false]
            rw [if_pos hb]
            exact ⟨_, rfl⟩
      · simp only [process_kernel_oplock_break, hd, ne_eq, hl, not_false_eq_true, if_true]
        exact ⟨_, rfl⟩

/-! ### Counters that count handles -/

theorem counters_exact_cover {K : smb_h} {s : smbd} (h : counters_exact K s) :
    counters_cover K s :=
  ⟨le_of_eq h.1.symm, le_of_eq h.2.symm⟩

theorem counters_exact_set {K : smb_h} {s : smbd} {i : Nat} {fsp fsp1 : files_struct}
    {g1 : globals} (hc : counters_exact K s) (hi : s.Files[i]? = some fsp)
    (hm : exact_move K s.g fsp g1 fsp1) :
    counters_exact K { g := g1, Files := s.Files.set i fsp1 } := by
  obtain ⟨hc1, hc2⟩ := hc
  obtain ⟨hm1, hm2⟩ := hm
  constructor
  · have := countP_set_int (fun f => K.EXCLUSIVE_OPLOCK_TYPE f.oplock_type) s.Files i fsp fsp1 hi
    simp only at this ⊢
    omega
  · have := countP_set_int (fun f => decide (f.oplock_type = K.LEVEL_II_OPLOCK)) s.Files i fsp
      fsp1 hi
    simp only at this ⊢
    omega

theorem ind_fresh {K : smb_h} (hK : K.wf) {fsp : files_struct}
    (hf : fsp.oplock_type = K.NO_OPLOCK ∨ fsp.oplock_type = K.FAKE_LEVEL_II_OPLOCK) :
    ind (K.EXCLUSIVE_OPLOCK_TYPE fsp.oplock_type) = 0 ∧
    ind (decide (fsp.oplock_type = K.LEVEL_II_OPLOCK)) = 0 := by
  rcases hf with h | h
  · rw [h]
    simp [ind, hK.excl_none, hK.none_ne_level2]
  · rw [h]
    simp [ind, hK.excl_fake, hK.level2_ne_fake.symm]

theorem countP_lt_length_of_getElem? {α : Type} (p : α → Bool) :
    ∀ {l : List α} {i : Nat} {a : α}, l[i]? = some a → p a = false →
      (l.countP p : Int) + 1 ≤ (l.length : Int) := by
  intro l
  induction l with
  | nil => intro i a h; simp at h
  | cons x t ih =>
    intro i a h hp
    cases i with
    | zero =>
      simp only [List.getElem?_cons_zero, Option.some.injEq] at h
      subst h
      have := List.countP_le_length p (l := t)
      simp only [List.countP_cons, hp, List.length_cons, Nat.cast_add]
      simp only [Bool.false_eq_true, if_false, Nat.cast_zero, Nat.cast_one]
      omega
    | succ n =>
      simp only [List.getElem?_cons_succ] at h
      have := ih h hp
      simp only [List.countP_cons, List.length_cons, Nat.cast_add, Nat.cast_one]
      split_ifs <;> simp only [Nat.cast_zero, Nat.cast_one] <;> omega

theorem set_file_oplock_exact_move {K : smb_h} (hK : K.wf) (E : env) (g : globals)
    (fsp : files_struct) (t : Nat)
    (hf : fsp.oplock_type = K.NO_OPLOCK ∨ fsp.oplock_type = K.FAKE_LEVEL_II_OPLOCK)
    (hmx : g.exclusive_oplocks_open < INT32_MAX) (hml : g.level_II_oplocks_open < INT32_MAX) :
    exact_move K g fsp (set_file_oplock K E g fsp t).2.1 (set_file_oplock K E g fsp t).2.2 := by
  obtain ⟨i1, i2⟩ := ind_fresh hK hf
  have k1 : int32_inc g.exclusive_oplocks_open = g.exclusive_oplocks_open + 1 :=
    int32_inc_of_lt hmx
  have k2 : int32_inc g.level_II_oplocks_open = g.level_II_oplocks_open + 1 :=
    int32_inc_of_lt hml
  obtain ⟨g1, hg, h | h⟩ := set_file_oplock_cases K E g fsp t
  · rw [h]
    rcases hg with rfl | rfl <;> simp [exact_move, globals.log]
  · rw [h]
    have e1 : g1.exclusive_oplocks_open = g.exclusive_oplocks_open := by
      rcases hg with rfl | rfl <;> rfl
    have e2 : g1.level_II_oplocks_open = g.level_II_oplocks_open := by
      rcases hg with rfl | rfl <;> rfl
    by_cases hL : t = K.LEVEL_II_OPLOCK
    · have hX : K.EXCLUSIVE_OPLOCK_TYPE t = false := by rw [hL]; exact hK.excl_level2
      have j1 : ind (K.EXCLUSIVE_OPLOCK_TYPE t) = 0 := by simp [ind, hX]
      have j2 : ind (decide (t = K.LEVEL_II_OPLOCK)) = 1 := by simp [ind, hL]
      simp only [exact_move, if_pos hL, j1, j2, i1, i2, e1, e2, k2]
      constructor <;> omega
    · have j2 : ind (decide (t = K.LEVEL_II_OPLOCK)) = 0 := by simp [ind, hL]
      cases hX : K.EXCLUSIVE_OPLOCK_TYPE t
      · have j1 : ind false = 0 := rfl
        simp only [exact_move, if_neg hL, hX, j1, j2, i1, i2, e1, e2, Bool.false_eq_true,
          if_false]
        constructor <;> omega
      · have j1 : ind true = 1 := rfl
        simp only [exact_move, if_neg hL, hX, j1, j2, i1, i2, e1, e2, k1, if_true]
        constructor <;> omega

theorem downgrade_file_oplock_exact_move {K : smb_h} (hK : K.wf) (E : env) (g : globals)
    (fsp : files_struct)
    (h0x : K.EXCLUSIVE_OPLOCK_TYPE fsp.oplock_type = true → 0 ≤ g.exclusive_oplocks_open)
    (hml : K.EXCLUSIVE_OPLOCK_TYPE fsp.oplock_type = true →
      g.level_II_oplocks_open < INT32_MAX) :
    exact_move K g fsp (downgrade_file_oplock K E g fsp).1 (downgrade_file_oplock K E g fsp).2 := by
  unfold downgrade_file_oplock
  cases hX : K.EXCLUSIVE_OPLOCK_TYPE fsp.oplock_type
  · simp [exact_move]
  · have hL : fsp.oplock_type ≠ K.LEVEL_II_OPLOCK := by
      intro h; rw [h, hK.excl_level2] at hX; exact Bool.false_ne_true hX
    have d1 := int32_dec_of_nonneg (h0x hX)
    have k2 := int32_inc_of_lt (hml hX)
    cases hk : E.koplocks.isSome <;>
      simp [exact_move, hX, hL, hK.excl_level2, ind, globals.log, d1, k2]

theorem released_exact_move {K : smb_h} (hK : K.wf) (g : globals) (fsp : files_struct)
    (tr : List event) :
    exact_move K g fsp
      { exclusive_oplocks_open :=
          g.exclusive_oplocks_open - ind (K.EXCLUSIVE_OPLOCK_TYPE fsp.oplock_type)
        level_II_oplocks_open :=
          g.level_II_oplocks_open - ind (decide (fsp.oplock_type = K.LEVEL_II_OPLOCK))
        global_client_failed_oplock_break := g.global_client_failed_oplock_break
        trace := tr }
      (released K fsp) := by
  have h1 : ind (K.EXCLUSIVE_OPLOCK_TYPE (released K fsp).oplock_type) = 0 := by
    cases hX : K.EXCLUSIVE_OPLOCK_TYPE fsp.oplock_type <;>
      simp [released, hX, ind, hK.excl_none, hK.excl_fake]
  have h2 : ind (decide ((released K fsp).oplock_type = K.LEVEL_II_OPLOCK)) = 0 := by
    cases hX : K.EXCLUSIVE_OPLOCK_TYPE fsp.oplock_type <;>
      simp [released, hX, ind, hK.none_ne_level2, hK.level2_ne_fake.symm]
  simp only [exact_move, h1, h2]
  constructor <;> omega

/-- One of the three counter calls, made under the restriction on grants in
a state whose counters count the handles and whose handles are at most
INT32_MAX, returns and keeps the count and the number of handles. -/
theorem step_counters_exact {K : smb_h} (hK : K.wf) (E : env) {s : smbd} {o : op}
    (hc : counters_exact K s) (ho : o.is_counter_call = true) (hg : grant_fresh K s o)
    (hb : (s.Files.length : Int) ≤ INT32_MAX) :
    ∃ s1, step K E s o = Except.ok s1 ∧ counters_exact K s1 ∧
      s1.Files.length = s.Files.length := by
  cases o with
  | set_file_oplock i t =>
    simp only [step, on_handle]
    cases hi : s.Files[i]? with
    | none => exact ⟨s, rfl, hc, rfl⟩
    | some fsp =>
      obtain ⟨i1, i2⟩ := ind_fresh hK (hg fsp hi)
      have b1 := countP_lt_length_of_getElem? (fun f => K.EXCLUSIVE_OPLOCK_TYPE f.oplock_type) hi
        (by cases hX : K.EXCLUSIVE_OPLOCK_TYPE fsp.oplock_type
            · exact hX
            · simp [hX, ind] at i1)
      have b2 := countP_lt_length_of_getElem?
        (fun f => decide (f.oplock_type = K.LEVEL_II_OPLOCK)) hi
        (by by_cases hL : fsp.oplock_type = K.LEVEL_II_OPLOCK
            · simp [hL, ind] at i2
            · simp [hL])
      have hmx : s.g.exclusive_oplocks_open < INT32_MAX := by rw [hc.1]; omega
      have hml : s.g.level_II_oplocks_open < INT32_MAX := by rw [hc.2]; omega
      exact ⟨_, rfl,
        counters_exact_set hc hi (set_file_oplock_exact_move hK E s.g fsp t (hg fsp hi) hmx hml),
        List.length_set _ _ _⟩
  | downgrade_file_oplock i =>
    simp only [step, on_handle]
    cases hi : s.Files[i]? with
    | none => exact ⟨s, rfl, hc, rfl⟩
    | some fsp =>
      have h0x : K.EXCLUSIVE_OPLOCK_TYPE fsp.oplock_type = true →
          0 ≤ s.g.exclusive_oplocks_open := by
        intro _
        rw [hc.1]
        exact Int.ofNat_nonneg _
      have hml : K.EXCLUSIVE_OPLOCK_TYPE fsp.oplock_type = true →
          s.g.level_II_oplocks_open < INT32_MAX := by
        intro hX
        have hL : fsp.oplock_type ≠ K.LEVEL_II_OPLOCK := by
          intro h; rw [h, hK.excl_level2] at hX; exact Bool.false_ne_true hX
        have b2 := countP_lt_length_of_getElem?
          (fun f => decide (f.oplock_type = K.LEVEL_II_OPLOCK)) hi (by simp [hL])
        rw [hc.2]
        omega
      exact ⟨_, rfl,
        counters_exact_set hc hi (downgrade_file_oplock_exact_move hK E s.g fsp h0x hml),
        List.length_set _ _ _⟩
  | release_file_oplock i =>
    simp only [step, on_handle]
    cases hi : s.Files[i]? with
    | none => exact ⟨s, rfl, hc, rfl⟩
    | some fsp =>
      have hcv := counters_exact_cover hc
      have hcd : counted K s.g fsp := by
        refine ⟨le_trans (Int.ofNat_nonneg _) hcv.1, le_trans (Int.ofNat_nonneg _) hcv.2, ?_, ?_⟩
        · intro h
          exact le_trans
            (countP_pos_of_getElem? (fun f => decide (f.oplock_type = K.LEVEL_II_OPLOCK)) hi
              (by simpa using h)) hcv.2
        · intro h
          exact le_trans
            (countP_pos_of_getElem? (fun f => K.EXCLUSIVE_OPLOCK_TYPE f.oplock_type) hi h) hcv.1
      simp only [release_file_oplock_eq hK E s.g fsp hcd]
      exact ⟨_, rfl, counters_exact_set hc hi (released_exact_move hK s.g fsp _),
        List.length_set _ _ _⟩
  | _ => simp [op.is_counter_call] at ho

theorem initial_counters_exact {K : smb_h} (hK : K.wf) {s : smbd} (h : s.initial K) :
    counters_exact K s := by
  obtain ⟨h1, h2, h3⟩ := h
  have c1 : s.Files.countP (fun f => K.EXCLUSIVE_OPLOCK_TYPE f.oplock_type) = 0 := by
    rw [List.countP_eq_zero]
    intro f hf
    simp [h3 f hf, hK.excl_none]
  have c2 : s.Files.countP (fun f => decide (f.oplock_type = K.LEVEL_II_OPLOCK)) = 0 := by
    rw [List.countP_eq_zero]
    intro f hf
    simp [h3 f hf, hK.none_ne_level2]
  simp [counters_exact, c1, c2, h1, h2]

theorem run_counters_exact {K : smb_h} (hK : K.wf) (ops : List (env × op)) :
    ∀ (s : smbd), counters_exact K s → (∀ x ∈ ops, x.2.is_counter_call = true) →
      grants_fresh K s ops → (s.Files.length : Int) ≤ INT32_MAX →
      ∃ s1, run K s ops = Except.ok s1 ∧ counters_exact K s1 := by
  induction ops with
  | nil =>
    intro s hc _ _ _
    exact ⟨s, rfl, hc⟩
  | cons x rest ih =>
    intro s hc ho hg hb
    obtain ⟨s1, hs, hc1, hl1⟩ :=
      step_counters_exact hK x.1 hc (ho x (List.mem_cons_self _ _)) hg.1 hb
    obtain ⟨s2, hr, hc2⟩ := ih s1 hc1 (fun y hy => ho y (List.mem_cons_of_mem _ hy))
      (hg.2 s1 hs) (by rw [hl1]; exact hb)
    exact ⟨s2, by simp [run, hs, hr], hc2⟩

/-! ### Repeated grants and the end of the counter range -/

theorem run_append_ok {K : smb_h} (a b : List (env × op)) :
    ∀ (s s1 : smbd), run K s a = Except.ok s1 → run K s (a ++ b) = run K s1 b := by
  induction a with
  | nil =>
    intro s s1 h
    obtain rfl : s = s1 := Except.ok.inj h
    rfl
  | cons x rest ih =>
    intro s s1 h
    simp only [run, List.cons_append] at h ⊢
    cases hs : step K x.1 s x.2 with
    | error e => rw [hs] at h; cases h
    | ok s2 =>
      rw [hs] at h
      exact ih s2 s1 h

theorem set_of_getElem? {α : Type} : ∀ (l : List α) (i : Nat) (a : α),
    l[i]? = some a → l.set i a = l := by
  intro l
  induction l with
  | nil => intro i a h; simp at h
  | cons x t ih =>
    intro i a h
    cases i with
    | zero =>
      simp only [List.getElem?_cons_zero, Option.some.injEq] at h
      rw [h, List.set_cons_zero]
    | succ n =>
      simp only [List.getElem?_cons_succ] at h
      rw [List.set_cons_succ, ih n a h]

/-- One more LEVEL_II grant, without a kernel backend, to a handle that is
already in LEVEL_II with no break in flight: only the counter moves. -/
theorem step_level2_again {K : smb_h} (hK : K.wf) (E : env) (hE : E.koplocks = none)
    (g : globals) (Files : List files_struct) (i : Nat) (fsp : files_struct)
    (hi : Files[i]? = some fsp) (hL : fsp.oplock_type = K.LEVEL_II_OPLOCK)
    (hn : fsp.sent_oplock_break = K.NO_BREAK_SENT) :
    step K E { g := g, Files := Files } (op.set_file_oplock i K.LEVEL_II_OPLOCK)
      = Except.ok { g := { g with level_II_oplocks_open := int32_inc g.level_II_oplocks_open }
                    Files := Files } := by
  have hlack : E.koplocks_lacks K.KOPLOCKS_LEVEL2_SUPPORTED = false := by
    simp [env.koplocks_lacks, hE]
  have hf : ({ fsp with oplock_type := K.LEVEL_II_OPLOCK
                        sent_oplock_break := K.NO_BREAK_SENT } : files_struct) = fsp := by
    rw [← hL, ← hn]
  have hset : Files.set i fsp = Files := set_of_getElem? Files i fsp hi
  simp only [step, on_handle, hi]
  simp [set_file_oplock, hlack, hE, hK.excl_level2, hK.level2_ne_fake,
    hK.none_ne_level2.symm, hL, hf, hset]

/-- While the counter stays inside the `int32` range, `n` further LEVEL_II
grants to such a handle raise `level_II_oplocks_open` by `n`. -/
theorem run_level2_grants {K : smb_h} (hK : K.wf) (E : env) (hE : E.koplocks = none)
    (Files : List files_struct) (i : Nat) (fsp : files_struct)
    (hi : Files[i]? = some fsp) (hL : fsp.oplock_type = K.LEVEL_II_OPLOCK)
    (hn : fsp.sent_oplock_break = K.NO_BREAK_SENT) :
    ∀ (n : Nat) (g : globals), g.level_II_oplocks_open + n ≤ INT32_MAX →
      run K { g := g, Files := Files }
          (List.replicate n (E, op.set_file_oplock i K.LEVEL_II_OPLOCK))
        = Except.ok
            { g := { g with level_II_oplocks_open := g.level_II_oplocks_open + n }
              Files := Files } := by
  intro n
  induction n with
  | zero =>
    intro g _
    simp [run]
  | succ n ih =>
    intro g hb
    have hlt : g.level_II_oplocks_open < INT32_MAX := by
      have : (0:Int) ≤ (n : Int) := Int.ofNat_nonneg n
      push_cast at hb
      omega
    rw [List.replicate_succ,
      run_cons_ok (step_level2_again hK E hE g Files i fsp hi hL hn), int32_inc_of_lt hlt,
      ih _ (by push_cast at hb ⊢; omega)]
    simp only [Nat.cast_add, Nat.cast_one]
    congr 2
    simp only [globals.mk.injEq, and_true, true_and]
    omega

/-- From the initial state with two handles, 2^31 LEVEL_II grants to the
first handle, without a kernel backend: the counter passes INT32_MAX and
wraps to INT32_MIN. -/
theorem run_level2_grants_wrap :
    run samba_3_4_1 two_handles
        (List.replicate 2147483648 (env.plain, op.set_file_oplock 0 4))
      = Except.ok
          { g := { globals.zero with level_II_oplocks_open := -2147483648 }
            Files := [files_struct.sample 7 1 4, files_struct.sample 7 2 0] } := by
  have e : (2147483648 : Nat) = 2147483646 + 1 + 1 := rfl
  have h1 : step samba_3_4_1 env.plain two_handles (op.set_file_oplock 0 4)
      = Except.ok { g := { globals.zero with level_II_oplocks_open := 1 }
                    Files := [files_struct.sample 7 1 4, files_struct.sample 7 2 0] } := rfl
  have h2 : run samba_3_4_1
        { g := { globals.zero with level_II_oplocks_open := 1 }
          Files := [files_struct.sample 7 1 4, files_struct.sample 7 2 0] }
        (List.replicate 2147483646 (env.plain, op.set_file_oplock 0 4))
      = Except.ok
          { g := { globals.zero with level_II_oplocks_open := 2147483647 }
            Files := [files_struct.sample 7 1 4, files_struct.sample 7 2 0] } :=
    run_level2_grants samba_3_4_1_wf env.plain rfl
      [files_struct.sample 7 1 4, files_struct.sample 7 2 0] 0 (files_struct.sample 7 1 4)
      rfl rfl rfl 2147483646 { globals.zero with level_II_oplocks_open := 1 } (by decide)
  have h3 : step samba_3_4_1 env.plain
        { g := { globals.zero with level_II_oplocks_open := 2147483647 }
          Files := [files_struct.sample 7 1 4, files_struct.sample 7 2 0] }
        (op.set_file_oplock 0 4)
      = Except.ok
          { g := { globals.zero with level_II_oplocks_open := -2147483648 }
            Files := [files_struct.sample 7 1 4, files_struct.sample 7 2 0] } := rfl
  rw [e, List.replicate_succ, run_cons_ok h1, List.replicate_succ', run_append_ok _ _ _ _ h2,
    run_cons_ok h3]
  rfl

/-! ## Wire codec: round trip, byte exactness, layout -/

/-- C3 as stated fails: the decoder reads the microseconds through an
`(int)` cast.  An entry whose fields all fit their wire widths, with
`tv_usec` = 2^31 (a value a 64-bit `long` holds), is encoded with the bytes
00 00 00 80 at offset 24 and decoded with `tv_usec` = -2^31. -/
theorem codec_round_trip_counterexample :
    share_mode_entry.fits_wire false
      ⟨⟨4242, 0⟩, 17, 1, 0x12019f, 3, 0, ⟨1256900000, 2147483648⟩, ⟨List.replicate 24 0xab⟩,
        5, 1000, 0⟩ ∧
    ((share_mode_entry_to_message false (List.replicate 62 0)
        ⟨⟨4242, 0⟩, 17, 1, 0x12019f, 3, 0, ⟨1256900000, 2147483648⟩,
          ⟨List.replicate 24 0xab⟩, 5, 1000, 0⟩).drop 24).take 4 = [0, 0, 0, 128] ∧
    (message_to_share_mode_entry false share_mode_entry.uninit
        (share_mode_entry_to_message false (List.replicate 62 0)
          ⟨⟨4242, 0⟩, 17, 1, 0x12019f, 3, 0, ⟨1256900000, 2147483648⟩,
            ⟨List.replicate 24 0xab⟩, 5, 1000, 0⟩)).time.tv_usec = -2147483648 := by
  decide

/-- C3 (amended): for every share-mode entry `e` whose fields fit their wire
widths, the microseconds as a signed 32-bit number (-2^31 <= tv_usec <
2^31), decoding the buffer that `share_mode_entry_to_message` wrote for `e`
gives an entry equal to `e` in every field.  With cluster support that is
`e` itself; without it the node number is not on the wire and the decoder
leaves that field of the caller's struct `e0` alone, every other field
being that of `e`.  Whatever `e` is, the decoded microseconds lie in that
signed range, so no entry outside it is read back unchanged. -/
theorem codec_round_trip (c : Bool) (e e0 : share_mode_entry) (msg : List Nat)
    (hm : msg.length = MSG_SMB_SHARE_MODE_ENTRY_SIZE c) :
    (e.valid c →
      message_to_share_mode_entry c e0 (share_mode_entry_to_message c msg e)
        = { e with pid := { e.pid with vnn := if c then e.pid.vnn else e0.pid.vnn } }) ∧
    -2147483648
      ≤ (message_to_share_mode_entry c e0 (share_mode_entry_to_message c msg e)).time.tv_usec ∧
    (message_to_share_mode_entry c e0 (share_mode_entry_to_message c msg e)).time.tv_usec
      < 2147483648 := by
  refine ⟨?_, ?_⟩
  · intro hv
    rw [encode_exact c msg e hm]
    cases c with
    | false => simpa using decode_wire_fields e e0 [] hv
    | true => simpa using decode_wire_fields_cluster e e0 [] hv
  · exact int_cast_range _

/-- C3 (amended), exercised on an entry of process 4242 for the file with
identity bytes 0xab, decoded into a struct whose node number was 7. -/
theorem codec_round_trip_witness :
    share_mode_entry.valid false
      ⟨⟨4242, 0⟩, 17, 1, 0x12019f, 3, 0, ⟨1256900000, 250000⟩, ⟨List.replicate 24 0xab⟩,
        5, 1000, 0⟩ ∧
    message_to_share_mode_entry false
        ⟨⟨0, 7⟩, 0, 0, 0, 0, 0, ⟨0, 0⟩, ⟨[]⟩, 0, 0, 0⟩
        (share_mode_entry_to_message false (List.replicate 62 0)
          ⟨⟨4242, 0⟩, 17, 1, 0x12019f, 3, 0, ⟨1256900000, 250000⟩,
            ⟨List.replicate 24 0xab⟩, 5, 1000, 0⟩)
      = ⟨⟨4242, 7⟩, 17, 1, 0x12019f, 3, 0, ⟨1256900000, 250000⟩,
            ⟨List.replicate 24 0xab⟩, 5, 1000, 0⟩ :=
  ⟨by decide,
   (codec_round_trip false
    ⟨⟨4242, 0⟩, 17, 1, 0x12019f, 3, 0, ⟨1256900000, 250000⟩, ⟨List.replicate 24 0xab⟩, 5, 1000, 0⟩
    ⟨⟨0, 7⟩, 0, 0, 0, 0, 0, ⟨0, 0⟩, ⟨[]⟩, 0, 0, 0⟩ (List.replicate 62 0)
    (by decide)).1 (by decide)⟩

/-- C4 (exact-byte reversibility): without cluster support, re-encoding the
entry decoded from any 62-byte message `m` writes back exactly the bytes of
`m`, whatever the output buffer held before. -/
theorem codec_byte_exact (m msg : List Nat) (e0 : share_mode_entry)
    (hlen : m.length = MSG_SMB_SHARE_MODE_ENTRY_SIZE false) (hb : ∀ b ∈ m, b < 256)
    (hmsg : msg.length = MSG_SMB_SHARE_MODE_ENTRY_SIZE false) :
    share_mode_entry_to_message false msg (message_to_share_mode_entry false e0 m) = m := by
  rw [encode_exact false msg _ hmsg]
  simpa using wire_fields_decode m e0 hlen hb

/-- C4, exercised on the 62 bytes 0, 1, ..., 61, re-encoded into a buffer
of 0xff bytes. -/
theorem codec_byte_exact_witness :
    (List.range 62).length = MSG_SMB_SHARE_MODE_ENTRY_SIZE false ∧
    share_mode_entry_to_message false (List.replicate 62 0xff)
        (message_to_share_mode_entry false share_mode_entry.uninit (List.range 62))
      = List.range 62 :=
  ⟨by decide,
   codec_byte_exact (List.range 62) (List.replicate 62 0xff) share_mode_entry.uninit
    (by decide) (by decide) (by decide)⟩

/-- C5 (wire layout): the encoder fills a buffer of the message size (62
bytes, 66 with cluster support) with pid at offset 0 (4 bytes), op_mid at 4
(2), op_type at 6 (2), access_mask at 8 (4), share_access at 12 (4),
private_options at 16 (4), seconds at 20 (4), microseconds at 24 (4), the
file identity at 28 (24), share_file_id at 52 (4), uid at 56 (4), flags at 60
(2) and, with cluster support, the node number at 62 (4); the decoder reads
each field from the same offset and width. -/
theorem wire_layout (c : Bool) (msg m : List Nat) (e e0 : share_mode_entry)
    (hmsg : msg.length = MSG_SMB_SHARE_MODE_ENTRY_SIZE c) (hid : e.id.valid)
    (hm : m.length = MSG_SMB_SHARE_MODE_ENTRY_SIZE c) :
    MSG_SMB_SHARE_MODE_ENTRY_SIZE c = 62 + (if c then 4 else 0) ∧
    (share_mode_entry_to_message c msg e).length = MSG_SMB_SHARE_MODE_ENTRY_SIZE c ∧
    (((share_mode_entry_to_message c msg e).drop 0).take 4 = leBytes 4 e.pid.pid ∧
     ((share_mode_entry_to_message c msg e).drop 4).take 2 = leBytes 2 e.op_mid ∧
     ((share_mode_entry_to_message c msg e).drop 6).take 2 = leBytes 2 e.op_type ∧
     ((share_mode_entry_to_message c msg e).drop 8).take 4 = leBytes 4 e.access_mask ∧
     ((share_mode_entry_to_message c msg e).drop 12).take 4 = leBytes 4 e.share_access ∧
     ((share_mode_entry_to_message c msg e).drop 16).take 4 = leBytes 4 e.private_options ∧
     ((share_mode_entry_to_message c msg e).drop 20).take 4 = leBytes 4 e.time.tv_sec ∧
     ((share_mode_entry_to_message c msg e).drop 24).take 4
       = leBytes 4 (uint32_cast e.time.tv_usec) ∧
     ((share_mode_entry_to_message c msg e).drop 28).take 24 = e.id.enc ∧
     ((share_mode_entry_to_message c msg e).drop 52).take 4 = leBytes 4 e.share_file_id ∧
     ((share_mode_entry_to_message c msg e).drop 56).take 4 = leBytes 4 e.uid ∧
     ((share_mode_entry_to_message c msg e).drop 60).take 2 = leBytes 2 e.flags ∧
     (c = true →
       ((share_mode_entry_to_message c msg e).drop 62).take 4 = leBytes 4 e.pid.vnn)) ∧
    ((message_to_share_mode_entry c e0 m).pid.pid = ofLE ((m.drop 0).take 4) ∧
     (message_to_share_mode_entry c e0 m).op_mid = ofLE ((m.drop 4).take 2) ∧
     (message_to_share_mode_entry c e0 m).op_type = ofLE ((m.drop 6).take 2) ∧
     (message_to_share_mode_entry c e0 m).access_mask = ofLE ((m.drop 8).take 4) ∧
     (message_to_share_mode_entry c e0 m).share_access = ofLE ((m.drop 12).take 4) ∧
     (message_to_share_mode_entry c e0 m).private_options = ofLE ((m.drop 16).take 4) ∧
     (message_to_share_mode_entry c e0 m).time.tv_sec = ofLE ((m.drop 20).take 4) ∧
     (message_to_share_mode_entry c e0 m).time.tv_usec = int_cast (ofLE ((m.drop 24).take 4)) ∧
     (message_to_share_mode_entry c e0 m).id.enc = (m.drop 28).take 24 ∧
     (message_to_share_mode_entry c e0 m).share_file_id = ofLE ((m.drop 52).take 4) ∧
     (message_to_share_mode_entry c e0 m).uid = ofLE ((m.drop 56).take 4) ∧
     (message_to_share_mode_entry c e0 m).flags = ofLE ((m.drop 60).take 2) ∧
     (c = true → (message_to_share_mode_entry c e0 m).pid.vnn = ofLE ((m.drop 62).take 4))) := by
  have hm52 : 28 + 24 ≤ m.length := by
    rw [hm]; cases c <;> simp [MSG_SMB_SHARE_MODE_ENTRY_SIZE]
  obtain ⟨s1, s2, s3, s4, s5, s6, s7, s8, s9, s10, s11, s12, s13⟩ :=
    wire_fields_slices e (if c then leBytes 4 e.pid.vnn else [])
  rw [file_id_bytes_valid _ hid] at s9
  rw [encode_exact c msg e hmsg]
  refine ⟨by cases c <;> rfl, ?_, ⟨s1, s2, s3, s4, s5, s6, s7, s8, s9, s10, s11, s12, ?_⟩, ?_⟩
  · cases c <;> simp [MSG_SMB_SHARE_MODE_ENTRY_SIZE, wire_fields_length, leBytes_length]
  · intro hc
    subst hc
    rw [s13]
    simp [List.take_of_length_le, leBytes_length]
  · simp only [message_to_share_mode_entry, IVAL_eq_ofLE, SVAL_eq_ofLE,
      pull_file_id_24_eq m 28 hm52, true_and]
    intro hc
    simp [hc]

/-- C5, exercised: the message written for an entry is 62 bytes long and
carries the 24 bytes of the file identity at offset 28. -/
theorem wire_layout_witness :
    (share_mode_entry_to_message false (List.replicate 62 0)
        ⟨⟨4242, 0⟩, 17, 1, 0x12019f, 3, 0, ⟨1256900000, 250000⟩, ⟨List.replicate 24 0xab⟩,
          5, 1000, 0⟩).length = MSG_SMB_SHARE_MODE_ENTRY_SIZE false ∧
    ((share_mode_entry_to_message false (List.replicate 62 0)
        ⟨⟨4242, 0⟩, 17, 1, 0x12019f, 3, 0, ⟨1256900000, 250000⟩, ⟨List.replicate 24 0xab⟩,
          5, 1000, 0⟩).drop 28).take 24 = List.replicate 24 0xab :=
  have h := wire_layout false (List.replicate 62 0) (List.range 62)
    ⟨⟨4242, 0⟩, 17, 1, 0x12019f, 3, 0, ⟨1256900000, 250000⟩, ⟨List.replicate 24 0xab⟩, 5, 1000, 0⟩
    share_mode_entry.uninit (by decide) (by decide) (by decide)
  ⟨h.2.1, h.2.2.1.2.2.2.2.2.2.2.2.1⟩

/-! ## Oplock state: grant, release, downgrade, break -/

/-- C1 as stated fails: `set_file_oplock` looks at no other handle.  From
the initial state with two open handles of one file, granting EXCLUSIVE to
the first and then to the second succeeds twice and leaves both handles in
the EXCLUSIVE family, with `exclusive_oplocks_open = 2`. -/
theorem mutual_exclusion_counterexample :
    two_handles.initial samba_3_4_1 ∧
    run samba_3_4_1 two_handles
        [(env.plain, op.set_file_oplock 0 EXCLUSIVE_OPLOCK),
         (env.plain, op.set_file_oplock 1 EXCLUSIVE_OPLOCK)]
      = Except.ok
          { g := { globals.zero with exclusive_oplocks_open := 2 }
            Files := [files_struct.sample 7 1 EXCLUSIVE_OPLOCK,
                      files_struct.sample 7 2 EXCLUSIVE_OPLOCK] } ∧
    ¬ mutual_exclusion samba_3_4_1
        [files_struct.sample 7 1 EXCLUSIVE_OPLOCK, files_struct.sample 7 2 EXCLUSIVE_OPLOCK] := by
  refine ⟨by decide, rfl, ?_⟩
  intro h
  exact h 0 1 _ _ (by decide) rfl rfl rfl (by decide) (by decide)

/-- C1 (amended): mutual exclusion holds along every run from the initial
state in which an EXCLUSIVE-family oplock is requested for a handle only
while no other open handle of the same file holds one.  Releases,
downgrades, break messages, timeouts and level-II contention need no such
condition: none of them puts a handle into the EXCLUSIVE family. -/
theorem mutual_exclusion_preserved (K : smb_h) (hK : K.wf) (s0 s : smbd)
    (ops : List (env × op)) (h0 : s0.initial K) (hg : grants_allowed K s0 ops)
    (hr : run K s0 ops = Except.ok s) : mutual_exclusion K s.Files :=
  run_mutual_exclusion hK ops s0 s (initial_mutual_exclusion hK h0) hg hr

/-- C1 (amended), exercised: EXCLUSIVE to the first handle of a file, then
LEVEL_II to the second. -/
theorem mutual_exclusion_preserved_witness :
    mutual_exclusion samba_3_4_1
      [files_struct.sample 7 1 EXCLUSIVE_OPLOCK, files_struct.sample 7 2 4] := by
  refine mutual_exclusion_preserved samba_3_4_1 samba_3_4_1_wf two_handles
    { g := { globals.zero with exclusive_oplocks_open := 1, level_II_oplocks_open := 1 }
      Files := [files_struct.sample 7 1 EXCLUSIVE_OPLOCK, files_struct.sample 7 2 4] }
    [(env.plain, op.set_file_oplock 0 EXCLUSIVE_OPLOCK), (env.plain, op.set_file_oplock 1 4)]
    (by decide) ?_ rfl
  refine ⟨?_, ?_⟩
  · intro _ j fi fj hj hi hjj _
    rcases j with _ | _ | j
    · exact absurd rfl hj
    · simp only [two_handles, List.getElem?_cons_succ, List.getElem?_cons_zero,
        Option.some.injEq] at hjj
      rw [← hjj]
      decide
    · simp [two_handles] at hjj
  · intro s1 _
    refine ⟨?_, fun _ _ => trivial⟩
    intro h
    exact absurd h (by decide)

/-- C2 as stated fails at the end of the counter range: the counters are
`int32`.  From the initial state with two handles, 2^31 LEVEL_II grants to
the first handle (no kernel backend) leave `level_II_oplocks_open` at
-2147483648, and a release of the second handle, which holds nothing, then
fails the assertion of `release_file_oplock`. -/
theorem counters_never_negative_counterexample :
    two_handles.initial samba_3_4_1 ∧
    (∀ x ∈ List.replicate 2147483648 (env.plain, op.set_file_oplock 0 4),
      x.2.is_counter_call = true) ∧
    run samba_3_4_1 two_handles
        (List.replicate 2147483648 (env.plain, op.set_file_oplock 0 4))
      = Except.ok
          { g := { globals.zero with level_II_oplocks_open := -2147483648 }
            Files := [files_struct.sample 7 1 4, files_struct.sample 7 2 0] } ∧
    run samba_3_4_1 two_handles
        (List.replicate 2147483648 (env.plain, op.set_file_oplock 0 4)
          ++ [(env.plain, op.release_file_oplock 1)])
      = Except.error fatal.smb_panic := by
  refine ⟨by decide, ?_, run_level2_grants_wrap, ?_⟩
  · intro x hx
    rw [List.eq_of_mem_replicate hx]
    rfl
  · rw [run_append_ok _ _ _ _ run_level2_grants_wrap]
    rfl

/-- C2 (amended): from the initial state (both counters 0, every handle in
NONE), every sequence of at most 2^31 - 1 `set_file_oplock`,
`downgrade_file_oplock` and `release_file_oplock` calls on any handles runs
to its end (neither assertion of `release_file_oplock` fails) and ends with
both counters non-negative, each at most the number of calls made. -/
theorem counters_never_negative (K : smb_h) (hK : K.wf) (s0 : smbd) (ops : List (env × op))
    (h0 : s0.initial K) (hops : ∀ x ∈ ops, x.2.is_counter_call = true)
    (hlen : ops.length ≤ 2147483647) :
    ∃ s, run K s0 ops = Except.ok s ∧
      0 ≤ s.g.exclusive_oplocks_open ∧ 0 ≤ s.g.level_II_oplocks_open ∧
      s.g.exclusive_oplocks_open ≤ ops.length ∧ s.g.level_II_oplocks_open ≤ ops.length := by
  have hb : (0 : Int) + (ops.length : Int) ≤ INT32_MAX := by
    have : (ops.length : Int) ≤ 2147483647 := by exact_mod_cast hlen
    simp only [INT32_MAX]
    omega
  obtain ⟨s, hr, hc, b1, b2⟩ := run_counter_calls hK ops s0 0 (initial_counters_cover hK h0)
    (by rw [h0.1]) (by rw [h0.2.1]) hops hb
  refine ⟨s, hr, le_trans (Int.ofNat_nonneg _) hc.1, le_trans (Int.ofNat_nonneg _) hc.2, ?_, ?_⟩
  · simpa using b1
  · simpa using b2

/-- C2 (amended), exercised: grant EXCLUSIVE, downgrade, release twice on
one handle, release on the other. -/
theorem counters_never_negative_witness :
    ∃ s, run samba_3_4_1 two_handles
        [(env.plain, op.set_file_oplock 0 EXCLUSIVE_OPLOCK),
         (env.plain, op.downgrade_file_oplock 0),
         (env.plain, op.release_file_oplock 0),
         (env.plain, op.release_file_oplock 0),
         (env.plain, op.release_file_oplock 1)] = Except.ok s ∧
      0 ≤ s.g.exclusive_oplocks_open ∧ 0 ≤ s.g.level_II_oplocks_open ∧
      s.g.exclusive_oplocks_open ≤ (5 : Nat) ∧ s.g.level_II_oplocks_open ≤ (5 : Nat) :=
  counters_never_negative samba_3_4_1 samba_3_4_1_wf two_handles _ (by decide) (by decide)
    (by decide)

/-- C7 as stated fails at the end of the counter range: the counters are
`int32`.  Downgrading an EXCLUSIVE handle while `level_II_oplocks_open` is
2147483647 leaves it at -2147483648, not one higher, and the sum of the two
counters is not what it was. -/
theorem downgrade_file_oplock_counterexample :
    samba_3_4_1.EXCLUSIVE_OPLOCK_TYPE (files_struct.sample 7 1 1).oplock_type = true ∧
    downgrade_file_oplock samba_3_4_1 env.plain
        { globals.zero with exclusive_oplocks_open := 1, level_II_oplocks_open := 2147483647 }
        (files_struct.sample 7 1 1)
      = ({ globals.zero with exclusive_oplocks_open := 0,
                             level_II_oplocks_open := -2147483648 },
         files_struct.sample 7 1 4) ∧
    (-2147483648 : Int) ≠ 2147483647 + 1 ∧
    (0 : Int) + -2147483648 ≠ 1 + 2147483647 := by
  refine ⟨rfl, rfl, by decide, by decide⟩

/-- C7 (amended): on a handle in an EXCLUSIVE-family state
`downgrade_file_oplock` leaves the handle in LEVEL_II with
`sent_oplock_break` NO_BREAK_SENT; `exclusive_oplocks_open` is lower by
exactly 1 unless it was INT32_MIN, where it wraps to INT32_MAX, and
`level_II_oplocks_open` is higher by exactly 1 unless it was INT32_MAX,
where it wraps to INT32_MIN; when neither wraps their sum is unchanged.  On
any other handle the call changes neither the handle nor the globals. -/
theorem downgrade_file_oplock_post (K : smb_h) (E : env) (g : globals) (fsp : files_struct) :
    (K.EXCLUSIVE_OPLOCK_TYPE fsp.oplock_type = true →
      (downgrade_file_oplock K E g fsp).2.oplock_type = K.LEVEL_II_OPLOCK ∧
      (downgrade_file_oplock K E g fsp).2.sent_oplock_break = K.NO_BREAK_SENT ∧
      (downgrade_file_oplock K E g fsp).1.exclusive_oplocks_open
        = (if g.exclusive_oplocks_open = -2147483648 then 2147483647
           else g.exclusive_oplocks_open - 1) ∧
      (downgrade_file_oplock K E g fsp).1.level_II_oplocks_open
        = (if g.level_II_oplocks_open = 2147483647 then -2147483648
           else g.level_II_oplocks_open + 1) ∧
      (g.exclusive_oplocks_open ≠ -2147483648 → g.level_II_oplocks_open ≠ 2147483647 →
        (downgrade_file_oplock K E g fsp).1.exclusive_oplocks_open
            + (downgrade_file_oplock K E g fsp).1.level_II_oplocks_open
          = g.exclusive_oplocks_open + g.level_II_oplocks_open)) ∧
    (K.EXCLUSIVE_OPLOCK_TYPE fsp.oplock_type = false →
      downgrade_file_oplock K E g fsp = (g, fsp)) := by
  constructor
  · intro hX
    have e1 : (downgrade_file_oplock K E g fsp).1.exclusive_oplocks_open
        = int32_dec g.exclusive_oplocks_open := by
      cases hk : E.koplocks.isSome <;> simp [downgrade_file_oplock, hX, hk, globals.log]
    have e2 : (downgrade_file_oplock K E g fsp).1.level_II_oplocks_open
        = int32_inc g.level_II_oplocks_open := by
      cases hk : E.koplocks.isSome <;> simp [downgrade_file_oplock, hX, hk, globals.log]
    refine ⟨?_, ?_, ?_, ?_, ?_⟩
    · cases hk : E.koplocks.isSome <;> simp [downgrade_file_oplock, hX, hk, globals.log]
    · cases hk : E.koplocks.isSome <;> simp [downgrade_file_oplock, hX, hk, globals.log]
    · rw [e1]
      rfl
    · rw [e2]
      rfl
    · intro h1 h2
      rw [e1, e2, int32_dec_of_ne h1, int32_inc_of_ne h2]
      omega
  · intro hX
    simp [downgrade_file_oplock, hX]

/-- C7 (amended), exercised on an EXCLUSIVE handle counted once. -/
theorem downgrade_file_oplock_post_witness :
    (downgrade_file_oplock samba_3_4_1 env.plain
        { globals.zero with exclusive_oplocks_open := 1 }
        (files_struct.sample 7 1 1)).2.oplock_type = 4 ∧
    (downgrade_file_oplock samba_3_4_1 env.plain
        { globals.zero with exclusive_oplocks_open := 1 }
        (files_struct.sample 7 1 1)).1.exclusive_oplocks_open = 0 ∧
    (downgrade_file_oplock samba_3_4_1 env.plain
        { globals.zero with exclusive_oplocks_open := 1 }
        (files_struct.sample 7 1 1)).1.level_II_oplocks_open = 1 :=
  have h := (downgrade_file_oplock_post samba_3_4_1 env.plain
    { globals.zero with exclusive_oplocks_open := 1 } (files_struct.sample 7 1 1)).1 (by decide)
  ⟨h.1, h.2.2.1, h.2.2.2.1⟩

/-- C8 as stated fails at the end of the counter range: the counters are
`int32`.  Without a kernel backend, a LEVEL_II grant made while
`level_II_oplocks_open` is 2147483647 returns true and leaves the counter at
-2147483648, not one higher. -/
theorem set_file_oplock_no_kernel_counterexample :
    env.plain.koplocks = none ∧
    set_file_oplock samba_3_4_1 env.plain
        { globals.zero with level_II_oplocks_open := 2147483647 }
        (files_struct.sample 7 1 0) samba_3_4_1.LEVEL_II_OPLOCK
      = (true, { globals.zero with level_II_oplocks_open := -2147483648 },
          files_struct.sample 7 1 4) ∧
    (-2147483648 : Int) ≠ 2147483647 + 1 := by
  refine ⟨rfl, rfl, by decide⟩

/-- C8 (amended): when `koplocks` is absent, `set_file_oplock` returns true
for every handle and every requested type `t` and leaves the handle with
`oplock_type = t` and `sent_oplock_break` NO_BREAK_SENT; it moves
`level_II_oplocks_open` exactly when `t` is LEVEL_II and
`exclusive_oplocks_open` exactly when `t` is of the EXCLUSIVE family, so
that for FAKE_LEVEL_II and NONE neither counter moves; the counter moved
goes up by 1, except that from INT32_MAX it wraps to INT32_MIN; no
collaborator is called. -/
theorem set_file_oplock_no_kernel (K : smb_h) (hK : K.wf) (E : env) (hE : E.koplocks = none)
    (g : globals) (fsp : files_struct) (t : Nat) :
    (set_file_oplock K E g fsp t).1 = true ∧
    (set_file_oplock K E g fsp t).2.2.oplock_type = t ∧
    (set_file_oplock K E g fsp t).2.2.sent_oplock_break = K.NO_BREAK_SENT ∧
    (set_file_oplock K E g fsp t).2.1.level_II_oplocks_open
      = (if t = K.LEVEL_II_OPLOCK then
           (if g.level_II_oplocks_open = 2147483647 then -2147483648
            else g.level_II_oplocks_open + 1)
         else g.level_II_oplocks_open) ∧
    (set_file_oplock K E g fsp t).2.1.exclusive_oplocks_open
      = (if K.EXCLUSIVE_OPLOCK_TYPE t = true then
           (if g.exclusive_oplocks_open = 2147483647 then -2147483648
            else g.exclusive_oplocks_open + 1)
         else g.exclusive_oplocks_open) ∧
    (t = K.FAKE_LEVEL_II_OPLOCK ∨ t = K.NO_OPLOCK →
      (set_file_oplock K E g fsp t).2.1 = g) ∧
    (set_file_oplock K E g fsp t).2.1.trace = g.trace := by
  have hlack : E.koplocks_lacks K.KOPLOCKS_LEVEL2_SUPPORTED = false := by
    simp [env.koplocks_lacks, hE]
  have k1 : int32_inc g.level_II_oplocks_open
      = (if g.level_II_oplocks_open = 2147483647 then -2147483648
         else g.level_II_oplocks_open + 1) := rfl
  have k2 : int32_inc g.exclusive_oplocks_open
      = (if g.exclusive_oplocks_open = 2147483647 then -2147483648
         else g.exclusive_oplocks_open + 1) := rfl
  by_cases hL : t = K.LEVEL_II_OPLOCK
  · have hX : K.EXCLUSIVE_OPLOCK_TYPE t = false := by rw [hL]; exact hK.excl_level2
    have h1 : t ≠ K.FAKE_LEVEL_II_OPLOCK := by rw [hL]; exact hK.level2_ne_fake
    have h2 : t ≠ K.NO_OPLOCK := by rw [hL]; exact hK.none_ne_level2.symm
    simp [set_file_oplock, hlack, hE, hL, hX, hK.excl_level2, hK.level2_ne_fake,
      hK.none_ne_level2.symm, k1]
  · cases hX : K.EXCLUSIVE_OPLOCK_TYPE t
    · simp [set_file_oplock, hlack, hE, hL, hX]
    · have h1 : t ≠ K.FAKE_LEVEL_II_OPLOCK := by
        intro h; rw [h, hK.excl_fake] at hX; exact Bool.false_ne_true hX
      have h2 : t ≠ K.NO_OPLOCK := by
        intro h; rw [h, hK.excl_none] at hX; exact Bool.false_ne_true hX
      simp [set_file_oplock, hlack, hE, hL, hX, h1, h2, k2]

/-- C8 (amended), exercised: LEVEL_II granted to a handle in NONE without a
kernel backend. -/
theorem set_file_oplock_no_kernel_witness :
    env.plain.koplocks = none ∧
    set_file_oplock samba_3_4_1 env.plain globals.zero (files_struct.sample 7 1 0) 4
      = (true, { globals.zero with level_II_oplocks_open := 1 }, files_struct.sample 7 1 4) ∧
    (set_file_oplock samba_3_4_1 env.plain globals.zero (files_struct.sample 7 1 0) 4).1 = true :=
  ⟨rfl, rfl,
   (set_file_oplock_no_kernel samba_3_4_1 samba_3_4_1_wf env.plain rfl globals.zero
      (files_struct.sample 7 1 0) 4).1⟩

/-- C9 as stated fails: the level-II test of `set_file_oplock` reads the
handle's current `oplock_type`, not the requested type.  With a kernel
backend whose flags lack KOPLOCKS_LEVEL2_SUPPORTED, a LEVEL_II request for a
handle in NONE returns true, the handle becomes LEVEL_II and
`level_II_oplocks_open` goes from 0 to 1. -/
theorem level2_refusal_counterexample :
    (files_struct.sample 7 1 0).oplock_type = samba_3_4_1.NO_OPLOCK ∧
    (env.with_kernel 0).koplocks.isSome = true ∧
    (env.with_kernel 0).koplocks_lacks samba_3_4_1.KOPLOCKS_LEVEL2_SUPPORTED = true ∧
    set_file_oplock samba_3_4_1 (env.with_kernel 0) globals.zero (files_struct.sample 7 1 0)
        samba_3_4_1.LEVEL_II_OPLOCK
      = (true, { globals.zero with level_II_oplocks_open := 1 },
          files_struct.sample 7 1 samba_3_4_1.LEVEL_II_OPLOCK) := by
  decide

/-- C9 (amended): the refusal depends on the handle's current state.  With
a kernel backend whose flags lack KOPLOCKS_LEVEL2_SUPPORTED, for a handle
whose `oplock_type` is LEVEL_II `set_file_oplock` returns false for every
requested type and leaves the handle and the globals (both counters
included) exactly as they were; for a handle in NONE it grants the requested
type, LEVEL_II included, without asking the backend. -/
theorem level2_refusal_by_handle_state (K : smb_h) (hK : K.wf) (E : env)
    (hk : E.koplocks_lacks K.KOPLOCKS_LEVEL2_SUPPORTED = true) (g : globals)
    (fsp : files_struct) (t : Nat) :
    (fsp.oplock_type = K.LEVEL_II_OPLOCK → set_file_oplock K E g fsp t = (false, g, fsp)) ∧
    (fsp.oplock_type = K.NO_OPLOCK →
      (set_file_oplock K E g fsp t).1 = true ∧
      (set_file_oplock K E g fsp t).2.2.oplock_type = t ∧
      (set_file_oplock K E g fsp t).2.1.trace = g.trace) := by
  constructor
  · intro hL
    simp [set_file_oplock, hL, hk]
  · intro hN
    have hL : fsp.oplock_type ≠ K.LEVEL_II_OPLOCK := by rw [hN]; exact hK.none_ne_level2
    by_cases ht : t = K.LEVEL_II_OPLOCK
    · simp [set_file_oplock, hN, ht, hK.none_ne_level2]
    · cases hX : K.EXCLUSIVE_OPLOCK_TYPE t <;>
        simp [set_file_oplock, hN, ht, hX, hK.none_ne_level2]

/-- C9 (amended), exercised: a handle already in LEVEL_II is refused. -/
theorem level2_refusal_by_handle_state_witness :
    (env.with_kernel 0).koplocks_lacks samba_3_4_1.KOPLOCKS_LEVEL2_SUPPORTED = true ∧
    set_file_oplock samba_3_4_1 (env.with_kernel 0) globals.zero (files_struct.sample 7 1 4) 4
      = (false, globals.zero, files_struct.sample 7 1 4) :=
  ⟨by decide,
   (level2_refusal_by_handle_state samba_3_4_1 samba_3_4_1_wf (env.with_kernel 0) (by decide)
      globals.zero (files_struct.sample 7 1 4) 4).1 (by decide)⟩

/-- C10 (break request for a closed or already-broken handle): for every
well-formed break request whose (file identity, share_file_id) names no open
handle, or a handle in NONE, `process_oplock_break_message` returns after one
call only, the send of MSG_SMB_BREAK_RESPONSE to the sender with the received
payload byte for byte: nothing goes to the client and no handle, counter,
pending list or timer changes.  Delivering the same message again does the
same again: two identical replies, the state otherwise as it was. -/
theorem break_request_for_closed_handle (K : smb_h) (E : env) (s : smbd) (src : server_id)
    (buf : List Nat) (hlen : buf.length = MSG_SMB_SHARE_MODE_ENTRY_SIZE K.CLUSTER_SUPPORT)
    (hnone :
      file_find_dif s.Files
          (message_to_share_mode_entry K.CLUSTER_SUPPORT share_mode_entry.uninit buf).id
          (message_to_share_mode_entry K.CLUSTER_SUPPORT share_mode_entry.uninit buf).share_file_id
        = none ∨
      ∃ (i : Nat) (fsp : files_struct),
        file_find_dif s.Files
            (message_to_share_mode_entry K.CLUSTER_SUPPORT share_mode_entry.uninit buf).id
            (message_to_share_mode_entry K.CLUSTER_SUPPORT share_mode_entry.uninit buf).share_file_id
          = some i ∧
        s.Files[i]? = some fsp ∧ fsp.oplock_type = K.NO_OPLOCK) :
    process_oplock_break_message K E s src ⟨some buf, buf.length⟩
      = Except.ok { s with g := { s.g with trace :=
          s.g.trace ++ [event.messaging_send_buf src MSG_SMB_BREAK_RESPONSE buf] } } ∧
    process_oplock_break_message K E
        { s with g := { s.g with trace :=
          s.g.trace ++ [event.messaging_send_buf src MSG_SMB_BREAK_RESPONSE buf] } }
        src ⟨some buf, buf.length⟩
      = Except.ok { s with g := { s.g with trace :=
          s.g.trace ++ [event.messaging_send_buf src MSG_SMB_BREAK_RESPONSE buf,
                        event.messaging_send_buf src MSG_SMB_BREAK_RESPONSE buf] } } := by
  have hib : initial_break_processing K s.Files
        (message_to_share_mode_entry K.CLUSTER_SUPPORT share_mode_entry.uninit buf).id
        (message_to_share_mode_entry K.CLUSTER_SUPPORT share_mode_entry.uninit buf).share_file_id
      = none := by
    rcases hnone with h | ⟨i, fsp, h1, h2, h3⟩
    · simp [initial_break_processing, h]
    · simp [initial_break_processing, h1, h2, h3]
  have htake : buf.take (MSG_SMB_SHARE_MODE_ENTRY_SIZE K.CLUSTER_SUPPORT) = buf := by
    rw [← hlen]; exact List.take_length _
  constructor
  · simp [process_oplock_break_message, hlen, hib, htake, globals.log]
  · simp [process_oplock_break_message, hlen, hib, htake, globals.log]

/-- C10, exercised: the request names a handle that is open but in NONE. -/
theorem break_request_for_closed_handle_witness :
    process_oplock_break_message samba_3_4_1 env.plain two_handles ⟨4242, 0⟩
        ⟨some sample_request, sample_request.length⟩
      = Except.ok { two_handles with g := { two_handles.g with trace :=
          two_handles.g.trace ++
            [event.messaging_send_buf ⟨4242, 0⟩ MSG_SMB_BREAK_RESPONSE sample_request] } } :=
  (break_request_for_closed_handle samba_3_4_1 env.plain two_handles ⟨4242, 0⟩ sample_request
    (by decide) (Or.inr ⟨0, files_struct.sample 7 1 0, by decide, by decide, by decide⟩)).1

/-! ## Timeout, contention and break handling -/

/-- C11 as stated fails: the timeout handler releases the oplock through
`release_file_oplock`, which takes an EXCLUSIVE-family handle to
FAKE_LEVEL_II.  An EXCLUSIVE handle with LEVEL_II_BREAK_SENT and an armed
timer (the state `process_oplock_break_message` leaves it in) is in
FAKE_LEVEL_II, not NONE, after `oplock_timeout_handler`. -/
theorem timeout_state_counterexample :
    breaking_handle.sent_oplock_break = samba_3_4_1.LEVEL_II_BREAK_SENT ∧
    breaking_handle.oplock_timeout = some ⟨30, 0⟩ ∧
    ∃ (g1 : globals) (fsp1 : files_struct),
      oplock_timeout_handler samba_3_4_1 env.plain globals.one_exclusive breaking_handle
        = Except.ok (g1, fsp1) ∧
      fsp1.oplock_type = samba_3_4_1.FAKE_LEVEL_II_OPLOCK ∧
      fsp1.oplock_type ≠ samba_3_4_1.NO_OPLOCK :=
  ⟨rfl, rfl, _, _, rfl, rfl, by decide⟩

/-- C11 (amended): when the registry lock is obtained (the counters
counting the handle), after `oplock_timeout_handler` the handle is in NONE
if it was in LEVEL_II, FAKE_LEVEL_II or NONE, and in FAKE_LEVEL_II if it was
in an EXCLUSIVE-family state; its break marker is NO_BREAK_SENT and its
timer is null.  When the registry lock is not obtained the handler returns
with the oplock state, the break marker and both counters left as they were,
and the timer null. -/
theorem timeout_releases_handle (K : smb_h) (hK : K.wf) (E : env) (g : globals)
    (fsp : files_struct) :
    (∀ lck : share_mode_lock, E.get_share_mode_lock fsp.file_id = some lck →
      counted K g fsp →
      ∃ (g1 : globals) (fsp1 : files_struct),
        oplock_timeout_handler K E g fsp = Except.ok (g1, fsp1) ∧
        (K.EXCLUSIVE_OPLOCK_TYPE fsp.oplock_type = false → fsp1.oplock_type = K.NO_OPLOCK) ∧
        (K.EXCLUSIVE_OPLOCK_TYPE fsp.oplock_type = true →
          fsp1.oplock_type = K.FAKE_LEVEL_II_OPLOCK) ∧
        fsp1.sent_oplock_break = K.NO_BREAK_SENT ∧ fsp1.oplock_timeout = none) ∧
    (E.get_share_mode_lock fsp.file_id = none →
      ∃ (g1 : globals) (fsp1 : files_struct),
        oplock_timeout_handler K E g fsp = Except.ok (g1, fsp1) ∧
        fsp1.oplock_type = fsp.oplock_type ∧
        fsp1.sent_oplock_break = fsp.sent_oplock_break ∧
        fsp1.oplock_timeout = none ∧
        g1.exclusive_oplocks_open = g.exclusive_oplocks_open ∧
        g1.level_II_oplocks_open = g.level_II_oplocks_open) := by
  constructor
  · intro lck hlock hc
    rw [oplock_timeout_handler_locked hK E g fsp lck hlock hc]
    have hf := reply_to_oplock_break_requests_frame K E
      { exclusive_oplocks_open :=
          g.exclusive_oplocks_open - ind (K.EXCLUSIVE_OPLOCK_TYPE fsp.oplock_type)
        level_II_oplocks_open :=
          g.level_II_oplocks_open - ind (decide (fsp.oplock_type = K.LEVEL_II_OPLOCK))
        global_client_failed_oplock_break := true
        trace := g.trace ++
          [event.get_share_mode_lock fsp.file_id,
           event.remove_share_oplock fsp.file_id fsp.gen_id] ++
          release_events K E fsp ++ [event.free_share_mode_lock fsp.file_id] }
      (released K fsp)
    refine ⟨_, _, rfl, ?_, ?_, hf.2.1, reply_to_oplock_break_requests_timer K E _ _ rfl⟩
    · intro hX
      exact hf.1.trans (by simp [released, hX])
    · intro hX
      exact hf.1.trans (by simp [released, hX])
  · intro hlock
    rw [oplock_timeout_handler_unlocked K E g fsp hlock]
    have hf := reply_to_oplock_break_requests_frame K E
      { g with global_client_failed_oplock_break := true } { fsp with oplock_timeout := none }
    exact ⟨_, _, rfl, hf.1, hf.2.1, reply_to_oplock_break_requests_timer K E _ _ rfl,
      hf.2.2.1, hf.2.2.2⟩

/-- C11 (amended), exercised on the EXCLUSIVE handle with
LEVEL_II_BREAK_SENT, an armed timer and one waiting requester: with the
registry lock the handler leaves it in FAKE_LEVEL_II with marker
NO_BREAK_SENT and no timer; without the lock it stays EXCLUSIVE with its
marker, and only the timer is gone. -/
theorem timeout_releases_handle_witness :
    breaking_handle.sent_oplock_break = samba_3_4_1.LEVEL_II_BREAK_SENT ∧
    breaking_handle.oplock_timeout = some ⟨30, 0⟩ ∧
    breaking_handle.pending_break_messages = [sample_entry] ∧
    (∃ (g1 : globals) (fsp1 : files_struct),
      oplock_timeout_handler samba_3_4_1 env.plain globals.one_exclusive breaking_handle
        = Except.ok (g1, fsp1) ∧
      fsp1.oplock_type = samba_3_4_1.FAKE_LEVEL_II_OPLOCK ∧
      fsp1.sent_oplock_break = samba_3_4_1.NO_BREAK_SENT ∧ fsp1.oplock_timeout = none) ∧
    (∃ (g1 : globals) (fsp1 : files_struct),
      oplock_timeout_handler samba_3_4_1 env.no_lock globals.one_exclusive breaking_handle
        = Except.ok (g1, fsp1) ∧
      fsp1.oplock_type = EXCLUSIVE_OPLOCK ∧
      fsp1.sent_oplock_break = samba_3_4_1.LEVEL_II_BREAK_SENT ∧
      fsp1.oplock_timeout = none ∧
      g1.exclusive_oplocks_open = 1 ∧ g1.level_II_oplocks_open = 0) := by
  refine ⟨rfl, rfl, rfl, ?_, ?_⟩
  · obtain ⟨g1, fsp1, h, -, hx, hs, ht⟩ :=
      (timeout_releases_handle samba_3_4_1 samba_3_4_1_wf env.plain globals.one_exclusive
        breaking_handle).1 ⟨[]⟩ rfl (by decide)
    exact ⟨g1, fsp1, h, hx (by decide), hs, ht⟩
  · obtain ⟨g1, fsp1, h, ho, hs, ht, hx, hl⟩ :=
      (timeout_releases_handle samba_3_4_1 samba_3_4_1_wf env.no_lock globals.one_exclusive
        breaking_handle).2 rfl
    exact ⟨g1, fsp1, h, ho, hs, ht, hx, hl⟩

/-- C12 as stated fails: with a kernel backend that has
KOPLOCKS_OPLOCK_BROKEN_NOTIFICATION, `reply_to_oplock_break_requests`
returns at once, so after the timeout handler no break response has been
sent for the waiting requester. -/
theorem timeout_flush_counterexample :
    breaking_handle.pending_break_messages = [sample_entry] ∧
    (env.with_kernel 8).koplocks_has samba_3_4_1.KOPLOCKS_OPLOCK_BROKEN_NOTIFICATION = true ∧
    ∃ (g1 : globals) (fsp1 : files_struct),
      oplock_timeout_handler samba_3_4_1 (env.with_kernel 8) globals.one_exclusive
        breaking_handle = Except.ok (g1, fsp1) ∧
      bus_sends g1.trace = [] ∧ fsp1.pending_break_messages = [sample_entry] :=
  ⟨rfl, by decide, _, _, rfl, by decide, rfl⟩

/-- C12 (amended): after `oplock_timeout_handler` the timer of the handle
is null; unless the kernel backend has KOPLOCKS_OPLOCK_BROKEN_NOTIFICATION,
exactly one MSG_SMB_BREAK_RESPONSE has been sent for each pending entry, in
list order, the i-th to `ei.pid` with payload
`share_mode_entry_to_message(ei)`, and the pending list is empty; with that
flag no break response is sent. -/
theorem timeout_flushes_waiters (K : smb_h) (hK : K.wf) (E : env) (g : globals)
    (fsp : files_struct) (hc : counted K g fsp) :
    ∃ (g1 : globals) (fsp1 : files_struct),
      oplock_timeout_handler K E g fsp = Except.ok (g1, fsp1) ∧
      fsp1.oplock_timeout = none ∧
      (E.koplocks_has K.KOPLOCKS_OPLOCK_BROKEN_NOTIFICATION = false →
        bus_sends g1.trace
          = bus_sends g.trace ++ fsp.pending_break_messages.map (break_response_for K) ∧
        fsp1.pending_break_messages = []) ∧
      (E.koplocks_has K.KOPLOCKS_OPLOCK_BROKEN_NOTIFICATION = true →
        bus_sends g1.trace = bus_sends g.trace) := by
  have hq := release_events_quiet K E fsp
  cases hlock : E.get_share_mode_lock fsp.file_id with
  | none =>
    rw [oplock_timeout_handler_unlocked K E g fsp hlock]
    have hs := reply_to_oplock_break_requests_sends K E
      { g with global_client_failed_oplock_break := true } { fsp with oplock_timeout := none }
    exact ⟨_, _, rfl, reply_to_oplock_break_requests_timer K E _ _ rfl, hs.1, hs.2⟩
  | some lck =>
    rw [oplock_timeout_handler_locked hK E g fsp lck hlock hc]
    have hs := reply_to_oplock_break_requests_sends K E
      { exclusive_oplocks_open :=
          g.exclusive_oplocks_open - ind (K.EXCLUSIVE_OPLOCK_TYPE fsp.oplock_type)
        level_II_oplocks_open :=
          g.level_II_oplocks_open - ind (decide (fsp.oplock_type = K.LEVEL_II_OPLOCK))
        global_client_failed_oplock_break := true
        trace := g.trace ++
          [event.get_share_mode_lock fsp.file_id,
           event.remove_share_oplock fsp.file_id fsp.gen_id] ++
          release_events K E fsp ++ [event.free_share_mode_lock fsp.file_id] }
      (released K fsp)
    have ht : bus_sends (g.trace ++
          [event.get_share_mode_lock fsp.file_id,
           event.remove_share_oplock fsp.file_id fsp.gen_id] ++
          release_events K E fsp ++ [event.free_share_mode_lock fsp.file_id])
        = bus_sends g.trace := by
      simp only [bus_sends_append, hq.1]
      simp [bus_sends, event.is_bus_send]
    refine ⟨_, _, rfl, reply_to_oplock_break_requests_timer K E _ _ rfl, ?_, ?_⟩
    · intro hb
      have h1 := hs.1 hb
      rw [ht] at h1
      exact h1
    · intro hb
      have h1 := hs.2 hb
      rw [ht] at h1
      exact h1

/-- C12 (amended), exercised: the one waiting requester gets its response. -/
theorem timeout_flushes_waiters_witness :
    ∃ (g1 : globals) (fsp1 : files_struct),
      oplock_timeout_handler samba_3_4_1 env.plain globals.one_exclusive breaking_handle
        = Except.ok (g1, fsp1) ∧
      bus_sends g1.trace = [break_response_for samba_3_4_1 sample_entry] ∧
      fsp1.pending_break_messages = [] ∧ fsp1.oplock_timeout = none := by
  obtain ⟨g1, fsp1, h, ht, hs, -⟩ := timeout_flushes_waiters samba_3_4_1 samba_3_4_1_wf env.plain
    globals.one_exclusive breaking_handle (by decide)
  exact ⟨g1, fsp1, h, (hs (by decide)).1, (hs (by decide)).2, ht⟩

/-- C17 as stated fails for a LEVEL_II handle when the registry lock is not
obtained: `remove_oplock` returns before the release, the handle stays
LEVEL_II, and the second call sends a second break packet to the client. -/
theorem async_break_twice_counterexample :
    (files_struct.sample 7 1 4).oplock_type = samba_3_4_1.LEVEL_II_OPLOCK ∧
    ∃ (g1 g2 : globals) (fsp1 fsp2 : files_struct),
      break_level2_to_none_async samba_3_4_1 env.no_lock (globals.level2 1)
        (files_struct.sample 7 1 4) = Except.ok (g1, fsp1) ∧
      break_level2_to_none_async samba_3_4_1 env.no_lock g1 fsp1 = Except.ok (g2, fsp2) ∧
      fsp1.oplock_type = samba_3_4_1.LEVEL_II_OPLOCK ∧
      (client_sends g1.trace).length = 1 ∧ (client_sends g2.trace).length = 2 :=
  ⟨rfl, _, _, _, _, rfl, rfl, rfl, by decide, by decide⟩

/-- C17 (amended): `break_level2_to_none_async` on a handle in NONE returns
the globals and the handle as they were (nothing is sent, no registry entry
touched); and for a handle in LEVEL_II or FAKE_LEVEL_II, when the registry
lock is obtained, the break packet is allocated and sent and the counters
count the handle, the first call leaves the handle in NONE and a second
call, whatever its environment, returns the same state with nothing added
to the trace. -/
theorem break_level2_to_none_async_idempotent (K : smb_h) (hK : K.wf) (E E2 : env)
    (g : globals) (fsp : files_struct) (lck : share_mode_lock)
    (hL : fsp.oplock_type = K.LEVEL_II_OPLOCK ∨ fsp.oplock_type = K.FAKE_LEVEL_II_OPLOCK)
    (hlock : E.get_share_mode_lock fsp.file_id = some lck)
    (ht : E.talloc_ok = true) (hs : E.srv_send_smb_ok = true) (hc : counted K g fsp) :
    (∀ (g0 : globals) (f0 : files_struct), f0.oplock_type = K.NO_OPLOCK →
      break_level2_to_none_async K E2 g0 f0 = Except.ok (g0, f0)) ∧
    ∃ (g1 : globals) (fsp1 : files_struct),
      break_level2_to_none_async K E g fsp = Except.ok (g1, fsp1) ∧
      fsp1.oplock_type = K.NO_OPLOCK ∧
      break_level2_to_none_async K E2 g1 fsp1 = Except.ok (g1, fsp1) := by
  refine ⟨fun g0 f0 h => break_level2_to_none_async_none K E2 g0 f0 h, ?_⟩
  rcases hL with hL | hF
  · exact ⟨_, _, break_level2_to_none_async_level2 hK E g fsp lck hL hlock ht hs hc, rfl,
      break_level2_to_none_async_none K E2 _ _ rfl⟩
  · exact ⟨_, _, break_level2_to_none_async_fake hK E g fsp lck hF hlock hc, rfl,
      break_level2_to_none_async_none K E2 _ _ rfl⟩

/-- C17 (amended), exercised on a LEVEL_II handle counted once; the second
call runs without registry lock. -/
theorem break_level2_to_none_async_idempotent_witness :
    ∃ (g1 : globals) (fsp1 : files_struct),
      break_level2_to_none_async samba_3_4_1 env.plain (globals.level2 1)
        (files_struct.sample 7 1 4) = Except.ok (g1, fsp1) ∧
      fsp1.oplock_type = samba_3_4_1.NO_OPLOCK ∧
      break_level2_to_none_async samba_3_4_1 env.no_lock g1 fsp1 = Except.ok (g1, fsp1) :=
  (break_level2_to_none_async_idempotent samba_3_4_1 samba_3_4_1_wf env.plain env.no_lock
    (globals.level2 1) (files_struct.sample 7 1 4) ⟨[]⟩ (Or.inl rfl) rfl rfl rfl
    (by decide)).2

/-- C18: each of the five message handlers, given a payload whose buffer is
null or whose length differs from the expected size
(MSG_SMB_SHARE_MODE_ENTRY_SIZE, or MSG_SMB_KERNEL_BREAK_SIZE for the kernel
break), returns normally with the process state as it was: nothing sent,
nothing scheduled, no handle, counter, pending list or timer changed. -/
theorem malformed_messages_discarded (K : smb_h) (E : env) (s : smbd) (src : server_id)
    (data : DATA_BLOB) :
    (data.data = none ∨ data.length ≠ MSG_SMB_SHARE_MODE_ENTRY_SIZE K.CLUSTER_SUPPORT →
      process_oplock_break_message K E s src data = Except.ok s ∧
      process_oplock_async_level2_break_message K E s data = Except.ok s ∧
      process_oplock_break_response K s data = s ∧
      process_open_retry_message K s data = s) ∧
    (data.data = none ∨ data.length ≠ MSG_SMB_KERNEL_BREAK_SIZE →
      process_kernel_oplock_break K E s data = Except.ok s) := by
  constructor
  · intro h
    cases hd : data.data with
    | none =>
      simp [process_oplock_break_message, process_oplock_async_level2_break_message,
        process_oplock_break_response, process_open_retry_message, hd]
    | some buf =>
      have hl : data.length ≠ MSG_SMB_SHARE_MODE_ENTRY_SIZE K.CLUSTER_SUPPORT := by
        rcases h with h | h
        · rw [hd] at h; cases h
        · exact h
      simp [process_oplock_break_message, process_oplock_async_level2_break_message,
        process_oplock_break_response, process_open_retry_message, hd, hl]
  · intro h
    cases hd : data.data with
    | none => simp [process_kernel_oplock_break, hd]
    | some buf =>
      have hl : data.length ≠ MSG_SMB_KERNEL_BREAK_SIZE := by
        rcases h with h | h
        · rw [hd] at h; cases h
        · exact h
      simp [process_kernel_oplock_break, hd, hl]

/-- C18, exercised: a payload one byte short, and a null payload for the
kernel break, delivered to a process with two open handles. -/
theorem malformed_messages_discarded_witness :
    (process_oplock_break_message samba_3_4_1 env.plain two_handles ⟨4242, 0⟩ short_blob
        = Except.ok two_handles ∧
      process_oplock_async_level2_break_message samba_3_4_1 env.plain two_handles short_blob
        = Except.ok two_handles ∧
      process_oplock_break_response samba_3_4_1 two_handles short_blob = two_handles ∧
      process_open_retry_message samba_3_4_1 two_handles short_blob = two_handles) ∧
    process_kernel_oplock_break samba_3_4_1 env.plain two_handles ⟨none, 28⟩
      = Except.ok two_handles :=
  ⟨(malformed_messages_discarded samba_3_4_1 env.plain two_handles ⟨4242, 0⟩ short_blob).1
      (Or.inr (by decide)),
   (malformed_messages_discarded samba_3_4_1 env.plain two_handles ⟨4242, 0⟩ ⟨none, 28⟩).2
      (Or.inl rfl)⟩

/-- C20 as stated fails in its last but one clause: with a kernel backend
that has KOPLOCKS_TIMEOUT_NOTIFICATION, `add_oplock_timeout_handler` returns
at once, so after the break notice went to the client the handle has no
timer. -/
theorem break_request_timer_counterexample :
    (env.with_kernel 5).koplocks_has samba_3_4_1.KOPLOCKS_TIMEOUT_NOTIFICATION = true ∧
    ∃ (s1 : smbd) (fsp1 : files_struct),
      process_oplock_break_message samba_3_4_1 (env.with_kernel 5) one_exclusive_handle
        ⟨4242, 0⟩ sample_blob = Except.ok s1 ∧
      s1.Files[0]? = some fsp1 ∧
      (client_sends s1.g.trace).length = 1 ∧
      fsp1.sent_oplock_break = samba_3_4_1.LEVEL_II_BREAK_SENT ∧
      fsp1.oplock_timeout = none :=
  ⟨by decide, _, _, rfl, rfl, by decide, rfl, rfl⟩

/-- C20 (amended): for a well-formed break request naming a handle that is
found with a non-NONE oplock, no break in flight and not in the
already-downgraded case, when the break packet is allocated and sent,
`process_oplock_break_message` returns normally having sent exactly one
break notice to the client, of level LEVEL_II iff the client has
CAP_LEVEL_II_OPLOCKS, the request lacks FORCE_OPLOCK_BREAK_TO_NONE, no
kernel backend lacks KOPLOCKS_LEVEL2_SUPPORTED and level-II oplocks are
enabled for the share, else of level NONE; the marker is
LEVEL_II_BREAK_SENT or BREAK_TO_NONE_SENT accordingly; the decoded entry
with the sender as pid is the last pending entry; no bus message is sent;
and the timer is armed with OPLOCK_BREAK_TIMEOUT unless the backend has
KOPLOCKS_TIMEOUT_NOTIFICATION (timer left as it was) or the timed event
cannot be added (timer null). -/
theorem break_request_bookkeeping (K : smb_h) (E : env) (s : smbd) (src : server_id)
    (data : DATA_BLOB) (buf : List Nat) (i : Nat) (fsp : files_struct)
    (hd : data.data = some buf)
    (hl : data.length = MSG_SMB_SHARE_MODE_ENTRY_SIZE K.CLUSTER_SUPPORT)
    (hi : initial_break_processing K s.Files (decoded K buf).id (decoded K buf).share_file_id
      = some (i, fsp))
    (hn : fsp.sent_oplock_break = K.NO_BREAK_SENT)
    (hx : (K.EXCLUSIVE_OPLOCK_TYPE (decoded K buf).op_type &&
      !K.EXCLUSIVE_OPLOCK_TYPE fsp.oplock_type) = false)
    (ht : E.talloc_ok = true) (hs : E.srv_send_smb_ok = true) :
    ∃ (s1 : smbd) (fsp1 : files_struct),
      process_oplock_break_message K E s src data = Except.ok s1 ∧
      s1.Files[i]? = some fsp1 ∧
      fsp.oplock_type ≠ K.NO_OPLOCK ∧
      (break_to_level2 K E (decoded K buf) fsp = true ↔
        (E.global_client_caps &&& K.CAP_LEVEL_II_OPLOCKS ≠ 0 ∧
         (decoded K buf).op_type &&& K.FORCE_OPLOCK_BREAK_TO_NONE = 0 ∧
         (∀ k, E.koplocks = some k → k.flags &&& K.KOPLOCKS_LEVEL2_SUPPORTED ≠ 0) ∧
         E.lp_level2_oplocks fsp.snum = true)) ∧
      client_sends s1.g.trace = client_sends s.g.trace ++
        [event.srv_send_smb
          { tid := fsp.cnum, fnum := fsp.fnum,
            cmd := if break_to_level2 K E (decoded K buf) fsp then K.OPLOCKLEVEL_II
                   else K.OPLOCKLEVEL_NONE } fsp.encrypted] ∧
      fsp1.sent_oplock_break =
        (if break_to_level2 K E (decoded K buf) fsp then K.LEVEL_II_BREAK_SENT
         else K.BREAK_TO_NONE_SENT) ∧
      fsp1.pending_break_messages
        = fsp.pending_break_messages ++ [{ decoded K buf with pid := src }] ∧
      fsp1.oplock_type = fsp.oplock_type ∧
      bus_sends s1.g.trace = bus_sends s.g.trace ∧
      fsp1.oplock_timeout =
        (if E.koplocks_has K.KOPLOCKS_TIMEOUT_NOTIFICATION then fsp.oplock_timeout
         else if E.event_add_timed_ok then some ⟨K.OPLOCK_BREAK_TIMEOUT, 0⟩ else none) := by
  have hf := initial_break_processing_some hi
  have hw := wait_events_quiet K E src
  have hp := break_packet_events_quiet E fsp
    (if break_to_level2 K E (decoded K buf) fsp then K.OPLOCKLEVEL_II else K.OPLOCKLEVEL_NONE)
  rw [process_oplock_break_message_break K E s src data buf i fsp hd hl hi hn hx ht hs,
    add_oplock_timeout_handler_eq]
  refine ⟨_, _, rfl, getElem?_set_self_of_some hf.1, hf.2, break_to_level2_iff K E _ fsp,
    ?_, rfl, rfl, rfl, ?_, rfl⟩
  · simp only [client_sends_append, hw.2.1, hp.2.2, List.append_nil]
  · simp only [bus_sends_append, hw.1, hp.1, List.append_nil]

/-- C20 (amended), exercised: the request of process 4242 for the EXCLUSIVE
handle of file 7, without kernel backend. -/
theorem break_request_bookkeeping_witness :
    ∃ (s1 : smbd) (fsp1 : files_struct),
      process_oplock_break_message samba_3_4_1 env.plain one_exclusive_handle ⟨4242, 0⟩
        sample_blob = Except.ok s1 ∧
      s1.Files[0]? = some fsp1 ∧
      client_sends s1.g.trace = [event.srv_send_smb ⟨1, 1, 1⟩ false] ∧
      fsp1.sent_oplock_break = samba_3_4_1.LEVEL_II_BREAK_SENT ∧
      fsp1.pending_break_messages = [sample_entry] ∧
      fsp1.oplock_timeout = some ⟨30, 0⟩ := by
  obtain ⟨s1, fsp1, h, hf, -, -, hc, hsent, hpend, -, -, htimer⟩ :=
    break_request_bookkeeping samba_3_4_1 env.plain one_exclusive_handle ⟨4242, 0⟩ sample_blob
      sample_request 0 (files_struct.sample 7 1 EXCLUSIVE_OPLOCK) rfl rfl rfl rfl rfl rfl rfl
  exact ⟨s1, fsp1, h, hf, hc, hsent, hpend, htimer⟩

/-- C15 as stated fails when the kernel backend notifies broken oplocks
itself (KOPLOCKS_OPLOCK_BROKEN_NOTIFICATION, here together with
KOPLOCKS_LEVEL2_SUPPORTED so that a break to level II is offered):
`reply_to_oplock_break_requests` returns at once, the requester stays in
the pending list, the timer stays armed and no break response is sent. -/
theorem exclusive_to_level2_counterexample :
    break_to_level2 samba_3_4_1 env.kernel_notifies sample_entry
      (files_struct.sample 7 1 EXCLUSIVE_OPLOCK) = true ∧
    ∃ (s3 : smbd) (A3 : files_struct),
      run samba_3_4_1 one_exclusive_handle
        [(env.kernel_notifies, op.process_oplock_break_message ⟨4242, 0⟩ sample_blob),
         (env.kernel_notifies, op.downgrade_oplock 0),
         (env.kernel_notifies, op.reply_to_oplock_break_requests 0)] = Except.ok s3 ∧
      s3.Files[0]? = some A3 ∧
      A3.oplock_type = samba_3_4_1.LEVEL_II_OPLOCK ∧
      A3.pending_break_messages = [sample_entry] ∧
      A3.oplock_timeout = some ⟨30, 0⟩ ∧
      bus_sends s3.g.trace = [] :=
  ⟨by decide, _, _, rfl, rfl, rfl, rfl, rfl, by decide⟩

/-- C15 (amended): starting with handle A in an EXCLUSIVE-family state,
exclusive_oplocks_open = 1, level_II_oplocks_open = 0, no break in flight
(marker NO_BREAK_SENT, empty pending list) and level-II breaks permitted,
when the break packet is allocated and sent, the registry lock is obtained
by `downgrade_oplock` and no kernel backend with
KOPLOCKS_OPLOCK_BROKEN_NOTIFICATION is present at the replies, the sequence
`process_oplock_break_message` (request from B naming A), `downgrade_oplock`
(A), `reply_to_oplock_break_requests` (A) ends with A in LEVEL_II,
exclusive_oplocks_open = 0, level_II_oplocks_open = 1, marker NO_BREAK_SENT,
an empty pending list, no timer, exactly one MSG_SMB_BREAK_RESPONSE sent,
addressed to B and carrying the entry of the request, and exactly one
packet sent to the client, the break to level II. -/
theorem exclusive_to_level2_scenario (K : smb_h) (E1 E2 E3 : env) (s : smbd)
    (src : server_id) (data : DATA_BLOB) (buf : List Nat) (i : Nat) (A : files_struct)
    (lck : share_mode_lock)
    (hd : data.data = some buf)
    (hl : data.length = MSG_SMB_SHARE_MODE_ENTRY_SIZE K.CLUSTER_SUPPORT)
    (hi : initial_break_processing K s.Files (decoded K buf).id (decoded K buf).share_file_id
      = some (i, A))
    (hX : K.EXCLUSIVE_OPLOCK_TYPE A.oplock_type = true)
    (he : s.g.exclusive_oplocks_open = 1) (h2 : s.g.level_II_oplocks_open = 0)
    (hn : A.sent_oplock_break = K.NO_BREAK_SENT) (hp : A.pending_break_messages = [])
    (hb : break_to_level2 K E1 (decoded K buf) A = true)
    (ht : E1.talloc_ok = true) (hs : E1.srv_send_smb_ok = true)
    (hlock : E2.get_share_mode_lock A.file_id = some lck)
    (hk : E3.koplocks_has K.KOPLOCKS_OPLOCK_BROKEN_NOTIFICATION = false) :
    ∃ (s3 : smbd) (A3 : files_struct),
      run K s
        [(E1, op.process_oplock_break_message src data),
         (E2, op.downgrade_oplock i),
         (E3, op.reply_to_oplock_break_requests i)] = Except.ok s3 ∧
      s3.Files[i]? = some A3 ∧
      A3.oplock_type = K.LEVEL_II_OPLOCK ∧
      s3.g.exclusive_oplocks_open = 0 ∧ s3.g.level_II_oplocks_open = 1 ∧
      A3.sent_oplock_break = K.NO_BREAK_SENT ∧
      A3.pending_break_messages = [] ∧ A3.oplock_timeout = none ∧
      bus_sends s3.g.trace = bus_sends s.g.trace ++
        [event.messaging_send_buf src MSG_SMB_BREAK_RESPONSE
          (share_mode_entry_to_message K.CLUSTER_SUPPORT
            (List.replicate (MSG_SMB_SHARE_MODE_ENTRY_SIZE K.CLUSTER_SUPPORT) 0)
            { decoded K buf with pid := src })] ∧
      client_sends s3.g.trace = client_sends s.g.trace ++
        [event.srv_send_smb { tid := A.cnum, fnum := A.fnum, cmd := K.OPLOCKLEVEL_II }
          A.encrypted] := by
  obtain ⟨s1, A1, hs1, hA1, hid1, hty1, hpe1, hc1, hl1, hbus1, hcl1⟩ :=
    step_break_request K E1 s src data buf i A hd hl hi hn (by simp [hX]) ht hs
  obtain ⟨s2, A2, hs2, hA2, hty2, hse2, hpe2, hc2, hl2, hbus2, hcl2⟩ :=
    step_downgrade_oplock K E2 s1 i A1 lck hA1 (by rw [hid1]; exact hlock)
      (by rw [hty1]; exact hX)
  obtain ⟨s3, A3, hs3, hA3, hty3, hse3, hpe3, hti3, hc3, hl3, hbus3, hcl3⟩ :=
    step_reply_to_oplock_break_requests K E3 s2 i A2 hA2 hk
  refine ⟨s3, A3, ?_, hA3, hty3.trans hty2, ?_, ?_, hse3.trans hse2, hpe3, hti3, ?_, ?_⟩
  · rw [run_cons_ok hs1, run_cons_ok hs2, run_cons_ok hs3]
    rfl
  · rw [hc3, hc2, hc1, he]; rfl
  · rw [hl3, hl2, hl1, h2]; rfl
  · rw [hbus3, hbus2, hbus1, hpe2, hpe1, hp]
    rfl
  · rw [hcl3, hcl2, hcl1, hb, if_pos rfl]

/-- C15 (amended), exercised: process 4242 asks for the EXCLUSIVE handle of
file 7, no kernel backend. -/
theorem exclusive_to_level2_scenario_witness :
    ∃ (s3 : smbd) (A3 : files_struct),
      run samba_3_4_1 one_exclusive_handle
        [(env.plain, op.process_oplock_break_message ⟨4242, 0⟩ sample_blob),
         (env.plain, op.downgrade_oplock 0),
         (env.plain, op.reply_to_oplock_break_requests 0)] = Except.ok s3 ∧
      s3.Files[0]? = some A3 ∧
      A3.oplock_type = samba_3_4_1.LEVEL_II_OPLOCK ∧
      s3.g.exclusive_oplocks_open = 0 ∧ s3.g.level_II_oplocks_open = 1 ∧
      A3.pending_break_messages = [] ∧
      bus_sends s3.g.trace = [break_response_for samba_3_4_1 sample_entry] := by
  obtain ⟨s3, A3, h, hA, hty, hc, hl, -, hpe, -, hbus, -⟩ :=
    exclusive_to_level2_scenario samba_3_4_1 env.plain env.plain env.plain one_exclusive_handle
      ⟨4242, 0⟩ sample_blob sample_request 0 (files_struct.sample 7 1 EXCLUSIVE_OPLOCK) ⟨[]⟩
      rfl rfl rfl rfl rfl rfl rfl rfl rfl rfl rfl rfl rfl
  exact ⟨s3, A3, h, hA, hty, hc, hl, hpe, hbus⟩

/-- C14 fails in the code: the loop of `contend_level2_oplocks_begin_default`
calls `break_level2_to_none_async` on the requesting handle for every entry
of its own process, never on the handle the entry describes.  With two
LEVEL_II handles A = (file 7, 1) and B = (file 7, 2) of this process and
their two valid registry entries, contention begun by A returns with A in
NONE, but B still in LEVEL_II, one registry write only (for A), and no
message for B. -/
theorem own_process_entry_not_cleared :
    (env.registry [own_entry 1, own_entry 2]).is_valid_share_mode_entry (own_entry 2) = true ∧
    procid_is_me samba_3_4_1 (env.registry [own_entry 1, own_entry 2]) (own_entry 2).pid = true ∧
    (own_entry 2).op_type = samba_3_4_1.LEVEL_II_OPLOCK ∧
    file_find_dif two_level2_handles.Files (own_entry 2).id (own_entry 2).share_file_id
      = some 1 ∧
    ∃ (s1 : smbd) (A B : files_struct),
      step samba_3_4_1 (env.registry [own_entry 1, own_entry 2]) two_level2_handles
        (op.contend_level2_oplocks_begin 0 0) = Except.ok s1 ∧
      s1.Files[0]? = some A ∧ s1.Files[1]? = some B ∧
      A.oplock_type = samba_3_4_1.NO_OPLOCK ∧
      B.oplock_type = samba_3_4_1.LEVEL_II_OPLOCK ∧
      registry_writes s1.g.trace = [event.remove_share_oplock ⟨List.replicate 24 7⟩ 1] ∧
      bus_sends s1.g.trace = [] ∧
      s1.g.level_II_oplocks_open = 1 :=
  ⟨rfl, by decide, rfl, by decide, _, _, _, rfl, rfl, rfl, rfl, rfl, by decide, by decide, rfl⟩

/-- C19: when the requesting handle holds a level-II-type oplock, the
registry lock is obtained and the entries of the file contain a valid entry
of the EXCLUSIVE family, `contend_level2_oplocks_begin_default` does not
return normally: it ends in a fatal exit; and whenever the inline breaks of
the entries before it succeed (requester in LEVEL_II or FAKE_LEVEL_II and
counted, break packet allocated and sent), that exit is `abort`. -/
theorem two_exclusive_holders_abort (K : smb_h) (hK : K.wf) (E : env) (g : globals)
    (fsp : files_struct) (lck : share_mode_lock) (x : share_mode_entry)
    (hty : K.LEVEL_II_OPLOCK_TYPE fsp.oplock_type = true)
    (hlock : E.get_share_mode_lock fsp.file_id = some lck)
    (hx : x ∈ lck.share_modes) (hv : E.is_valid_share_mode_entry x = true)
    (hX : K.EXCLUSIVE_OPLOCK_TYPE x.op_type = true) :
    (∃ f, contend_level2_oplocks_begin_default K E g fsp = Except.error f) ∧
    ((fsp.oplock_type = K.LEVEL_II_OPLOCK ∨ fsp.oplock_type = K.FAKE_LEVEL_II_OPLOCK) →
      E.talloc_ok = true → E.srv_send_smb_ok = true → counted K g fsp →
      contend_level2_oplocks_begin_default K E g fsp = Except.error fatal.abort) := by
  constructor
  · obtain ⟨f, hf⟩ := contend_level2_loop_error hK E x hv hX lck.share_modes hx
      (g.log (event.get_share_mode_lock fsp.file_id)) fsp
    refine ⟨f, ?_⟩
    simp only [contend_level2_oplocks_begin_default, hty, Bool.not_true, Bool.false_eq_true,
      if_false, hlock, hf]
  · intro h2 ht hs hc
    have hf := contend_level2_loop_abort hK E x hv hX ht hs lck.share_modes hx
      (g.log (event.get_share_mode_lock fsp.file_id)) fsp lck (Or.inr h2) hlock
      (counted_of_counters hc rfl rfl)
    simp only [contend_level2_oplocks_begin_default, hty, Bool.not_true, Bool.false_eq_true,
      if_false, hlock, hf]

/-- C19, exercised: the requester's own LEVEL_II entry is followed by a
valid EXCLUSIVE entry of process 4242. -/
theorem two_exclusive_holders_abort_witness :
    contend_level2_oplocks_begin_default samba_3_4_1 (env.registry [own_entry 1, sample_entry])
      (globals.level2 1) (files_struct.sample 7 1 4) = Except.error fatal.abort :=
  (two_exclusive_holders_abort samba_3_4_1 samba_3_4_1_wf
    (env.registry [own_entry 1, sample_entry]) (globals.level2 1) (files_struct.sample 7 1 4)
    ⟨[own_entry 1, sample_entry]⟩ sample_entry (by decide) rfl (by decide) rfl (by decide)).2
    (Or.inl rfl) rfl rfl (by decide)

/-- C16 as stated fails: `process_kernel_oplock_break` sends the break to
the client, sets the marker to BREAK_TO_NONE_SENT and arms the timer, but
queues no requester.  From the initial state, granting EXCLUSIVE to handle
`(file 7, 1)` and then processing a kernel break for it leaves a marker
other than NO_BREAK_SENT with an empty pending list. -/
theorem break_in_flight_counterexample :
    smbd.initial samba_3_4_1 two_handles ∧
    ∃ (s1 : smbd) (f : files_struct),
      run samba_3_4_1 two_handles
        [(env.with_kernel 1, op.set_file_oplock 0 EXCLUSIVE_OPLOCK),
         (env.with_kernel 1, op.process_kernel_oplock_break kernel_blob)] = Except.ok s1 ∧
      s1.Files[0]? = some f ∧
      f.sent_oplock_break = samba_3_4_1.BREAK_TO_NONE_SENT ∧
      f.sent_oplock_break ≠ samba_3_4_1.NO_BREAK_SENT ∧
      f.pending_break_messages = [] :=
  ⟨by decide, _, _, rfl, rfl, rfl, by decide, rfl⟩

/-- C16 (amended): the break-in-flight invariant is kept along every
sequence of the module's operations and message handlers in which break
requests are processed while the backend's KOPLOCKS_TIMEOUT_NOTIFICATION
capability is `tn` and the timed event can be added,
`reply_to_oplock_break_requests` is called only for a handle whose marker
is NO_BREAK_SENT, the timeout handler obtains the registry lock, and every
kernel break message for which `process_kernel_oplock_break` sends a break
names a handle of the set `kb` (and is processed under the same two
conditions as a break request).  In every state so reached from a state
where it holds (in particular from one with no break in flight), a marker
other than NO_BREAK_SENT implies an armed timer unless `tn`, and, for every
handle outside `kb`, a non-empty pending list. -/
theorem break_in_flight_invariant (K : smb_h) (tn : Bool) (kb : file_id → Nat → Bool)
    (s s1 : smbd) (ops : List (env × op))
    (h0 : ∀ f ∈ s.Files, break_in_flight K tn kb f)
    (ha : breaks_allowed K tn kb s ops)
    (hr : run K s ops = Except.ok s1) :
    ∀ f ∈ s1.Files, f.sent_oplock_break ≠ K.NO_BREAK_SENT →
      (kb f.file_id f.gen_id = false → f.pending_break_messages ≠ []) ∧
      (tn = false → f.oplock_timeout.isSome = true) :=
  run_break_in_flight ops s s1 h0 ha hr

/-- C16 (amended), exercised on two EXCLUSIVE handles: process 4242 asks
for a break of `(file 7, 1)` and a kernel break then hits `(file 8, 2)`,
the only handle of `kb`.  Both handles end with a marker and an armed
timer; the request-broken handle keeps its waiting requester, the
kernel-broken handle has none. -/
theorem break_in_flight_invariant_witness :
    ∃ (s1 : smbd) (f0 f1 : files_struct),
      run samba_3_4_1 two_exclusive_files
        [(env.plain, op.process_oplock_break_message ⟨4242, 0⟩ sample_blob),
         (env.plain, op.process_kernel_oplock_break kernel_blob_other)] = Except.ok s1 ∧
      s1.Files = [f0, f1] ∧
      f0.sent_oplock_break ≠ samba_3_4_1.NO_BREAK_SENT ∧
      f0.pending_break_messages ≠ [] ∧ f0.oplock_timeout.isSome = true ∧
      f1.sent_oplock_break ≠ samba_3_4_1.NO_BREAK_SENT ∧
      f1.pending_break_messages = [] ∧ f1.oplock_timeout.isSome = true := by
  refine ⟨_, _, _, rfl, rfl, by decide, ?_, ?_, by decide, rfl, ?_⟩
  all_goals
    have h := break_in_flight_invariant samba_3_4_1 false (fun _ gen => decide (gen = 2))
      two_exclusive_files _
      [(env.plain, op.process_oplock_break_message ⟨4242, 0⟩ sample_blob),
       (env.plain, op.process_kernel_oplock_break kernel_blob_other)]
      (by decide)
      ⟨⟨rfl, fun _ => rfl⟩, fun s1 h1 => ⟨by
        obtain rfl : _ = s1 := Except.ok.inj h1
        intro buf i fsp hd _ hi _
        obtain rfl : List.replicate 24 8 ++ [2, 0, 0, 0] = buf := Option.some.inj hd
        obtain ⟨-, rfl⟩ := Prod.mk.inj (Option.some.inj hi)
        exact ⟨rfl, rfl, fun _ => rfl⟩, fun _ _ => trivial⟩⟩
      rfl
  · exact (h _ (List.mem_cons_self _ _) (by decide)).1 rfl
  · exact (h _ (List.mem_cons_self _ _) (by decide)).2 rfl
  · exact (h _ (List.mem_cons_of_mem _ (List.mem_cons_self _ _)) (by decide)).2 rfl

/-! ## Coalescing, asynchronous breaks, notification and counters -/

/-- C21: for a well-formed break request naming a handle that is found with
a non-NONE oplock and a marker other than NO_BREAK_SENT,
`process_oplock_break_message` returns with the globals as they were
(nothing sent to the client or on the bus, both counters unchanged) and
with the handle changed in its pending list only: the decoded message with
the sender as pid is appended last, the earlier entries keeping their
order; oplock type, marker and timer are unchanged. -/
theorem break_coalescing (K : smb_h) (E : env) (s : smbd) (src : server_id)
    (data : DATA_BLOB) (buf : List Nat) (i : Nat) (fsp : files_struct)
    (hd : data.data = some buf)
    (hl : data.length = MSG_SMB_SHARE_MODE_ENTRY_SIZE K.CLUSTER_SUPPORT)
    (hi : initial_break_processing K s.Files (decoded K buf).id (decoded K buf).share_file_id
      = some (i, fsp))
    (hb : fsp.sent_oplock_break ≠ K.NO_BREAK_SENT) :
    ∃ (s1 : smbd) (fsp1 : files_struct),
      process_oplock_break_message K E s src data = Except.ok s1 ∧
      s1.g = s.g ∧ s1.Files = s.Files.set i fsp1 ∧ s1.Files[i]? = some fsp1 ∧
      fsp.oplock_type ≠ K.NO_OPLOCK ∧
      fsp1 = { fsp with
        pending_break_messages :=
          fsp.pending_break_messages ++ [{ decoded K buf with pid := src }] } := by
  have hf := initial_break_processing_some hi
  rw [process_oplock_break_message_in_flight K E s src data buf i fsp hd hl hi hb]
  exact ⟨_, _, rfl, rfl, rfl, getElem?_set_self_of_some hf.1, hf.2, rfl⟩

/-- C21, exercised: a second request of process 4242 arrives while the
break to level II of the EXCLUSIVE handle of file 7 is in flight. -/
theorem break_coalescing_witness :
    ∃ (s1 : smbd) (fsp1 : files_struct),
      process_oplock_break_message samba_3_4_1 env.plain one_breaking_handle ⟨4242, 0⟩
        sample_blob = Except.ok s1 ∧
      s1.g = one_breaking_handle.g ∧ s1.Files = [fsp1] ∧
      fsp1.pending_break_messages = [sample_entry, sample_entry] ∧
      fsp1.sent_oplock_break = samba_3_4_1.LEVEL_II_BREAK_SENT := by
  obtain ⟨s1, fsp1, h, hg, hF, -, -, hp⟩ :=
    break_coalescing samba_3_4_1 env.plain one_breaking_handle ⟨4242, 0⟩ sample_blob
      sample_request 0 breaking_handle rfl rfl rfl (by decide)
  refine ⟨s1, fsp1, h, hg, hF, ?_, ?_⟩
  · rw [hp]; rfl
  · rw [hp]; rfl

/-- C22: for a well-formed break request of an EXCLUSIVE-family type naming
a handle that is found with no break in flight and a non-NONE oplock outside
the EXCLUSIVE family, `process_oplock_break_message` returns after one call
only, the send of MSG_SMB_BREAK_RESPONSE to the sender with the first
MSG_SMB_SHARE_MODE_ENTRY_SIZE bytes of the received buffer, which is the
whole buffer when it has that length: nothing goes to the client and no
handle, pending list, timer or counter changes. -/
theorem already_downgraded_reply (K : smb_h) (E : env) (s : smbd) (src : server_id)
    (data : DATA_BLOB) (buf : List Nat) (i : Nat) (fsp : files_struct)
    (hd : data.data = some buf)
    (hl : data.length = MSG_SMB_SHARE_MODE_ENTRY_SIZE K.CLUSTER_SUPPORT)
    (hbuf : buf.length = data.length)
    (hi : initial_break_processing K s.Files (decoded K buf).id (decoded K buf).share_file_id
      = some (i, fsp))
    (hn : fsp.sent_oplock_break = K.NO_BREAK_SENT)
    (hx : K.EXCLUSIVE_OPLOCK_TYPE (decoded K buf).op_type = true)
    (hf : K.EXCLUSIVE_OPLOCK_TYPE fsp.oplock_type = false) :
    process_oplock_break_message K E s src data = Except.ok
      { g := { s.g with trace := s.g.trace ++
                 [event.messaging_send_buf src MSG_SMB_BREAK_RESPONSE buf] }
        Files := s.Files } ∧
    fsp.oplock_type ≠ K.NO_OPLOCK := by
  have htake : buf.take (MSG_SMB_SHARE_MODE_ENTRY_SIZE K.CLUSTER_SUPPORT) = buf := by
    rw [← hl, ← hbuf]; exact List.take_length _
  have h := process_oplock_break_message_downgraded K E s src data buf i fsp hd hl hi hn hx hf
  rw [htake] at h
  exact ⟨h, (initial_break_processing_some hi).2⟩

/-- C22, exercised: process 4242 asks to break the EXCLUSIVE oplock of a
handle that is in LEVEL_II. -/
theorem already_downgraded_reply_witness :
    process_oplock_break_message samba_3_4_1 env.plain one_level2_handle ⟨4242, 0⟩ sample_blob
      = Except.ok
        { g := { one_level2_handle.g with trace :=
                   [event.messaging_send_buf ⟨4242, 0⟩ MSG_SMB_BREAK_RESPONSE sample_request] }
          Files := one_level2_handle.Files } :=
  (already_downgraded_reply samba_3_4_1 env.plain one_level2_handle ⟨4242, 0⟩ sample_blob
    sample_request 0 (files_struct.sample 7 1 4) rfl rfl (by decide) rfl rfl rfl rfl).1

/-- C24: for a handle in FAKE_LEVEL_II, when the registry lock is obtained
(the counters being non-negative), `break_level2_to_none_async` returns
having sent no break notice to the client and nothing on the message bus,
and leaves the handle in NONE with both global counters unchanged. -/
theorem silent_fake_level2_downgrade (K : smb_h) (hK : K.wf) (E : env) (g : globals)
    (fsp : files_struct) (lck : share_mode_lock)
    (hF : fsp.oplock_type = K.FAKE_LEVEL_II_OPLOCK)
    (hlock : E.get_share_mode_lock fsp.file_id = some lck)
    (h0x : 0 ≤ g.exclusive_oplocks_open) (h0l : 0 ≤ g.level_II_oplocks_open) :
    ∃ (g1 : globals) (fsp1 : files_struct),
      break_level2_to_none_async K E g fsp = Except.ok (g1, fsp1) ∧
      client_sends g1.trace = client_sends g.trace ∧
      bus_sends g1.trace = bus_sends g.trace ∧
      fsp1.oplock_type = K.NO_OPLOCK ∧
      g1.exclusive_oplocks_open = g.exclusive_oplocks_open ∧
      g1.level_II_oplocks_open = g.level_II_oplocks_open := by
  have hc : counted K g fsp := by
    refine ⟨h0x, h0l, ?_, ?_⟩
    · intro h
      rw [hF] at h
      exact absurd h.symm hK.level2_ne_fake
    · intro h
      rw [hF, hK.excl_fake] at h
      cases h
  have hre := remove_events_quiet K E fsp
  rw [break_level2_to_none_async_fake hK E g fsp lck hF hlock hc]
  refine ⟨_, _, rfl, ?_, ?_, rfl, rfl, rfl⟩
  · simp only [client_sends_append, hre.2.1, List.append_nil]
  · simp only [bus_sends_append, hre.1, List.append_nil]

/-- C24, exercised on a FAKE_LEVEL_II handle of file 7 with one level-II
oplock counted elsewhere. -/
theorem silent_fake_level2_downgrade_witness :
    ∃ (g1 : globals) (fsp1 : files_struct),
      break_level2_to_none_async samba_3_4_1 env.plain (globals.level2 1)
        (files_struct.sample 7 1 0x10) = Except.ok (g1, fsp1) ∧
      client_sends g1.trace = [] ∧ bus_sends g1.trace = [] ∧
      fsp1.oplock_type = samba_3_4_1.NO_OPLOCK ∧
      g1.exclusive_oplocks_open = 0 ∧ g1.level_II_oplocks_open = 1 :=
  silent_fake_level2_downgrade samba_3_4_1 samba_3_4_1_wf env.plain (globals.level2 1)
    (files_struct.sample 7 1 0x10) ⟨[]⟩ rfl rfl (by decide) (by decide)

/-- C25: when the requester holds a level-II-type oplock (LEVEL_II or
FAKE_LEVEL_II), the registry lock is obtained and no valid entry is of the
EXCLUSIVE family (the inline breaks for entries of this process succeeding:
packet allocated and sent, counters counting the handle),
`contend_level2_oplocks_begin_default` returns having sent on the message
bus exactly one MSG_SMB_ASYNC_LEVEL2_BREAK for every valid entry of another
process that carries an oplock, in registry order, addressed to the pid of
the entry with the entry in wire form (MSG_SMB_SHARE_MODE_ENTRY_SIZE bytes)
as payload; every valid LEVEL_II entry of another process is among them,
invalid entries and entries with NO_OPLOCK are not; the only registry write
it makes is the removal for the requesting handle. -/
theorem remote_holders_notified (K : smb_h) (hK : K.wf) (E : env) (g : globals)
    (fsp : files_struct) (lck : share_mode_lock)
    (hty2 : K.LEVEL_II_OPLOCK_TYPE fsp.oplock_type = true)
    (hty : fsp.oplock_type = K.LEVEL_II_OPLOCK ∨ fsp.oplock_type = K.FAKE_LEVEL_II_OPLOCK)
    (hlock : E.get_share_mode_lock fsp.file_id = some lck)
    (hnx : ∀ e ∈ lck.share_modes, E.is_valid_share_mode_entry e = true →
      K.EXCLUSIVE_OPLOCK_TYPE e.op_type = false)
    (ht : E.talloc_ok = true) (hs : E.srv_send_smb_ok = true) (hc : counted K g fsp) :
    ∃ (g1 : globals) (fsp1 : files_struct),
      contend_level2_oplocks_begin_default K E g fsp = Except.ok (g1, fsp1) ∧
      bus_sends g1.trace = bus_sends g.trace ++
        (lck.share_modes.filter
          (fun e => E.is_valid_share_mode_entry e && !decide (e.op_type = K.NO_OPLOCK) &&
            !procid_is_me K E e.pid)).map
          (fun e => event.messaging_send_buf e.pid MSG_SMB_ASYNC_LEVEL2_BREAK
            (share_mode_entry_to_message K.CLUSTER_SUPPORT
              (List.replicate (MSG_SMB_SHARE_MODE_ENTRY_SIZE K.CLUSTER_SUPPORT) 0) e)) ∧
      (∀ e : share_mode_entry,
        (share_mode_entry_to_message K.CLUSTER_SUPPORT
          (List.replicate (MSG_SMB_SHARE_MODE_ENTRY_SIZE K.CLUSTER_SUPPORT) 0) e).length
          = MSG_SMB_SHARE_MODE_ENTRY_SIZE K.CLUSTER_SUPPORT) ∧
      (∀ e ∈ lck.share_modes, E.is_valid_share_mode_entry e = true →
        e.op_type = K.LEVEL_II_OPLOCK → procid_is_me K E e.pid = false →
        async_break_for K e ∈ bus_sends g1.trace) ∧
      (∀ w ∈ registry_writes g1.trace, w ∈ registry_writes g.trace ∨
        w = event.remove_share_oplock fsp.file_id fsp.gen_id) := by
  obtain ⟨g1, fsp1, hr, hb, hw, -⟩ :=
    contend_level2_oplocks_begin_default_effect hK E g fsp lck hty2 hty hlock hnx ht hs hc
  refine ⟨g1, fsp1, hr, hb, fun e => encode_length _ _ e (by simp), ?_, hw⟩
  intro e he hv hL hme
  rw [hb]
  refine List.mem_append_right _ (List.mem_map.mpr ⟨e, List.mem_filter.mpr ⟨he, ?_⟩, rfl⟩)
  have hne : e.op_type ≠ K.NO_OPLOCK := by
    rw [hL]
    exact fun h => hK.none_ne_level2 h.symm
  simp [notified_remote, hv, hne, hme]

/-- C25, exercised: the requester's own entry, an entry with NO_OPLOCK and
a LEVEL_II entry of process 4242; one message goes out, to 4242. -/
theorem remote_holders_notified_witness :
    ∃ (g1 : globals) (fsp1 : files_struct),
      contend_level2_oplocks_begin_default samba_3_4_1
        (env.registry [own_entry 1, remote_entry 0, remote_entry 4]) (globals.level2 1)
        (files_struct.sample 7 1 4) = Except.ok (g1, fsp1) ∧
      bus_sends g1.trace = [async_break_for samba_3_4_1 (remote_entry 4)] := by
  obtain ⟨g1, fsp1, h, hb, -⟩ :=
    remote_holders_notified samba_3_4_1 samba_3_4_1_wf
      (env.registry [own_entry 1, remote_entry 0, remote_entry 4]) (globals.level2 1)
      (files_struct.sample 7 1 4) ⟨[own_entry 1, remote_entry 0, remote_entry 4]⟩
      (by decide) (Or.inl rfl) rfl (by decide) rfl rfl (by decide)
  exact ⟨g1, fsp1, h, hb⟩

/-- C26 as stated fails: the loop passes over invalid entries and entries
with NO_OPLOCK only.  With a LEVEL_II requester and a valid FAKE_LEVEL_II
entry of process 4242 in the registry, one MSG_SMB_ASYNC_LEVEL2_BREAK is
sent to 4242 for that entry. -/
theorem fake_level2_notified_counterexample :
    (remote_entry 0x10).op_type = samba_3_4_1.FAKE_LEVEL_II_OPLOCK ∧
    ∃ (g1 : globals) (fsp1 : files_struct),
      contend_level2_oplocks_begin_default samba_3_4_1 (env.registry [remote_entry 0x10])
        (globals.level2 1) (files_struct.sample 7 1 4) = Except.ok (g1, fsp1) ∧
      bus_sends g1.trace =
        [event.messaging_send_buf ⟨4242, 0⟩ MSG_SMB_ASYNC_LEVEL2_BREAK
          (share_mode_entry_to_message false (List.replicate 62 0) (remote_entry 0x10))] :=
  ⟨rfl, _, _, rfl, by decide⟩

/-- C26 (amended): `contend_level2_oplocks_begin_default` treats a valid
FAKE_LEVEL_II entry like a LEVEL_II entry: under the conditions of its
normal return (requester in LEVEL_II or FAKE_LEVEL_II, registry lock
obtained, no valid EXCLUSIVE-family entry, inline breaks succeeding), every
valid FAKE_LEVEL_II entry of another process gets a
MSG_SMB_ASYNC_LEVEL2_BREAK; every bus message it sends is for a valid entry
of another process that carries an oplock (none for invalid entries or
NO_OPLOCK); and when the requester itself is in FAKE_LEVEL_II no break
notice goes to the client. -/
theorem fake_level2_entries_notified (K : smb_h) (hK : K.wf) (E : env) (g : globals)
    (fsp : files_struct) (lck : share_mode_lock)
    (hty2 : K.LEVEL_II_OPLOCK_TYPE fsp.oplock_type = true)
    (hty : fsp.oplock_type = K.LEVEL_II_OPLOCK ∨ fsp.oplock_type = K.FAKE_LEVEL_II_OPLOCK)
    (hlock : E.get_share_mode_lock fsp.file_id = some lck)
    (hnx : ∀ e ∈ lck.share_modes, E.is_valid_share_mode_entry e = true →
      K.EXCLUSIVE_OPLOCK_TYPE e.op_type = false)
    (ht : E.talloc_ok = true) (hs : E.srv_send_smb_ok = true) (hc : counted K g fsp) :
    ∃ (g1 : globals) (fsp1 : files_struct) (added : List event),
      contend_level2_oplocks_begin_default K E g fsp = Except.ok (g1, fsp1) ∧
      bus_sends g1.trace = bus_sends g.trace ++ added ∧
      (∀ e ∈ lck.share_modes, E.is_valid_share_mode_entry e = true →
        e.op_type = K.FAKE_LEVEL_II_OPLOCK → procid_is_me K E e.pid = false →
        async_break_for K e ∈ added) ∧
      (∀ m ∈ added, ∃ e ∈ lck.share_modes, m = async_break_for K e ∧
        E.is_valid_share_mode_entry e = true ∧ e.op_type ≠ K.NO_OPLOCK ∧
        procid_is_me K E e.pid = false) ∧
      (fsp.oplock_type = K.FAKE_LEVEL_II_OPLOCK →
        client_sends g1.trace = client_sends g.trace) := by
  obtain ⟨g1, fsp1, hr, hb, -, hcl⟩ :=
    contend_level2_oplocks_begin_default_effect hK E g fsp lck hty2 hty hlock hnx ht hs hc
  refine ⟨g1, fsp1, _, hr, hb, ?_, ?_, ?_⟩
  · intro e he hv hF hme
    refine List.mem_map.mpr ⟨e, List.mem_filter.mpr ⟨he, ?_⟩, rfl⟩
    have hne : e.op_type ≠ K.NO_OPLOCK := by
      rw [hF]
      exact fun h => hK.none_ne_fake h.symm
    simp [notified_remote, hv, hne, hme]
  · intro m hm
    obtain ⟨e, he, rfl⟩ := List.mem_map.mp hm
    obtain ⟨he1, he2⟩ := List.mem_filter.mp he
    simp only [notified_remote, Bool.and_eq_true, Bool.not_eq_true', decide_eq_false_iff_not]
      at he2
    exact ⟨e, he1, rfl, he2.1.1, he2.1.2, he2.2⟩
  · intro hF
    refine hcl ?_
    rw [hF]
    exact fun h => hK.level2_ne_fake h.symm

/-- C26 (amended), exercised: a FAKE_LEVEL_II requester and a valid
FAKE_LEVEL_II entry of process 4242. -/
theorem fake_level2_entries_notified_witness :
    ∃ (g1 : globals) (fsp1 : files_struct) (added : List event),
      contend_level2_oplocks_begin_default samba_3_4_1 (env.registry [remote_entry 0x10])
        globals.zero (files_struct.sample 7 1 0x10) = Except.ok (g1, fsp1) ∧
      bus_sends g1.trace = added ∧
      async_break_for samba_3_4_1 (remote_entry 0x10) ∈ added ∧
      client_sends g1.trace = [] := by
  obtain ⟨g1, fsp1, added, h, hb, hin, -, hcl⟩ :=
    fake_level2_entries_notified samba_3_4_1 samba_3_4_1_wf (env.registry [remote_entry 0x10])
      globals.zero (files_struct.sample 7 1 0x10) ⟨[remote_entry 0x10]⟩
      (by decide) (Or.inr rfl) rfl (by decide) rfl rfl (by decide)
  exact ⟨g1, fsp1, added, h, hb,
    hin (remote_entry 0x10) (List.mem_singleton.mpr rfl) rfl rfl (by decide), hcl rfl⟩

/-- C27 as stated fails in its last clause: without
KOPLOCKS_TIMEOUT_NOTIFICATION, when the timed event cannot be added,
`add_oplock_timeout_handler` leaves the timeout token null. -/
theorem timeout_not_armed_counterexample :
    env.no_timer.koplocks_has samba_3_4_1.KOPLOCKS_TIMEOUT_NOTIFICATION = false ∧
    (add_oplock_timeout_handler samba_3_4_1 env.no_timer
      (files_struct.sample 7 1 EXCLUSIVE_OPLOCK)).oplock_timeout = none ∧
    ∃ (s1 : smbd) (fsp1 : files_struct),
      process_oplock_break_message samba_3_4_1 env.no_timer one_exclusive_handle ⟨4242, 0⟩
        sample_blob = Except.ok s1 ∧
      s1.Files[0]? = some fsp1 ∧
      fsp1.sent_oplock_break = samba_3_4_1.LEVEL_II_BREAK_SENT ∧
      fsp1.oplock_timeout = none :=
  ⟨by decide, rfl, _, _, rfl, rfl, rfl, rfl⟩

/-- C27 (amended): when a kernel backend is present with
KOPLOCKS_TIMEOUT_NOTIFICATION, `add_oplock_timeout_handler` returns the
handle as it was, and `process_oplock_break_message` and
`process_kernel_oplock_break` (which return when the break packet is
allocated and sent) leave the timeout token of every handle as it was;
without that flag `add_oplock_timeout_handler` changes the token only: to a
timeout of OPLOCK_BREAK_TIMEOUT seconds if the timed event can be added,
to null if it cannot. -/
theorem timeout_supervisor_backend (K : smb_h) (E : env) (fsp : files_struct) :
    (E.koplocks_has K.KOPLOCKS_TIMEOUT_NOTIFICATION = true →
      add_oplock_timeout_handler K E fsp = fsp ∧
      ∀ (s : smbd) (src : server_id) (data : DATA_BLOB),
        E.talloc_ok = true → E.srv_send_smb_ok = true →
        (∃ s1, process_oplock_break_message K E s src data = Except.ok s1 ∧
          s1.Files.map (fun x => x.oplock_timeout) = s.Files.map (fun x => x.oplock_timeout)) ∧
        (∃ s1, process_kernel_oplock_break K E s data = Except.ok s1 ∧
          s1.Files.map (fun x => x.oplock_timeout) = s.Files.map (fun x => x.oplock_timeout))) ∧
    (E.koplocks_has K.KOPLOCKS_TIMEOUT_NOTIFICATION = false →
      add_oplock_timeout_handler K E fsp =
        { fsp with oplock_timeout :=
            if E.event_add_timed_ok then some ⟨K.OPLOCK_BREAK_TIMEOUT, 0⟩ else none }) := by
  constructor
  · intro hf
    refine ⟨add_oplock_timeout_handler_disabled K E fsp hf, ?_⟩
    intro s src data ht hs
    obtain ⟨⟨s1, h1⟩, ⟨s2, h2⟩⟩ := break_handlers_return K E s src data ht hs
    exact ⟨⟨s1, h1, process_oplock_break_message_timers hf h1⟩,
      ⟨s2, h2, process_kernel_oplock_break_timers hf h2⟩⟩
  · intro hf
    rw [add_oplock_timeout_handler_eq]
    simp [hf]

/-- C27 (amended), exercised: with a backend that notifies timeouts the
break request leaves the handle without timer; without backend the timer is
armed with 30 seconds. -/
theorem timeout_supervisor_backend_witness :
    (∃ s1, process_oplock_break_message samba_3_4_1 (env.with_kernel 5) one_exclusive_handle
        ⟨4242, 0⟩ sample_blob = Except.ok s1 ∧
      s1.Files.map (fun x => x.oplock_timeout) = [none]) ∧
    (add_oplock_timeout_handler samba_3_4_1 env.plain
      (files_struct.sample 7 1 EXCLUSIVE_OPLOCK)).oplock_timeout = some ⟨30, 0⟩ := by
  constructor
  · exact (((timeout_supervisor_backend samba_3_4_1 (env.with_kernel 5)
      (files_struct.sample 7 1 EXCLUSIVE_OPLOCK)).1 (by decide)).2 one_exclusive_handle
      ⟨4242, 0⟩ sample_blob rfl rfl).1
  · rw [(timeout_supervisor_backend samba_3_4_1 env.plain
      (files_struct.sample 7 1 EXCLUSIVE_OPLOCK)).2 (by decide)]
    rfl

/-- C28: `break_kernel_oplock` posts to the process itself one
MSG_SMB_KERNEL_BREAK message of 28 bytes: the 24 bytes of the handle's file
identity followed by its gen_id as 4 bytes, low byte first.  For a handle
whose file identity is well formed and whose gen_id fits in 32 bits,
`process_kernel_oplock_break` given that message looks up the handle's own
(file_id, gen_id): in a state where the lookup by that pair finds the handle
(holding an oplock, no break in flight) the handler sends the break for that
handle and marks it BREAK_TO_NONE_SENT, every other handle staying as it
was; in a state where no open handle has that pair it changes nothing. -/
theorem kernel_break_round_trip (K : smb_h) (E : env) (g : globals) (fsp : files_struct)
    (hv : fsp.file_id.valid) (hg : fsp.gen_id < 2 ^ 32) :
    break_kernel_oplock E g fsp =
      g.log (event.messaging_send_buf E.procid_self MSG_SMB_KERNEL_BREAK
        (fsp.file_id.enc ++ leBytes 4 fsp.gen_id)) ∧
    fsp.file_id.enc.length = 24 ∧ (leBytes 4 fsp.gen_id).length = 4 ∧
    (fsp.file_id.enc ++ leBytes 4 fsp.gen_id).length = MSG_SMB_KERNEL_BREAK_SIZE ∧
    (∀ (E2 : env) (s : smbd) (i : Nat),
      file_find_dif s.Files fsp.file_id fsp.gen_id = some i → s.Files[i]? = some fsp →
      fsp.oplock_type ≠ K.NO_OPLOCK → fsp.sent_oplock_break = K.NO_BREAK_SENT →
      E2.talloc_ok = true → E2.srv_send_smb_ok = true →
      process_kernel_oplock_break K E2 s
          ⟨some (fsp.file_id.enc ++ leBytes 4 fsp.gen_id), MSG_SMB_KERNEL_BREAK_SIZE⟩
        = Except.ok
            { g := { s.g with
                     trace := s.g.trace ++ break_packet_events E2 fsp K.OPLOCKLEVEL_NONE }
              Files := s.Files.set i
                (add_oplock_timeout_handler K E2
                  { fsp with sent_oplock_break := K.BREAK_TO_NONE_SENT }) }) ∧
    (∀ (E2 : env) (s : smbd),
      file_find_dif s.Files fsp.file_id fsp.gen_id = none →
      process_kernel_oplock_break K E2 s
          ⟨some (fsp.file_id.enc ++ leBytes 4 fsp.gen_id), MSG_SMB_KERNEL_BREAK_SIZE⟩
        = Except.ok s) := by
  have hm : kernel_break_message fsp = fsp.file_id.enc ++ leBytes 4 fsp.gen_id := by
    rw [kernel_break_message, file_id_bytes_valid _ hv]
  have h1 := break_kernel_oplock_eq E g fsp
  have h2 := kernel_break_message_length fsp
  have h3 := kernel_break_message_pull fsp hv
  have h4 := kernel_break_message_IVAL fsp hg
  rw [hm] at h1 h2 h3 h4
  refine ⟨h1, hv.1, leBytes_length 4 _, h2, ?_, ?_⟩
  · intro E2 s i hf hi hne hn ht hs
    have hib : initial_break_processing K s.Files fsp.file_id fsp.gen_id = some (i, fsp) := by
      simp only [initial_break_processing, hf, hi, if_neg hne]
    simp only [process_kernel_oplock_break, h3, h4, hib, hn, new_break_smb_message, ht,
      ne_eq, not_true_eq_false, if_false, if_true]
    rw [send_break_to_client_eq E2 _ fsp _ hs]
    simp [globals.log, break_packet_events]
  · intro E2 s hf
    have hib : initial_break_processing K s.Files fsp.file_id fsp.gen_id = none := by
      simp only [initial_break_processing, hf]
    simp only [process_kernel_oplock_break, h3, h4, hib, ne_eq, not_true_eq_false, if_false]

/-- C28, exercised on the EXCLUSIVE handle `(file 7, 1)`: the message
posted is the payload `kernel_blob`, and `process_kernel_oplock_break` given
it breaks that handle: the break to NONE goes to the client, the marker is
BREAK_TO_NONE_SENT and the timer is armed. -/
theorem kernel_break_round_trip_witness :
    break_kernel_oplock env.plain globals.zero (files_struct.sample 7 1 EXCLUSIVE_OPLOCK) =
      globals.zero.log (event.messaging_send_buf ⟨100, 0⟩ MSG_SMB_KERNEL_BREAK
        (List.replicate 24 7 ++ [1, 0, 0, 0])) ∧
    kernel_blob = ⟨some (List.replicate 24 7 ++ [1, 0, 0, 0]), 28⟩ ∧
    process_kernel_oplock_break samba_3_4_1 env.plain one_exclusive_handle kernel_blob
      = Except.ok
          { g := { globals.one_exclusive with
                   trace := [event.srv_oplock_set_signing false,
                             event.srv_send_smb { tid := 1, fnum := 1, cmd := 0 } false,
                             event.srv_oplock_set_signing false] }
            Files := [{ files_struct.sample 7 1 EXCLUSIVE_OPLOCK with
                        sent_oplock_break := samba_3_4_1.BREAK_TO_NONE_SENT
                        oplock_timeout := some ⟨30, 0⟩ }] } := by
  obtain ⟨h1, -, -, -, h2, -⟩ :=
    kernel_break_round_trip samba_3_4_1 env.plain globals.zero
      (files_struct.sample 7 1 EXCLUSIVE_OPLOCK) (by decide) (by decide)
  exact ⟨h1, rfl, h2 env.plain one_exclusive_handle 0 (by decide) rfl (by decide) rfl rfl rfl⟩

/-- C30 as stated fails at the end of the counter range: the counters are
`int32`.  Without the restriction on grants, 2^31 LEVEL_II grants to the
first of two handles (no kernel backend) end with one handle in LEVEL_II
and `level_II_oplocks_open` at -2147483648, below the number of LEVEL_II
handles. -/
theorem counters_count_handles_counterexample :
    two_handles.initial samba_3_4_1 ∧
    ∃ s1, run samba_3_4_1 two_handles
        (List.replicate 2147483648 (env.plain, op.set_file_oplock 0 4)) = Except.ok s1 ∧
      s1.Files.countP (fun f => decide (f.oplock_type = samba_3_4_1.LEVEL_II_OPLOCK)) = 1 ∧
      s1.g.level_II_oplocks_open = -2147483648 ∧
      ¬ ((s1.Files.countP
            (fun f => decide (f.oplock_type = samba_3_4_1.LEVEL_II_OPLOCK)) : Int)
          ≤ s1.g.level_II_oplocks_open) :=
  ⟨by decide, _, run_level2_grants_wrap, by decide, rfl, by decide⟩

/-- C30 (amended): from the initial state, if `set_file_oplock` is applied
only to handles then in NONE or FAKE_LEVEL_II and there are at most
2^31 - 1 open handles, every sequence of `set_file_oplock`,
`downgrade_file_oplock` and `release_file_oplock` calls runs to its end
with `exclusive_oplocks_open` equal to the number of handles in an
EXCLUSIVE-family state and `level_II_oplocks_open` equal to the number of
handles in LEVEL_II, a handle in NONE or FAKE_LEVEL_II being counted by
neither; without the restriction, every such sequence of at most 2^31 - 1
calls runs to its end with each counter at least the number of handles in
the state it counts. -/
theorem counters_count_handles (K : smb_h) (hK : K.wf) (s : smbd) (ops : List (env × op))
    (h0 : s.initial K) (ho : ∀ x ∈ ops, x.2.is_counter_call = true) :
    (grants_fresh K s ops → s.Files.length ≤ 2147483647 →
      ∃ s1, run K s ops = Except.ok s1 ∧
        s1.g.exclusive_oplocks_open
          = (s1.Files.countP (fun f => K.EXCLUSIVE_OPLOCK_TYPE f.oplock_type) : Int) ∧
        s1.g.level_II_oplocks_open
          = (s1.Files.countP (fun f => decide (f.oplock_type = K.LEVEL_II_OPLOCK)) : Int)) ∧
    (ops.length ≤ 2147483647 →
      ∃ s1, run K s ops = Except.ok s1 ∧
        (s1.Files.countP (fun f => K.EXCLUSIVE_OPLOCK_TYPE f.oplock_type) : Int)
          ≤ s1.g.exclusive_oplocks_open ∧
        (s1.Files.countP (fun f => decide (f.oplock_type = K.LEVEL_II_OPLOCK)) : Int)
          ≤ s1.g.level_II_oplocks_open) ∧
    (∀ f : files_struct,
      f.oplock_type = K.NO_OPLOCK ∨ f.oplock_type = K.FAKE_LEVEL_II_OPLOCK →
      K.EXCLUSIVE_OPLOCK_TYPE f.oplock_type = false ∧ f.oplock_type ≠ K.LEVEL_II_OPLOCK) := by
  refine ⟨?_, ?_, ?_⟩
  · intro hg hn
    have hb : (s.Files.length : Int) ≤ INT32_MAX := by
      have : (s.Files.length : Int) ≤ 2147483647 := by exact_mod_cast hn
      simpa only [INT32_MAX] using this
    exact run_counters_exact hK ops s (initial_counters_exact hK h0) ho hg hb
  · intro hn
    have hb : (0 : Int) + (ops.length : Int) ≤ INT32_MAX := by
      have : (ops.length : Int) ≤ 2147483647 := by exact_mod_cast hn
      simp only [INT32_MAX]
      omega
    obtain ⟨s1, hr, hc, -, -⟩ := run_counter_calls hK ops s 0 (initial_counters_cover hK h0)
      (le_of_eq h0.1) (le_of_eq h0.2.1) ho hb
    exact ⟨s1, hr, hc.1, hc.2⟩
  · intro f hf
    rcases hf with h | h
    · rw [h]
      exact ⟨hK.excl_none, hK.none_ne_level2⟩
    · rw [h]
      exact ⟨hK.excl_fake, hK.level2_ne_fake.symm⟩

/-- C30 (amended), exercised: EXCLUSIVE to the first handle of file 7,
LEVEL_II to the second, then the first is downgraded: no exclusive oplock
and two level-II oplocks are counted, as many as there are such handles. -/
theorem counters_count_handles_witness :
    ∃ s1, run samba_3_4_1 two_handles
        [(env.plain, op.set_file_oplock 0 EXCLUSIVE_OPLOCK), (env.plain, op.set_file_oplock 1 4),
         (env.plain, op.downgrade_file_oplock 0)] = Except.ok s1 ∧
      s1.g.exclusive_oplocks_open
        = (s1.Files.countP (fun f => samba_3_4_1.EXCLUSIVE_OPLOCK_TYPE f.oplock_type) : Int) ∧
      s1.g.level_II_oplocks_open
        = (s1.Files.countP
            (fun f => decide (f.oplock_type = samba_3_4_1.LEVEL_II_OPLOCK)) : Int) := by
  refine (counters_count_handles samba_3_4_1 samba_3_4_1_wf two_handles
    [(env.plain, op.set_file_oplock 0 EXCLUSIVE_OPLOCK), (env.plain, op.set_file_oplock 1 4),
     (env.plain, op.downgrade_file_oplock 0)] (by decide) (by decide)).1 ?_ (by decide)
  refine ⟨?_, fun s1 h1 => ⟨?_, fun _ _ => ⟨trivial, fun _ _ => trivial⟩⟩⟩
  · intro f hf
    obtain rfl : files_struct.sample 7 1 0 = f := Option.some.inj hf
    exact Or.inl rfl
  · obtain rfl : _ = s1 := Except.ok.inj h1
    intro f hf
    obtain rfl : files_struct.sample 7 2 0 = f := Option.some.inj hf
    exact Or.inl rfl

end Oplock
